import Mathlib

/-!
Vendor specific A2DP codec dispatch (`system/stack/a2dp/a2dp_vendor.cc`)

A shallow embedding of the vendor codec dispatcher.

* A capability buffer `const uint8_t* p_codec_info` is the list of the bytes
  that can be read through the pointer.  Reading an index past the end is
  undefined behaviour in the source; here it is the result `none`.
* Every function of the file therefore returns an `Option`: `some r` when the
  source returns `r`, `none` when the source performs a read out of the buffer
  (or a callee does).
* C++ `int` and `uint32_t` values are natural numbers below `2 ^ 32` standing
  for the 32 bit pattern (two's complement for `int`); a `uint16_t` is a
  natural number below `2 ^ 16`.  `&` and `|` act on the bit patterns, `<<` is
  a multiplication by a power of two reduced modulo `2 ^ 32`.
* The constants of `a2dp_vendor.h` and of the family headers, the family
  functions (`...Aptx`, `...AptxHd`, `...Ldac`, `...Opus`, `...LhdcV2`,
  `...LhdcV3`, `...LhdcV5`), `A2DP_GetCodecType` and `loghex` are declared in
  other files; they are parameters, collected in `VendorConsts` and `Env`.
-/

namespace A2dpVendor

/-! ## Bytes, buffers and machine arithmetic -/

/-- The type `uint8_t`. -/
abbrev Byte := Fin 256

/-- The bytes readable through a `const uint8_t*`. -/
abbrev CodecInfo := List Byte

/-- The read `p[i]`, integer promoted; `none` when `i` is out of the buffer. -/
def readByte (p : CodecInfo) (i : Nat) : Option Nat :=
  p[i]?.map Fin.val

/-- The pointer `&p[i]`. -/
def offsetPtr (p : CodecInfo) (i : Nat) : CodecInfo :=
  p.drop i

/-- The operator `x << n` on a 32 bit pattern. -/
def shl32 (x n : Nat) : Nat :=
  (x * 2 ^ n) % 2 ^ 32

/-- Conversion to `uint32_t`. -/
def toU32 (x : Nat) : Nat :=
  x % 2 ^ 32

/-- Conversion to `uint16_t`. -/
def toU16 (x : Nat) : Nat :=
  x % 2 ^ 16

/-! ## Constants declared in the headers -/

/-- The constants the dispatcher uses; their `#define`s are in `a2dp_vendor.h`
and in the headers of the codec families. -/
structure VendorConsts where
  A2DP_VENDOR_CODEC_VENDOR_ID_START_IDX : Nat
  A2DP_VENDOR_CODEC_CODEC_ID_START_IDX : Nat
  A2DP_APTX_VENDOR_ID : Nat
  A2DP_APTX_CODEC_ID_BLUETOOTH : Nat
  A2DP_APTX_HD_VENDOR_ID : Nat
  A2DP_APTX_HD_CODEC_ID_BLUETOOTH : Nat
  A2DP_LDAC_VENDOR_ID : Nat
  A2DP_LDAC_CODEC_ID : Nat
  A2DP_OPUS_VENDOR_ID : Nat
  A2DP_OPUS_CODEC_ID : Nat
  A2DP_LHDC_VENDOR_ID : Nat
  A2DP_LHDCV2_CODEC_ID : Nat
  A2DP_LHDCV3_CODEC_ID : Nat
  A2DP_LHDCV5_CODEC_ID : Nat
  A2DP_MEDIA_CT_NON_A2DP : Nat

/-! ## The field accessors -/

/-- Source: `A2DP_VendorCodecGetVendorId`. -/
def A2DP_VendorCodecGetVendorId (C : VendorConsts) (p_codec_info : CodecInfo) :
    Option Nat := do
  let p := offsetPtr p_codec_info C.A2DP_VENDOR_CODEC_VENDOR_ID_START_IDX
  let p0 ← readByte p 0
  let p1 ← readByte p 1
  let p2 ← readByte p 2
  let p3 ← readByte p 3
  let vendor_id :=
    toU32 ((p0 &&& 0x000000ff) ||| (shl32 p1 8 &&& 0x0000ff00) |||
      (shl32 p2 16 &&& 0x00ff0000) ||| (shl32 p3 24 &&& 0xff000000))
  pure vendor_id

/-- Source: `A2DP_VendorCodecGetCodecId`. -/
def A2DP_VendorCodecGetCodecId (C : VendorConsts) (p_codec_info : CodecInfo) :
    Option Nat := do
  let p := offsetPtr p_codec_info C.A2DP_VENDOR_CODEC_CODEC_ID_START_IDX
  let p0 ← readByte p 0
  let p1 ← readByte p 1
  let codec_id := toU16 ((p0 &&& 0x00ff) ||| (shl32 p1 8 &&& 0xff00))
  pure codec_id

/-! ## The codec families

The functions of the codec families are defined in `a2dp_vendor_aptx.cc`,
`a2dp_vendor_aptx_hd.cc`, `a2dp_vendor_ldac.cc`, `a2dp_vendor_opus.cc`,
`a2dp_vendor_lhdcv2.cc`, `a2dp_vendor_lhdcv3.cc`, `a2dp_vendor_lhdcv3_dec.cc`
and `a2dp_vendor_lhdcv5.cc`.  The dispatcher only calls them, so they are
arbitrary functions here.  A family function reads the buffer it is given, so
its result is an `Option` as well (`none`: it does not return a value).

The function `A2DP_VendorGetBitRateLdac` of the source is
`E.Ldac.A2DP_VendorGetBitRate` here, `A2DP_IsVendorSinkCodecValidLhdcV3` is
`E.LhdcV3Sink.A2DP_IsVendorSinkCodecValid`, and so on: the family suffix of the
source name is the field of the environment.

The types `BT_HDR`, `tA2DP_ENCODER_INTERFACE`, `tA2DP_DECODER_INTERFACE` and
`AvdtpSepConfig` are declared elsewhere; they are the type parameters `Hdr`,
`Enc`, `Dec` and `Cfg`.  A pointer to an interface is an `Option` (`none` is
`NULL`).  A function writing through a pointer returns the written object next
to its result.
-/

/-- A value of type `btav_a2dp_codec_index_t`: one of the enumerators that the
file names, or (`other`) an integer that is the value of no enumerator. -/
inductive btav_a2dp_codec_index_t where
  | BTAV_A2DP_CODEC_INDEX_SOURCE_SBC
  | BTAV_A2DP_CODEC_INDEX_SINK_SBC
  | BTAV_A2DP_CODEC_INDEX_SOURCE_AAC
  | BTAV_A2DP_CODEC_INDEX_SINK_AAC
  | BTAV_A2DP_CODEC_INDEX_SOURCE_APTX
  | BTAV_A2DP_CODEC_INDEX_SOURCE_APTX_HD
  | BTAV_A2DP_CODEC_INDEX_SOURCE_LDAC
  | BTAV_A2DP_CODEC_INDEX_SINK_LDAC
  | BTAV_A2DP_CODEC_INDEX_SOURCE_LC3
  | BTAV_A2DP_CODEC_INDEX_SOURCE_OPUS
  | BTAV_A2DP_CODEC_INDEX_SINK_OPUS
  | BTAV_A2DP_CODEC_INDEX_SOURCE_LHDCV2
  | BTAV_A2DP_CODEC_INDEX_SOURCE_LHDCV3
  | BTAV_A2DP_CODEC_INDEX_SOURCE_LHDCV5
  | BTAV_A2DP_CODEC_INDEX_SINK_LHDCV3
  | BTAV_A2DP_CODEC_INDEX_SINK_LHDCV5
  | BTAV_A2DP_CODEC_INDEX_MAX
  | other (raw : Int)
  deriving DecidableEq, Repr

/-- The functions every family has (source side and role neutral). -/
structure FamilyOps (Hdr Enc Cfg : Type) where
  A2DP_IsVendorSourceCodecValid : CodecInfo → Option Bool
  A2DP_IsVendorPeerSinkCodecValid : CodecInfo → Option Bool
  A2DP_VendorUsesRtpHeader : Bool → CodecInfo → Option Bool
  A2DP_VendorCodecName : CodecInfo → Option String
  A2DP_VendorCodecTypeEquals : CodecInfo → CodecInfo → Option Bool
  A2DP_VendorCodecEquals : CodecInfo → CodecInfo → Option Bool
  A2DP_VendorGetBitRate : CodecInfo → Option Int
  A2DP_VendorGetTrackSampleRate : CodecInfo → Option Int
  A2DP_VendorGetTrackBitsPerSample : CodecInfo → Option Int
  A2DP_VendorGetTrackChannelCount : CodecInfo → Option Int
  /-- Arguments `p_codec_info`, `p_data`, `*p_timestamp`; result and new `*p_timestamp`. -/
  A2DP_VendorGetPacketTimestamp : CodecInfo → CodecInfo → Nat → Option (Bool × Nat)
  /-- Arguments `p_codec_info`, `*p_buf`, `frames_per_packet`; result and new `*p_buf`. -/
  A2DP_VendorBuildCodecHeader : CodecInfo → Hdr → Nat → Option (Bool × Hdr)
  A2DP_VendorGetEncoderInterface : CodecInfo → Option (Option Enc)
  /-- Result and the buffer after the call. -/
  A2DP_VendorAdjustCodec : CodecInfo → Option (Bool × CodecInfo)
  A2DP_VendorSourceCodecIndex : CodecInfo → Option btav_a2dp_codec_index_t
  A2DP_VendorCodecIndexStr : String
  /-- Argument `*p_cfg`; result and new `*p_cfg`. -/
  A2DP_VendorInitCodecConfig : Cfg → Option (Bool × Cfg)
  A2DP_VendorCodecInfoString : CodecInfo → Option String

/-- The sink side functions; LDAC, Opus, LHDC V3 and LHDC V5 have them. -/
structure SinkOps (Dec Cfg : Type) where
  A2DP_IsVendorSinkCodecValid : CodecInfo → Option Bool
  A2DP_IsVendorPeerSourceCodecValid : CodecInfo → Option Bool
  A2DP_IsVendorSinkCodecSupported : CodecInfo → Option Bool
  A2DP_IsPeerSourceCodecSupported : CodecInfo → Option Bool
  A2DP_VendorGetSinkTrackChannelType : CodecInfo → Option Int
  A2DP_VendorGetDecoderInterface : CodecInfo → Option (Option Dec)
  A2DP_VendorSinkCodecIndex : CodecInfo → Option btav_a2dp_codec_index_t
  A2DP_VendorCodecIndexStr : String
  /-- Argument `*p_cfg`; result and new `*p_cfg`. -/
  A2DP_VendorInitCodecConfig : Cfg → Option (Bool × Cfg)

/-- Everything the file takes from elsewhere. -/
structure Env (Hdr Enc Dec Cfg : Type) extends VendorConsts where
  Aptx : FamilyOps Hdr Enc Cfg
  AptxHd : FamilyOps Hdr Enc Cfg
  Ldac : FamilyOps Hdr Enc Cfg
  Opus : FamilyOps Hdr Enc Cfg
  LhdcV2 : FamilyOps Hdr Enc Cfg
  LhdcV3 : FamilyOps Hdr Enc Cfg
  LhdcV5 : FamilyOps Hdr Enc Cfg
  LdacSink : SinkOps Dec Cfg
  OpusSink : SinkOps Dec Cfg
  LhdcV3Sink : SinkOps Dec Cfg
  LhdcV5Sink : SinkOps Dec Cfg
  /-- The function `A2DP_GetCodecType` of `a2dp_codec_config.cc`. -/
  A2DP_GetCodecType : CodecInfo → Option Nat
  /-- The function `loghex` at type `uint32_t`. -/
  loghex_uint32 : Nat → String
  /-- The function `loghex` at type `uint16_t`. -/
  loghex_uint16 : Nat → String

variable {Hdr Enc Dec Cfg : Type}

/-! ## The dispatchers

Every dispatcher decodes the key of the buffer and runs a sequence of
statements `if (c) return r;` that ends in a `return`.  Such a sequence is the
chain `if c then r else ...` here, in the order of the source; the branches are
the calls of the family functions, the last `else` is the final `return`.
-/

/-- Source: `A2DP_IsVendorSourceCodecValid`. -/
def A2DP_IsVendorSourceCodecValid (E : Env Hdr Enc Dec Cfg) (p_codec_info : CodecInfo) :
    Option Bool := do
  let vendor_id ← A2DP_VendorCodecGetVendorId E.toVendorConsts p_codec_info
  let codec_id ← A2DP_VendorCodecGetCodecId E.toVendorConsts p_codec_info
  -- Check for aptX
  if vendor_id = E.A2DP_APTX_VENDOR_ID ∧ codec_id = E.A2DP_APTX_CODEC_ID_BLUETOOTH then
    E.Aptx.A2DP_IsVendorSourceCodecValid p_codec_info
  -- Check for aptX-HD
  else if vendor_id = E.A2DP_APTX_HD_VENDOR_ID ∧ codec_id = E.A2DP_APTX_HD_CODEC_ID_BLUETOOTH then
    E.AptxHd.A2DP_IsVendorSourceCodecValid p_codec_info
  -- Check for LDAC
  else if vendor_id = E.A2DP_LDAC_VENDOR_ID ∧ codec_id = E.A2DP_LDAC_CODEC_ID then
    E.Ldac.A2DP_IsVendorSourceCodecValid p_codec_info
  -- Check for Opus
  else if vendor_id = E.A2DP_OPUS_VENDOR_ID ∧ codec_id = E.A2DP_OPUS_CODEC_ID then
    E.Opus.A2DP_IsVendorSourceCodecValid p_codec_info
  -- Check for Savitech LHDCV2
  else if vendor_id = E.A2DP_LHDC_VENDOR_ID ∧ codec_id = E.A2DP_LHDCV2_CODEC_ID then
    E.LhdcV2.A2DP_IsVendorSourceCodecValid p_codec_info
  -- Check for Savitech LHDCV3
  else if vendor_id = E.A2DP_LHDC_VENDOR_ID ∧ codec_id = E.A2DP_LHDCV3_CODEC_ID then
    E.LhdcV3.A2DP_IsVendorSourceCodecValid p_codec_info
  -- Check for Savitech LHDCV5
  else if vendor_id = E.A2DP_LHDC_VENDOR_ID ∧ codec_id = E.A2DP_LHDCV5_CODEC_ID then
    E.LhdcV5.A2DP_IsVendorSourceCodecValid p_codec_info
  else
    pure false

/-- Source: `A2DP_IsVendorSinkCodecValid`. -/
def A2DP_IsVendorSinkCodecValid (E : Env Hdr Enc Dec Cfg) (p_codec_info : CodecInfo) :
    Option Bool := do
  let vendor_id ← A2DP_VendorCodecGetVendorId E.toVendorConsts p_codec_info
  let codec_id ← A2DP_VendorCodecGetCodecId E.toVendorConsts p_codec_info
  -- Check for LDAC
  if vendor_id = E.A2DP_LDAC_VENDOR_ID ∧ codec_id = E.A2DP_LDAC_CODEC_ID then
    E.LdacSink.A2DP_IsVendorSinkCodecValid p_codec_info
  -- Check for Opus
  else if vendor_id = E.A2DP_OPUS_VENDOR_ID ∧ codec_id = E.A2DP_OPUS_CODEC_ID then
    E.OpusSink.A2DP_IsVendorSinkCodecValid p_codec_info
  -- Check for Savitech LHDCV3 Sink
  else if vendor_id = E.A2DP_LHDC_VENDOR_ID ∧ codec_id = E.A2DP_LHDCV3_CODEC_ID then
    E.LhdcV3Sink.A2DP_IsVendorSinkCodecValid p_codec_info
  -- Check for Savitech LHDCV5 Sink
  else if vendor_id = E.A2DP_LHDC_VENDOR_ID ∧ codec_id = E.A2DP_LHDCV5_CODEC_ID then
    E.LhdcV5Sink.A2DP_IsVendorSinkCodecValid p_codec_info
  else
    pure false

/-- Source: `A2DP_IsVendorPeerSourceCodecValid`. -/
def A2DP_IsVendorPeerSourceCodecValid (E : Env Hdr Enc Dec Cfg) (p_codec_info : CodecInfo) :
    Option Bool := do
  let vendor_id ← A2DP_VendorCodecGetVendorId E.toVendorConsts p_codec_info
  let codec_id ← A2DP_VendorCodecGetCodecId E.toVendorConsts p_codec_info
  -- Check for LDAC
  if vendor_id = E.A2DP_LDAC_VENDOR_ID ∧ codec_id = E.A2DP_LDAC_CODEC_ID then
    E.LdacSink.A2DP_IsVendorPeerSourceCodecValid p_codec_info
  -- Check for Opus
  else if vendor_id = E.A2DP_OPUS_VENDOR_ID ∧ codec_id = E.A2DP_OPUS_CODEC_ID then
    E.OpusSink.A2DP_IsVendorPeerSourceCodecValid p_codec_info
  -- Check for Savitech LHDCV3 Sink
  else if vendor_id = E.A2DP_LHDC_VENDOR_ID ∧ codec_id = E.A2DP_LHDCV3_CODEC_ID then
    E.LhdcV3Sink.A2DP_IsVendorPeerSourceCodecValid p_codec_info
  -- Check for Savitech LHDCV5 Sink
  else if vendor_id = E.A2DP_LHDC_VENDOR_ID ∧ codec_id = E.A2DP_LHDCV5_CODEC_ID then
    E.LhdcV5Sink.A2DP_IsVendorPeerSourceCodecValid p_codec_info
  else
    pure false

/-- Source: `A2DP_IsVendorPeerSinkCodecValid`. -/
def A2DP_IsVendorPeerSinkCodecValid (E : Env Hdr Enc Dec Cfg) (p_codec_info : CodecInfo) :
    Option Bool := do
  let vendor_id ← A2DP_VendorCodecGetVendorId E.toVendorConsts p_codec_info
  let codec_id ← A2DP_VendorCodecGetCodecId E.toVendorConsts p_codec_info
  -- Check for aptX
  if vendor_id = E.A2DP_APTX_VENDOR_ID ∧ codec_id = E.A2DP_APTX_CODEC_ID_BLUETOOTH then
    E.Aptx.A2DP_IsVendorPeerSinkCodecValid p_codec_info
  -- Check for aptX-HD
  else if vendor_id = E.A2DP_APTX_HD_VENDOR_ID ∧ codec_id = E.A2DP_APTX_HD_CODEC_ID_BLUETOOTH then
    E.AptxHd.A2DP_IsVendorPeerSinkCodecValid p_codec_info
  -- Check for LDAC
  else if vendor_id = E.A2DP_LDAC_VENDOR_ID ∧ codec_id = E.A2DP_LDAC_CODEC_ID then
    E.Ldac.A2DP_IsVendorPeerSinkCodecValid p_codec_info
  -- Check for Opus
  else if vendor_id = E.A2DP_OPUS_VENDOR_ID ∧ codec_id = E.A2DP_OPUS_CODEC_ID then
    E.Opus.A2DP_IsVendorPeerSinkCodecValid p_codec_info
  -- Check for Savitech LHDCV2
  else if vendor_id = E.A2DP_LHDC_VENDOR_ID ∧ codec_id = E.A2DP_LHDCV2_CODEC_ID then
    E.LhdcV2.A2DP_IsVendorPeerSinkCodecValid p_codec_info
  -- Check for Savitech LHDCV3
  else if vendor_id = E.A2DP_LHDC_VENDOR_ID ∧ codec_id = E.A2DP_LHDCV3_CODEC_ID then
    E.LhdcV3.A2DP_IsVendorPeerSinkCodecValid p_codec_info
  -- Check for Savitech LHDCV5
  else if vendor_id = E.A2DP_LHDC_VENDOR_ID ∧ codec_id = E.A2DP_LHDCV5_CODEC_ID then
    E.LhdcV5.A2DP_IsVendorPeerSinkCodecValid p_codec_info
  else
    pure false

/-- Source: `A2DP_IsVendorSinkCodecSupported`. -/
def A2DP_IsVendorSinkCodecSupported (E : Env Hdr Enc Dec Cfg) (p_codec_info : CodecInfo) :
    Option Bool := do
  let vendor_id ← A2DP_VendorCodecGetVendorId E.toVendorConsts p_codec_info
  let codec_id ← A2DP_VendorCodecGetCodecId E.toVendorConsts p_codec_info
  -- Check for LDAC
  if vendor_id = E.A2DP_LDAC_VENDOR_ID ∧ codec_id = E.A2DP_LDAC_CODEC_ID then
    E.LdacSink.A2DP_IsVendorSinkCodecSupported p_codec_info
  -- Check for Opus
  else if vendor_id = E.A2DP_OPUS_VENDOR_ID ∧ codec_id = E.A2DP_OPUS_CODEC_ID then
    E.OpusSink.A2DP_IsVendorSinkCodecSupported p_codec_info
  -- Check for Savitech LHDCV3 Sink
  else if vendor_id = E.A2DP_LHDC_VENDOR_ID ∧ codec_id = E.A2DP_LHDCV3_CODEC_ID then
    E.LhdcV3Sink.A2DP_IsVendorSinkCodecSupported p_codec_info
  -- Check for Savitech LHDCV5 Sink
  else if vendor_id = E.A2DP_LHDC_VENDOR_ID ∧ codec_id = E.A2DP_LHDCV5_CODEC_ID then
    E.LhdcV5Sink.A2DP_IsVendorSinkCodecSupported p_codec_info
  else
    pure false

/-- Source: `A2DP_IsVendorPeerSourceCodecSupported`. -/
def A2DP_IsVendorPeerSourceCodecSupported (E : Env Hdr Enc Dec Cfg) (p_codec_info : CodecInfo) :
    Option Bool := do
  let vendor_id ← A2DP_VendorCodecGetVendorId E.toVendorConsts p_codec_info
  let codec_id ← A2DP_VendorCodecGetCodecId E.toVendorConsts p_codec_info
  -- Check for LDAC
  if vendor_id = E.A2DP_LDAC_VENDOR_ID ∧ codec_id = E.A2DP_LDAC_CODEC_ID then
    E.LdacSink.A2DP_IsPeerSourceCodecSupported p_codec_info
  -- Check for Opus
  else if vendor_id = E.A2DP_OPUS_VENDOR_ID ∧ codec_id = E.A2DP_OPUS_CODEC_ID then
    E.OpusSink.A2DP_IsPeerSourceCodecSupported p_codec_info
  -- Check for Savitech LHDCV3 Sink
  else if vendor_id = E.A2DP_LHDC_VENDOR_ID ∧ codec_id = E.A2DP_LHDCV3_CODEC_ID then
    E.LhdcV3Sink.A2DP_IsPeerSourceCodecSupported p_codec_info
  -- Check for Savitech LHDCV5 Sink
  else if vendor_id = E.A2DP_LHDC_VENDOR_ID ∧ codec_id = E.A2DP_LHDCV5_CODEC_ID then
    E.LhdcV5Sink.A2DP_IsPeerSourceCodecSupported p_codec_info
  else
    pure false

/-- Source: `A2DP_VendorUsesRtpHeader`. -/
def A2DP_VendorUsesRtpHeader (E : Env Hdr Enc Dec Cfg)
    (content_protection_enabled : Bool) (p_codec_info : CodecInfo) :
    Option Bool := do
  let vendor_id ← A2DP_VendorCodecGetVendorId E.toVendorConsts p_codec_info
  let codec_id ← A2DP_VendorCodecGetCodecId E.toVendorConsts p_codec_info
  -- Check for aptX
  if vendor_id = E.A2DP_APTX_VENDOR_ID ∧ codec_id = E.A2DP_APTX_CODEC_ID_BLUETOOTH then
    E.Aptx.A2DP_VendorUsesRtpHeader content_protection_enabled p_codec_info
  -- Check for aptX-HD
  else if vendor_id = E.A2DP_APTX_HD_VENDOR_ID ∧ codec_id = E.A2DP_APTX_HD_CODEC_ID_BLUETOOTH then
    E.AptxHd.A2DP_VendorUsesRtpHeader content_protection_enabled p_codec_info
  -- Check for LDAC
  else if vendor_id = E.A2DP_LDAC_VENDOR_ID ∧ codec_id = E.A2DP_LDAC_CODEC_ID then
    E.Ldac.A2DP_VendorUsesRtpHeader content_protection_enabled p_codec_info
  -- Check for Opus
  else if vendor_id = E.A2DP_OPUS_VENDOR_ID ∧ codec_id = E.A2DP_OPUS_CODEC_ID then
    E.Opus.A2DP_VendorUsesRtpHeader content_protection_enabled p_codec_info
  -- Check for Savitech LHDCV2
  else if vendor_id = E.A2DP_LHDC_VENDOR_ID ∧ codec_id = E.A2DP_LHDCV2_CODEC_ID then
    E.LhdcV2.A2DP_VendorUsesRtpHeader content_protection_enabled p_codec_info
  -- Check for Savitech LHDCV3
  else if vendor_id = E.A2DP_LHDC_VENDOR_ID ∧ codec_id = E.A2DP_LHDCV3_CODEC_ID then
    E.LhdcV3.A2DP_VendorUsesRtpHeader content_protection_enabled p_codec_info
  -- Check for Savitech LHDCV5
  else if vendor_id = E.A2DP_LHDC_VENDOR_ID ∧ codec_id = E.A2DP_LHDCV5_CODEC_ID then
    E.LhdcV5.A2DP_VendorUsesRtpHeader content_protection_enabled p_codec_info
  else
    pure true

/-- Source: `A2DP_VendorCodecName`. -/
def A2DP_VendorCodecName (E : Env Hdr Enc Dec Cfg) (p_codec_info : CodecInfo) :
    Option String := do
  let vendor_id ← A2DP_VendorCodecGetVendorId E.toVendorConsts p_codec_info
  let codec_id ← A2DP_VendorCodecGetCodecId E.toVendorConsts p_codec_info
  -- Check for aptX
  if vendor_id = E.A2DP_APTX_VENDOR_ID ∧ codec_id = E.A2DP_APTX_CODEC_ID_BLUETOOTH then
    E.Aptx.A2DP_VendorCodecName p_codec_info
  -- Check for aptX-HD
  else if vendor_id = E.A2DP_APTX_HD_VENDOR_ID ∧ codec_id = E.A2DP_APTX_HD_CODEC_ID_BLUETOOTH then
    E.AptxHd.A2DP_VendorCodecName p_codec_info
  -- Check for LDAC
  else if vendor_id = E.A2DP_LDAC_VENDOR_ID ∧ codec_id = E.A2DP_LDAC_CODEC_ID then
    E.Ldac.A2DP_VendorCodecName p_codec_info
  -- Check for Opus
  else if vendor_id = E.A2DP_OPUS_VENDOR_ID ∧ codec_id = E.A2DP_OPUS_CODEC_ID then
    E.Opus.A2DP_VendorCodecName p_codec_info
  -- Check for Savitech LHDCV2
  else if vendor_id = E.A2DP_LHDC_VENDOR_ID ∧ codec_id = E.A2DP_LHDCV2_CODEC_ID then
    E.LhdcV2.A2DP_VendorCodecName p_codec_info
  -- Check for Savitech LHDCV3
  else if vendor_id = E.A2DP_LHDC_VENDOR_ID ∧ codec_id = E.A2DP_LHDCV3_CODEC_ID then
    E.LhdcV3.A2DP_VendorCodecName p_codec_info
  -- Check for Savitech LHDCV5
  else if vendor_id = E.A2DP_LHDC_VENDOR_ID ∧ codec_id = E.A2DP_LHDCV5_CODEC_ID then
    E.LhdcV5.A2DP_VendorCodecName p_codec_info
  else
    pure "UNKNOWN VENDOR CODEC"

/-- Source: `A2DP_VendorCodecTypeEquals`. -/
def A2DP_VendorCodecTypeEquals (E : Env Hdr Enc Dec Cfg)
    (p_codec_info_a p_codec_info_b : CodecInfo) : Option Bool := do
  let codec_type_a ← E.A2DP_GetCodecType p_codec_info_a
  let codec_type_b ← E.A2DP_GetCodecType p_codec_info_b
  if codec_type_a ≠ codec_type_b ∨ codec_type_a ≠ E.A2DP_MEDIA_CT_NON_A2DP then
    pure false
  else do
    let vendor_id_a ← A2DP_VendorCodecGetVendorId E.toVendorConsts p_codec_info_a
    let codec_id_a ← A2DP_VendorCodecGetCodecId E.toVendorConsts p_codec_info_a
    let vendor_id_b ← A2DP_VendorCodecGetVendorId E.toVendorConsts p_codec_info_b
    let codec_id_b ← A2DP_VendorCodecGetCodecId E.toVendorConsts p_codec_info_b
    if vendor_id_a ≠ vendor_id_b ∨ codec_id_a ≠ codec_id_b then
      pure false
    -- Check for aptX
    else if vendor_id_a = E.A2DP_APTX_VENDOR_ID ∧ codec_id_a = E.A2DP_APTX_CODEC_ID_BLUETOOTH then
      E.Aptx.A2DP_VendorCodecTypeEquals p_codec_info_a p_codec_info_b
    -- Check for aptX-HD
    else if vendor_id_a = E.A2DP_APTX_HD_VENDOR_ID ∧ codec_id_a = E.A2DP_APTX_HD_CODEC_ID_BLUETOOTH then
      E.AptxHd.A2DP_VendorCodecTypeEquals p_codec_info_a p_codec_info_b
    -- Check for LDAC
    else if vendor_id_a = E.A2DP_LDAC_VENDOR_ID ∧ codec_id_a = E.A2DP_LDAC_CODEC_ID then
      E.Ldac.A2DP_VendorCodecTypeEquals p_codec_info_a p_codec_info_b
    -- Check for Opus
    else if vendor_id_a = E.A2DP_OPUS_VENDOR_ID ∧ codec_id_a = E.A2DP_OPUS_CODEC_ID then
      E.Opus.A2DP_VendorCodecTypeEquals p_codec_info_a p_codec_info_b
    -- Check for Savitech LHDCV2
    else if vendor_id_a = E.A2DP_LHDC_VENDOR_ID ∧ codec_id_a = E.A2DP_LHDCV2_CODEC_ID then
      E.LhdcV2.A2DP_VendorCodecTypeEquals p_codec_info_a p_codec_info_b
    -- Check for Savitech LHDCV3
    else if vendor_id_a = E.A2DP_LHDC_VENDOR_ID ∧ codec_id_a = E.A2DP_LHDCV3_CODEC_ID then
      E.LhdcV3.A2DP_VendorCodecTypeEquals p_codec_info_a p_codec_info_b
    -- Check for Savitech LHDCV5
    else if vendor_id_a = E.A2DP_LHDC_VENDOR_ID ∧ codec_id_a = E.A2DP_LHDCV5_CODEC_ID then
      E.LhdcV5.A2DP_VendorCodecTypeEquals p_codec_info_a p_codec_info_b
    else
      pure true

/-- Source: `A2DP_VendorCodecEquals`. -/
def A2DP_VendorCodecEquals (E : Env Hdr Enc Dec Cfg)
    (p_codec_info_a p_codec_info_b : CodecInfo) : Option Bool := do
  let codec_type_a ← E.A2DP_GetCodecType p_codec_info_a
  let codec_type_b ← E.A2DP_GetCodecType p_codec_info_b
  if codec_type_a ≠ codec_type_b ∨ codec_type_a ≠ E.A2DP_MEDIA_CT_NON_A2DP then
    pure false
  else do
    let vendor_id_a ← A2DP_VendorCodecGetVendorId E.toVendorConsts p_codec_info_a
    let codec_id_a ← A2DP_VendorCodecGetCodecId E.toVendorConsts p_codec_info_a
    let vendor_id_b ← A2DP_VendorCodecGetVendorId E.toVendorConsts p_codec_info_b
    let codec_id_b ← A2DP_VendorCodecGetCodecId E.toVendorConsts p_codec_info_b
    if vendor_id_a ≠ vendor_id_b ∨ codec_id_a ≠ codec_id_b then
      pure false
    -- Check for aptX
    else if vendor_id_a = E.A2DP_APTX_VENDOR_ID ∧ codec_id_a = E.A2DP_APTX_CODEC_ID_BLUETOOTH then
      E.Aptx.A2DP_VendorCodecEquals p_codec_info_a p_codec_info_b
    -- Check for aptX-HD
    else if vendor_id_a = E.A2DP_APTX_HD_VENDOR_ID ∧ codec_id_a = E.A2DP_APTX_HD_CODEC_ID_BLUETOOTH then
      E.AptxHd.A2DP_VendorCodecEquals p_codec_info_a p_codec_info_b
    -- Check for LDAC
    else if vendor_id_a = E.A2DP_LDAC_VENDOR_ID ∧ codec_id_a = E.A2DP_LDAC_CODEC_ID then
      E.Ldac.A2DP_VendorCodecEquals p_codec_info_a p_codec_info_b
    -- Check for Opus
    else if vendor_id_a = E.A2DP_OPUS_VENDOR_ID ∧ codec_id_a = E.A2DP_OPUS_CODEC_ID then
      E.Opus.A2DP_VendorCodecEquals p_codec_info_a p_codec_info_b
    -- Check for Savitech LHDCV2
    else if vendor_id_a = E.A2DP_LHDC_VENDOR_ID ∧ codec_id_a = E.A2DP_LHDCV2_CODEC_ID then
      E.LhdcV2.A2DP_VendorCodecEquals p_codec_info_a p_codec_info_b
    -- Check for Savitech LHDCV3
    else if vendor_id_a = E.A2DP_LHDC_VENDOR_ID ∧ codec_id_a = E.A2DP_LHDCV3_CODEC_ID then
      E.LhdcV3.A2DP_VendorCodecEquals p_codec_info_a p_codec_info_b
    -- Check for Savitech LHDCV5
    else if vendor_id_a = E.A2DP_LHDC_VENDOR_ID ∧ codec_id_a = E.A2DP_LHDCV5_CODEC_ID then
      E.LhdcV5.A2DP_VendorCodecEquals p_codec_info_a p_codec_info_b
    else
      pure false

/-- Source: `A2DP_VendorGetBitRate`. -/
def A2DP_VendorGetBitRate (E : Env Hdr Enc Dec Cfg) (p_codec_info : CodecInfo) :
    Option Int := do
  let vendor_id ← A2DP_VendorCodecGetVendorId E.toVendorConsts p_codec_info
  let codec_id ← A2DP_VendorCodecGetCodecId E.toVendorConsts p_codec_info
  -- Check for aptX
  if vendor_id = E.A2DP_APTX_VENDOR_ID ∧ codec_id = E.A2DP_APTX_CODEC_ID_BLUETOOTH then
    E.Aptx.A2DP_VendorGetBitRate p_codec_info
  -- Check for aptX-HD
  else if vendor_id = E.A2DP_APTX_HD_VENDOR_ID ∧ codec_id = E.A2DP_APTX_HD_CODEC_ID_BLUETOOTH then
    E.AptxHd.A2DP_VendorGetBitRate p_codec_info
  -- Check for LDAC
  else if vendor_id = E.A2DP_LDAC_VENDOR_ID ∧ codec_id = E.A2DP_LDAC_CODEC_ID then
    E.Ldac.A2DP_VendorGetBitRate p_codec_info
  -- Check for Opus
  else if vendor_id = E.A2DP_OPUS_VENDOR_ID ∧ codec_id = E.A2DP_OPUS_CODEC_ID then
    E.Opus.A2DP_VendorGetBitRate p_codec_info
  -- Check for Savitech LHDCV2
  else if vendor_id = E.A2DP_LHDC_VENDOR_ID ∧ codec_id = E.A2DP_LHDCV2_CODEC_ID then
    E.LhdcV2.A2DP_VendorGetBitRate p_codec_info
  -- Check for Savitech LHDCV3
  else if vendor_id = E.A2DP_LHDC_VENDOR_ID ∧ codec_id = E.A2DP_LHDCV3_CODEC_ID then
    E.LhdcV3.A2DP_VendorGetBitRate p_codec_info
  -- Check for Savitech LHDCV5
  else if vendor_id = E.A2DP_LHDC_VENDOR_ID ∧ codec_id = E.A2DP_LHDCV5_CODEC_ID then
    E.LhdcV5.A2DP_VendorGetBitRate p_codec_info
  else
    pure (-1)

/-- Source: `A2DP_VendorGetTrackSampleRate`. -/
def A2DP_VendorGetTrackSampleRate (E : Env Hdr Enc Dec Cfg) (p_codec_info : CodecInfo) :
    Option Int := do
  let vendor_id ← A2DP_VendorCodecGetVendorId E.toVendorConsts p_codec_info
  let codec_id ← A2DP_VendorCodecGetCodecId E.toVendorConsts p_codec_info
  -- Check for aptX
  if vendor_id = E.A2DP_APTX_VENDOR_ID ∧ codec_id = E.A2DP_APTX_CODEC_ID_BLUETOOTH then
    E.Aptx.A2DP_VendorGetTrackSampleRate p_codec_info
  -- Check for aptX-HD
  else if vendor_id = E.A2DP_APTX_HD_VENDOR_ID ∧ codec_id = E.A2DP_APTX_HD_CODEC_ID_BLUETOOTH then
    E.AptxHd.A2DP_VendorGetTrackSampleRate p_codec_info
  -- Check for LDAC
  else if vendor_id = E.A2DP_LDAC_VENDOR_ID ∧ codec_id = E.A2DP_LDAC_CODEC_ID then
    E.Ldac.A2DP_VendorGetTrackSampleRate p_codec_info
  -- Check for Opus
  else if vendor_id = E.A2DP_OPUS_VENDOR_ID ∧ codec_id = E.A2DP_OPUS_CODEC_ID then
    E.Opus.A2DP_VendorGetTrackSampleRate p_codec_info
  -- Check for Savitech LHDCV2
  else if vendor_id = E.A2DP_LHDC_VENDOR_ID ∧ codec_id = E.A2DP_LHDCV2_CODEC_ID then
    E.LhdcV2.A2DP_VendorGetTrackSampleRate p_codec_info
  -- Check for Savitech LHDCV3
  else if vendor_id = E.A2DP_LHDC_VENDOR_ID ∧ codec_id = E.A2DP_LHDCV3_CODEC_ID then
    E.LhdcV3.A2DP_VendorGetTrackSampleRate p_codec_info
  -- Check for Savitech LHDCV5
  else if vendor_id = E.A2DP_LHDC_VENDOR_ID ∧ codec_id = E.A2DP_LHDCV5_CODEC_ID then
    E.LhdcV5.A2DP_VendorGetTrackSampleRate p_codec_info
  else
    pure (-1)

/-- Source: `A2DP_VendorGetTrackBitsPerSample`. -/
def A2DP_VendorGetTrackBitsPerSample (E : Env Hdr Enc Dec Cfg) (p_codec_info : CodecInfo) :
    Option Int := do
  let vendor_id ← A2DP_VendorCodecGetVendorId E.toVendorConsts p_codec_info
  let codec_id ← A2DP_VendorCodecGetCodecId E.toVendorConsts p_codec_info
  -- Check for aptX
  if vendor_id = E.A2DP_APTX_VENDOR_ID ∧ codec_id = E.A2DP_APTX_CODEC_ID_BLUETOOTH then
    E.Aptx.A2DP_VendorGetTrackBitsPerSample p_codec_info
  -- Check for aptX-HD
  else if vendor_id = E.A2DP_APTX_HD_VENDOR_ID ∧ codec_id = E.A2DP_APTX_HD_CODEC_ID_BLUETOOTH then
    E.AptxHd.A2DP_VendorGetTrackBitsPerSample p_codec_info
  -- Check for LDAC
  else if vendor_id = E.A2DP_LDAC_VENDOR_ID ∧ codec_id = E.A2DP_LDAC_CODEC_ID then
    E.Ldac.A2DP_VendorGetTrackBitsPerSample p_codec_info
  -- Check for Opus
  else if vendor_id = E.A2DP_OPUS_VENDOR_ID ∧ codec_id = E.A2DP_OPUS_CODEC_ID then
    E.Opus.A2DP_VendorGetTrackBitsPerSample p_codec_info
  -- Check for Savitech LHDCV2
  else if vendor_id = E.A2DP_LHDC_VENDOR_ID ∧ codec_id = E.A2DP_LHDCV2_CODEC_ID then
    E.LhdcV2.A2DP_VendorGetTrackBitsPerSample p_codec_info
  -- Check for Savitech LHDCV3
  else if vendor_id = E.A2DP_LHDC_VENDOR_ID ∧ codec_id = E.A2DP_LHDCV3_CODEC_ID then
    E.LhdcV3.A2DP_VendorGetTrackBitsPerSample p_codec_info
  -- Check for Savitech LHDCV5
  else if vendor_id = E.A2DP_LHDC_VENDOR_ID ∧ codec_id = E.A2DP_LHDCV5_CODEC_ID then
    E.LhdcV5.A2DP_VendorGetTrackBitsPerSample p_codec_info
  else
    pure (-1)

/-- Source: `A2DP_VendorGetTrackChannelCount`. -/
def A2DP_VendorGetTrackChannelCount (E : Env Hdr Enc Dec Cfg) (p_codec_info : CodecInfo) :
    Option Int := do
  let vendor_id ← A2DP_VendorCodecGetVendorId E.toVendorConsts p_codec_info
  let codec_id ← A2DP_VendorCodecGetCodecId E.toVendorConsts p_codec_info
  -- Check for aptX
  if vendor_id = E.A2DP_APTX_VENDOR_ID ∧ codec_id = E.A2DP_APTX_CODEC_ID_BLUETOOTH then
    E.Aptx.A2DP_VendorGetTrackChannelCount p_codec_info
  -- Check for aptX-HD
  else if vendor_id = E.A2DP_APTX_HD_VENDOR_ID ∧ codec_id = E.A2DP_APTX_HD_CODEC_ID_BLUETOOTH then
    E.AptxHd.A2DP_VendorGetTrackChannelCount p_codec_info
  -- Check for LDAC
  else if vendor_id = E.A2DP_LDAC_VENDOR_ID ∧ codec_id = E.A2DP_LDAC_CODEC_ID then
    E.Ldac.A2DP_VendorGetTrackChannelCount p_codec_info
  -- Check for Opus
  else if vendor_id = E.A2DP_OPUS_VENDOR_ID ∧ codec_id = E.A2DP_OPUS_CODEC_ID then
    E.Opus.A2DP_VendorGetTrackChannelCount p_codec_info
  -- Check for Savitech LHDCV2
  else if vendor_id = E.A2DP_LHDC_VENDOR_ID ∧ codec_id = E.A2DP_LHDCV2_CODEC_ID then
    E.LhdcV2.A2DP_VendorGetTrackChannelCount p_codec_info
  -- Check for Savitech LHDCV3
  else if vendor_id = E.A2DP_LHDC_VENDOR_ID ∧ codec_id = E.A2DP_LHDCV3_CODEC_ID then
    E.LhdcV3.A2DP_VendorGetTrackChannelCount p_codec_info
  -- Check for Savitech LHDCV5
  else if vendor_id = E.A2DP_LHDC_VENDOR_ID ∧ codec_id = E.A2DP_LHDCV5_CODEC_ID then
    E.LhdcV5.A2DP_VendorGetTrackChannelCount p_codec_info
  else
    pure (-1)

/-- Source: `A2DP_VendorGetSinkTrackChannelType`. -/
def A2DP_VendorGetSinkTrackChannelType (E : Env Hdr Enc Dec Cfg) (p_codec_info : CodecInfo) :
    Option Int := do
  let vendor_id ← A2DP_VendorCodecGetVendorId E.toVendorConsts p_codec_info
  let codec_id ← A2DP_VendorCodecGetCodecId E.toVendorConsts p_codec_info
  -- Check for LDAC
  if vendor_id = E.A2DP_LDAC_VENDOR_ID ∧ codec_id = E.A2DP_LDAC_CODEC_ID then
    E.LdacSink.A2DP_VendorGetSinkTrackChannelType p_codec_info
  -- Check for Opus
  else if vendor_id = E.A2DP_OPUS_VENDOR_ID ∧ codec_id = E.A2DP_OPUS_CODEC_ID then
    E.OpusSink.A2DP_VendorGetSinkTrackChannelType p_codec_info
  -- Check for Savitech LHDCV3 Sink
  else if vendor_id = E.A2DP_LHDC_VENDOR_ID ∧ codec_id = E.A2DP_LHDCV3_CODEC_ID then
    E.LhdcV3Sink.A2DP_VendorGetSinkTrackChannelType p_codec_info
  -- Check for Savitech LHDCV5 Sink
  else if vendor_id = E.A2DP_LHDC_VENDOR_ID ∧ codec_id = E.A2DP_LHDCV5_CODEC_ID then
    E.LhdcV5Sink.A2DP_VendorGetSinkTrackChannelType p_codec_info
  else
    pure (-1)

/-- Source: `A2DP_VendorGetPacketTimestamp`. -/
def A2DP_VendorGetPacketTimestamp (E : Env Hdr Enc Dec Cfg)
    (p_codec_info : CodecInfo) (p_data : CodecInfo) (p_timestamp : Nat) :
    Option (Bool × Nat) := do
  let vendor_id ← A2DP_VendorCodecGetVendorId E.toVendorConsts p_codec_info
  let codec_id ← A2DP_VendorCodecGetCodecId E.toVendorConsts p_codec_info
  -- Check for aptX
  if vendor_id = E.A2DP_APTX_VENDOR_ID ∧ codec_id = E.A2DP_APTX_CODEC_ID_BLUETOOTH then
    E.Aptx.A2DP_VendorGetPacketTimestamp p_codec_info p_data p_timestamp
  -- Check for aptX-HD
  else if vendor_id = E.A2DP_APTX_HD_VENDOR_ID ∧ codec_id = E.A2DP_APTX_HD_CODEC_ID_BLUETOOTH then
    E.AptxHd.A2DP_VendorGetPacketTimestamp p_codec_info p_data p_timestamp
  -- Check for LDAC
  else if vendor_id = E.A2DP_LDAC_VENDOR_ID ∧ codec_id = E.A2DP_LDAC_CODEC_ID then
    E.Ldac.A2DP_VendorGetPacketTimestamp p_codec_info p_data p_timestamp
  -- Check for Opus
  else if vendor_id = E.A2DP_OPUS_VENDOR_ID ∧ codec_id = E.A2DP_OPUS_CODEC_ID then
    E.Opus.A2DP_VendorGetPacketTimestamp p_codec_info p_data p_timestamp
  -- Check for Savitech LHDCV2
  else if vendor_id = E.A2DP_LHDC_VENDOR_ID ∧ codec_id = E.A2DP_LHDCV2_CODEC_ID then
    E.LhdcV2.A2DP_VendorGetPacketTimestamp p_codec_info p_data p_timestamp
  -- Check for Savitech LHDCV3
  else if vendor_id = E.A2DP_LHDC_VENDOR_ID ∧ codec_id = E.A2DP_LHDCV3_CODEC_ID then
    E.LhdcV3.A2DP_VendorGetPacketTimestamp p_codec_info p_data p_timestamp
  -- Check for Savitech LHDCV5
  else if vendor_id = E.A2DP_LHDC_VENDOR_ID ∧ codec_id = E.A2DP_LHDCV5_CODEC_ID then
    E.LhdcV5.A2DP_VendorGetPacketTimestamp p_codec_info p_data p_timestamp
  else
    pure (false, p_timestamp)

/-- Source: `A2DP_VendorBuildCodecHeader`. -/
def A2DP_VendorBuildCodecHeader (E : Env Hdr Enc Dec Cfg)
    (p_codec_info : CodecInfo) (p_buf : Hdr) (frames_per_packet : Nat) :
    Option (Bool × Hdr) := do
  let vendor_id ← A2DP_VendorCodecGetVendorId E.toVendorConsts p_codec_info
  let codec_id ← A2DP_VendorCodecGetCodecId E.toVendorConsts p_codec_info
  -- Check for aptX
  if vendor_id = E.A2DP_APTX_VENDOR_ID ∧ codec_id = E.A2DP_APTX_CODEC_ID_BLUETOOTH then
    E.Aptx.A2DP_VendorBuildCodecHeader p_codec_info p_buf frames_per_packet
  -- Check for aptX-HD
  else if vendor_id = E.A2DP_APTX_HD_VENDOR_ID ∧ codec_id = E.A2DP_APTX_HD_CODEC_ID_BLUETOOTH then
    E.AptxHd.A2DP_VendorBuildCodecHeader p_codec_info p_buf frames_per_packet
  -- Check for LDAC
  else if vendor_id = E.A2DP_LDAC_VENDOR_ID ∧ codec_id = E.A2DP_LDAC_CODEC_ID then
    E.Ldac.A2DP_VendorBuildCodecHeader p_codec_info p_buf frames_per_packet
  -- Check for Opus
  else if vendor_id = E.A2DP_OPUS_VENDOR_ID ∧ codec_id = E.A2DP_OPUS_CODEC_ID then
    E.Opus.A2DP_VendorBuildCodecHeader p_codec_info p_buf frames_per_packet
  -- Check for Savitech LHDCV2
  else if vendor_id = E.A2DP_LHDC_VENDOR_ID ∧ codec_id = E.A2DP_LHDCV2_CODEC_ID then
    E.LhdcV2.A2DP_VendorBuildCodecHeader p_codec_info p_buf frames_per_packet
  -- Check for Savitech LHDCV3
  else if vendor_id = E.A2DP_LHDC_VENDOR_ID ∧ codec_id = E.A2DP_LHDCV3_CODEC_ID then
    E.LhdcV3.A2DP_VendorBuildCodecHeader p_codec_info p_buf frames_per_packet
  -- Check for Savitech LHDCV5
  else if vendor_id = E.A2DP_LHDC_VENDOR_ID ∧ codec_id = E.A2DP_LHDCV5_CODEC_ID then
    E.LhdcV5.A2DP_VendorBuildCodecHeader p_codec_info p_buf frames_per_packet
  else
    pure (false, p_buf)

/-- Source: `A2DP_VendorGetEncoderInterface`. -/
def A2DP_VendorGetEncoderInterface (E : Env Hdr Enc Dec Cfg) (p_codec_info : CodecInfo) :
    Option (Option Enc) := do
  let vendor_id ← A2DP_VendorCodecGetVendorId E.toVendorConsts p_codec_info
  let codec_id ← A2DP_VendorCodecGetCodecId E.toVendorConsts p_codec_info
  -- Check for aptX
  if vendor_id = E.A2DP_APTX_VENDOR_ID ∧ codec_id = E.A2DP_APTX_CODEC_ID_BLUETOOTH then
    E.Aptx.A2DP_VendorGetEncoderInterface p_codec_info
  -- Check for aptX-HD
  else if vendor_id = E.A2DP_APTX_HD_VENDOR_ID ∧ codec_id = E.A2DP_APTX_HD_CODEC_ID_BLUETOOTH then
    E.AptxHd.A2DP_VendorGetEncoderInterface p_codec_info
  -- Check for LDAC
  else if vendor_id = E.A2DP_LDAC_VENDOR_ID ∧ codec_id = E.A2DP_LDAC_CODEC_ID then
    E.Ldac.A2DP_VendorGetEncoderInterface p_codec_info
  -- Check for Opus
  else if vendor_id = E.A2DP_OPUS_VENDOR_ID ∧ codec_id = E.A2DP_OPUS_CODEC_ID then
    E.Opus.A2DP_VendorGetEncoderInterface p_codec_info
  -- Check for Savitech LHDCV2
  else if vendor_id = E.A2DP_LHDC_VENDOR_ID ∧ codec_id = E.A2DP_LHDCV2_CODEC_ID then
    E.LhdcV2.A2DP_VendorGetEncoderInterface p_codec_info
  -- Check for Savitech LHDCV3
  else if vendor_id = E.A2DP_LHDC_VENDOR_ID ∧ codec_id = E.A2DP_LHDCV3_CODEC_ID then
    E.LhdcV3.A2DP_VendorGetEncoderInterface p_codec_info
  -- Check for Savitech LHDCV5
  else if vendor_id = E.A2DP_LHDC_VENDOR_ID ∧ codec_id = E.A2DP_LHDCV5_CODEC_ID then
    E.LhdcV5.A2DP_VendorGetEncoderInterface p_codec_info
  else
    pure none

/-- Source: `A2DP_VendorGetDecoderInterface`. -/
def A2DP_VendorGetDecoderInterface (E : Env Hdr Enc Dec Cfg) (p_codec_info : CodecInfo) :
    Option (Option Dec) := do
  let vendor_id ← A2DP_VendorCodecGetVendorId E.toVendorConsts p_codec_info
  let codec_id ← A2DP_VendorCodecGetCodecId E.toVendorConsts p_codec_info
  -- Check for LDAC
  if vendor_id = E.A2DP_LDAC_VENDOR_ID ∧ codec_id = E.A2DP_LDAC_CODEC_ID then
    E.LdacSink.A2DP_VendorGetDecoderInterface p_codec_info
  -- Check for Opus
  else if vendor_id = E.A2DP_OPUS_VENDOR_ID ∧ codec_id = E.A2DP_OPUS_CODEC_ID then
    E.OpusSink.A2DP_VendorGetDecoderInterface p_codec_info
  -- Check for Savitech LHDCV3 Sink
  else if vendor_id = E.A2DP_LHDC_VENDOR_ID ∧ codec_id = E.A2DP_LHDCV3_CODEC_ID then
    E.LhdcV3Sink.A2DP_VendorGetDecoderInterface p_codec_info
  -- Check for Savitech LHDCV5 Sink
  else if vendor_id = E.A2DP_LHDC_VENDOR_ID ∧ codec_id = E.A2DP_LHDCV5_CODEC_ID then
    E.LhdcV5Sink.A2DP_VendorGetDecoderInterface p_codec_info
  else
    pure none

/-- Source: `A2DP_VendorAdjustCodec`. -/
def A2DP_VendorAdjustCodec (E : Env Hdr Enc Dec Cfg) (p_codec_info : CodecInfo) :
    Option (Bool × CodecInfo) := do
  let vendor_id ← A2DP_VendorCodecGetVendorId E.toVendorConsts p_codec_info
  let codec_id ← A2DP_VendorCodecGetCodecId E.toVendorConsts p_codec_info
  -- Check for aptX
  if vendor_id = E.A2DP_APTX_VENDOR_ID ∧ codec_id = E.A2DP_APTX_CODEC_ID_BLUETOOTH then
    E.Aptx.A2DP_VendorAdjustCodec p_codec_info
  -- Check for aptX-HD
  else if vendor_id = E.A2DP_APTX_HD_VENDOR_ID ∧ codec_id = E.A2DP_APTX_HD_CODEC_ID_BLUETOOTH then
    E.AptxHd.A2DP_VendorAdjustCodec p_codec_info
  -- Check for LDAC
  else if vendor_id = E.A2DP_LDAC_VENDOR_ID ∧ codec_id = E.A2DP_LDAC_CODEC_ID then
    E.Ldac.A2DP_VendorAdjustCodec p_codec_info
  -- Check for Opus
  else if vendor_id = E.A2DP_OPUS_VENDOR_ID ∧ codec_id = E.A2DP_OPUS_CODEC_ID then
    E.Opus.A2DP_VendorAdjustCodec p_codec_info
  -- Check for Savitech LHDCV2
  else if vendor_id = E.A2DP_LHDC_VENDOR_ID ∧ codec_id = E.A2DP_LHDCV2_CODEC_ID then
    E.LhdcV2.A2DP_VendorAdjustCodec p_codec_info
  -- Check for Savitech LHDCV3
  else if vendor_id = E.A2DP_LHDC_VENDOR_ID ∧ codec_id = E.A2DP_LHDCV3_CODEC_ID then
    E.LhdcV3.A2DP_VendorAdjustCodec p_codec_info
  -- Check for Savitech LHDCV5
  else if vendor_id = E.A2DP_LHDC_VENDOR_ID ∧ codec_id = E.A2DP_LHDCV5_CODEC_ID then
    E.LhdcV5.A2DP_VendorAdjustCodec p_codec_info
  else
    pure (false, p_codec_info)

/-- Source: `A2DP_VendorSourceCodecIndex`. -/
def A2DP_VendorSourceCodecIndex (E : Env Hdr Enc Dec Cfg) (p_codec_info : CodecInfo) :
    Option btav_a2dp_codec_index_t := do
  let vendor_id ← A2DP_VendorCodecGetVendorId E.toVendorConsts p_codec_info
  let codec_id ← A2DP_VendorCodecGetCodecId E.toVendorConsts p_codec_info
  -- Check for aptX
  if vendor_id = E.A2DP_APTX_VENDOR_ID ∧ codec_id = E.A2DP_APTX_CODEC_ID_BLUETOOTH then
    E.Aptx.A2DP_VendorSourceCodecIndex p_codec_info
  -- Check for aptX-HD
  else if vendor_id = E.A2DP_APTX_HD_VENDOR_ID ∧ codec_id = E.A2DP_APTX_HD_CODEC_ID_BLUETOOTH then
    E.AptxHd.A2DP_VendorSourceCodecIndex p_codec_info
  -- Check for LDAC
  else if vendor_id = E.A2DP_LDAC_VENDOR_ID ∧ codec_id = E.A2DP_LDAC_CODEC_ID then
    E.Ldac.A2DP_VendorSourceCodecIndex p_codec_info
  -- Check for Opus
  else if vendor_id = E.A2DP_OPUS_VENDOR_ID ∧ codec_id = E.A2DP_OPUS_CODEC_ID then
    E.Opus.A2DP_VendorSourceCodecIndex p_codec_info
  -- Check for Savitech LHDCV2
  else if vendor_id = E.A2DP_LHDC_VENDOR_ID ∧ codec_id = E.A2DP_LHDCV2_CODEC_ID then
    E.LhdcV2.A2DP_VendorSourceCodecIndex p_codec_info
  -- Check for Savitech LHDCV3
  else if vendor_id = E.A2DP_LHDC_VENDOR_ID ∧ codec_id = E.A2DP_LHDCV3_CODEC_ID then
    E.LhdcV3.A2DP_VendorSourceCodecIndex p_codec_info
  -- Check for Savitech LHDCV5
  else if vendor_id = E.A2DP_LHDC_VENDOR_ID ∧ codec_id = E.A2DP_LHDCV5_CODEC_ID then
    E.LhdcV5.A2DP_VendorSourceCodecIndex p_codec_info
  else
    pure .BTAV_A2DP_CODEC_INDEX_MAX

/-- Source: `A2DP_VendorSinkCodecIndex`. -/
def A2DP_VendorSinkCodecIndex (E : Env Hdr Enc Dec Cfg) (p_codec_info : CodecInfo) :
    Option btav_a2dp_codec_index_t := do
  let vendor_id ← A2DP_VendorCodecGetVendorId E.toVendorConsts p_codec_info
  let codec_id ← A2DP_VendorCodecGetCodecId E.toVendorConsts p_codec_info
  -- Check for LDAC
  if vendor_id = E.A2DP_LDAC_VENDOR_ID ∧ codec_id = E.A2DP_LDAC_CODEC_ID then
    E.LdacSink.A2DP_VendorSinkCodecIndex p_codec_info
  -- Check for Opus
  else if vendor_id = E.A2DP_OPUS_VENDOR_ID ∧ codec_id = E.A2DP_OPUS_CODEC_ID then
    E.OpusSink.A2DP_VendorSinkCodecIndex p_codec_info
  -- Check for Savitech LHDCV3 Sink
  else if vendor_id = E.A2DP_LHDC_VENDOR_ID ∧ codec_id = E.A2DP_LHDCV3_CODEC_ID then
    E.LhdcV3Sink.A2DP_VendorSinkCodecIndex p_codec_info
  -- Check for Savitech LHDCV5 Sink
  else if vendor_id = E.A2DP_LHDC_VENDOR_ID ∧ codec_id = E.A2DP_LHDCV5_CODEC_ID then
    E.LhdcV5Sink.A2DP_VendorSinkCodecIndex p_codec_info
  else
    pure .BTAV_A2DP_CODEC_INDEX_MAX

/-- Source: `A2DP_VendorCodecInfoString`. -/
def A2DP_VendorCodecInfoString (E : Env Hdr Enc Dec Cfg) (p_codec_info : CodecInfo) :
    Option String := do
  let vendor_id ← A2DP_VendorCodecGetVendorId E.toVendorConsts p_codec_info
  let codec_id ← A2DP_VendorCodecGetCodecId E.toVendorConsts p_codec_info
  -- Check for aptX
  if vendor_id = E.A2DP_APTX_VENDOR_ID ∧ codec_id = E.A2DP_APTX_CODEC_ID_BLUETOOTH then
    E.Aptx.A2DP_VendorCodecInfoString p_codec_info
  -- Check for aptX-HD
  else if vendor_id = E.A2DP_APTX_HD_VENDOR_ID ∧ codec_id = E.A2DP_APTX_HD_CODEC_ID_BLUETOOTH then
    E.AptxHd.A2DP_VendorCodecInfoString p_codec_info
  -- Check for LDAC
  else if vendor_id = E.A2DP_LDAC_VENDOR_ID ∧ codec_id = E.A2DP_LDAC_CODEC_ID then
    E.Ldac.A2DP_VendorCodecInfoString p_codec_info
  -- Check for Opus
  else if vendor_id = E.A2DP_OPUS_VENDOR_ID ∧ codec_id = E.A2DP_OPUS_CODEC_ID then
    E.Opus.A2DP_VendorCodecInfoString p_codec_info
  -- Check for Savitech LHDCV2
  else if vendor_id = E.A2DP_LHDC_VENDOR_ID ∧ codec_id = E.A2DP_LHDCV2_CODEC_ID then
    E.LhdcV2.A2DP_VendorCodecInfoString p_codec_info
  -- Check for Savitech LHDCV3
  else if vendor_id = E.A2DP_LHDC_VENDOR_ID ∧ codec_id = E.A2DP_LHDCV3_CODEC_ID then
    E.LhdcV3.A2DP_VendorCodecInfoString p_codec_info
  -- Check for Savitech LHDCV5
  else if vendor_id = E.A2DP_LHDC_VENDOR_ID ∧ codec_id = E.A2DP_LHDCV5_CODEC_ID then
    E.LhdcV5.A2DP_VendorCodecInfoString p_codec_info
  else
    pure ("Unsupported codec vendor_id: " ++ E.loghex_uint32 vendor_id ++
      " codec_id: " ++ E.loghex_uint16 codec_id)

/-- Source: `A2DP_VendorCodecIndexStr`. -/
def A2DP_VendorCodecIndexStr (E : Env Hdr Enc Dec Cfg)
    (codec_index : btav_a2dp_codec_index_t) : String :=
  match codec_index with
  | .BTAV_A2DP_CODEC_INDEX_SOURCE_SBC
  | .BTAV_A2DP_CODEC_INDEX_SINK_SBC
  | .BTAV_A2DP_CODEC_INDEX_SOURCE_AAC
  | .BTAV_A2DP_CODEC_INDEX_SINK_AAC =>
    "UNKNOWN CODEC INDEX"  -- These are not vendor-specific codecs
  | .BTAV_A2DP_CODEC_INDEX_SOURCE_APTX => E.Aptx.A2DP_VendorCodecIndexStr
  | .BTAV_A2DP_CODEC_INDEX_SOURCE_APTX_HD => E.AptxHd.A2DP_VendorCodecIndexStr
  | .BTAV_A2DP_CODEC_INDEX_SOURCE_LDAC => E.Ldac.A2DP_VendorCodecIndexStr
  | .BTAV_A2DP_CODEC_INDEX_SINK_LDAC => E.LdacSink.A2DP_VendorCodecIndexStr
  | .BTAV_A2DP_CODEC_INDEX_SOURCE_LC3 => "LC3 not implemented"
  | .BTAV_A2DP_CODEC_INDEX_SOURCE_OPUS => E.Opus.A2DP_VendorCodecIndexStr
  | .BTAV_A2DP_CODEC_INDEX_SINK_OPUS => E.OpusSink.A2DP_VendorCodecIndexStr
  | .BTAV_A2DP_CODEC_INDEX_SOURCE_LHDCV2 => E.LhdcV2.A2DP_VendorCodecIndexStr
  | .BTAV_A2DP_CODEC_INDEX_SOURCE_LHDCV3 => E.LhdcV3.A2DP_VendorCodecIndexStr
  | .BTAV_A2DP_CODEC_INDEX_SOURCE_LHDCV5 => E.LhdcV5.A2DP_VendorCodecIndexStr
  | .BTAV_A2DP_CODEC_INDEX_SINK_LHDCV3 => E.LhdcV3Sink.A2DP_VendorCodecIndexStr
  | .BTAV_A2DP_CODEC_INDEX_SINK_LHDCV5 => E.LhdcV5Sink.A2DP_VendorCodecIndexStr
  | .BTAV_A2DP_CODEC_INDEX_MAX => "UNKNOWN CODEC INDEX"
  | .other _ => "UNKNOWN CODEC INDEX"  -- no case label, control leaves the switch

/-- Source: `A2DP_VendorInitCodecConfig`; the result and `*p_cfg` after the call. -/
def A2DP_VendorInitCodecConfig (E : Env Hdr Enc Dec Cfg)
    (codec_index : btav_a2dp_codec_index_t) (p_cfg : Cfg) : Option (Bool × Cfg) :=
  match codec_index with
  | .BTAV_A2DP_CODEC_INDEX_SOURCE_SBC
  | .BTAV_A2DP_CODEC_INDEX_SINK_SBC
  | .BTAV_A2DP_CODEC_INDEX_SOURCE_AAC
  | .BTAV_A2DP_CODEC_INDEX_SINK_AAC =>
    pure (false, p_cfg)  -- These are not vendor-specific codecs
  | .BTAV_A2DP_CODEC_INDEX_SOURCE_APTX => E.Aptx.A2DP_VendorInitCodecConfig p_cfg
  | .BTAV_A2DP_CODEC_INDEX_SOURCE_APTX_HD => E.AptxHd.A2DP_VendorInitCodecConfig p_cfg
  | .BTAV_A2DP_CODEC_INDEX_SOURCE_LDAC => E.Ldac.A2DP_VendorInitCodecConfig p_cfg
  | .BTAV_A2DP_CODEC_INDEX_SINK_LDAC => E.LdacSink.A2DP_VendorInitCodecConfig p_cfg
  | .BTAV_A2DP_CODEC_INDEX_SOURCE_LC3 => pure (false, p_cfg)  -- not implemented
  | .BTAV_A2DP_CODEC_INDEX_SOURCE_OPUS => E.Opus.A2DP_VendorInitCodecConfig p_cfg
  | .BTAV_A2DP_CODEC_INDEX_SINK_OPUS => E.OpusSink.A2DP_VendorInitCodecConfig p_cfg
  | .BTAV_A2DP_CODEC_INDEX_SOURCE_LHDCV2 => E.LhdcV2.A2DP_VendorInitCodecConfig p_cfg
  | .BTAV_A2DP_CODEC_INDEX_SOURCE_LHDCV3 => E.LhdcV3.A2DP_VendorInitCodecConfig p_cfg
  | .BTAV_A2DP_CODEC_INDEX_SOURCE_LHDCV5 => E.LhdcV5.A2DP_VendorInitCodecConfig p_cfg
  | .BTAV_A2DP_CODEC_INDEX_SINK_LHDCV3 => E.LhdcV3Sink.A2DP_VendorInitCodecConfig p_cfg
  | .BTAV_A2DP_CODEC_INDEX_SINK_LHDCV5 => E.LhdcV5Sink.A2DP_VendorInitCodecConfig p_cfg
  | .BTAV_A2DP_CODEC_INDEX_MAX => pure (false, p_cfg)
  | .other _ => pure (false, p_cfg)  -- no case label, control leaves the switch

/-! ## The registry of the specification

The specification describes the dispatch as a lookup in a table of family
descriptors keyed by `(vendor_id, codec_id)`.  The definitions of this section
follow that description; the theorems compare them with the if chains above.
-/

/-- The seven vendor codec families. -/
inductive Family where
  | Aptx
  | AptxHd
  | Ldac
  | Opus
  | LhdcV2
  | LhdcV3
  | LhdcV5
  deriving DecidableEq, Repr

/-- The identity key `(vendor_id, codec_id)` that a family owns. -/
def VendorConsts.keyOf (C : VendorConsts) : Family → Nat × Nat
  | .Aptx => (C.A2DP_APTX_VENDOR_ID, C.A2DP_APTX_CODEC_ID_BLUETOOTH)
  | .AptxHd => (C.A2DP_APTX_HD_VENDOR_ID, C.A2DP_APTX_HD_CODEC_ID_BLUETOOTH)
  | .Ldac => (C.A2DP_LDAC_VENDOR_ID, C.A2DP_LDAC_CODEC_ID)
  | .Opus => (C.A2DP_OPUS_VENDOR_ID, C.A2DP_OPUS_CODEC_ID)
  | .LhdcV2 => (C.A2DP_LHDC_VENDOR_ID, C.A2DP_LHDCV2_CODEC_ID)
  | .LhdcV3 => (C.A2DP_LHDC_VENDOR_ID, C.A2DP_LHDCV3_CODEC_ID)
  | .LhdcV5 => (C.A2DP_LHDC_VENDOR_ID, C.A2DP_LHDCV5_CODEC_ID)

/-- The families in the order of the registry. -/
def Family.all : List Family :=
  [.Aptx, .AptxHd, .Ldac, .Opus, .LhdcV2, .LhdcV3, .LhdcV5]

/-- The registry: one entry per family, its key and the family. -/
def VendorConsts.registry (C : VendorConsts) : List ((Nat × Nat) × Family) :=
  Family.all.map fun F => (C.keyOf F, F)

/-- The lookup `resolve (vendor_id, codec_id)` of the specification. -/
def VendorConsts.resolve (C : VendorConsts) (vendor_id codec_id : Nat) : Option Family :=
  C.registry.lookup (vendor_id, codec_id)

/-- The seven registered keys are pairwise distinct. -/
def VendorConsts.KeysDistinct (C : VendorConsts) : Prop :=
  (Family.all.map C.keyOf).Nodup

instance (C : VendorConsts) : Decidable C.KeysDistinct :=
  inferInstanceAs (Decidable (Family.all.map C.keyOf).Nodup)

/-- The descriptor of a family: its functions in the environment. -/
def Env.ops (E : Env Hdr Enc Dec Cfg) : Family → FamilyOps Hdr Enc Cfg
  | .Aptx => E.Aptx
  | .AptxHd => E.AptxHd
  | .Ldac => E.Ldac
  | .Opus => E.Opus
  | .LhdcV2 => E.LhdcV2
  | .LhdcV3 => E.LhdcV3
  | .LhdcV5 => E.LhdcV5

/-- The sink side functions of a family, for the families that have them. -/
def Env.sinkOps (E : Env Hdr Enc Dec Cfg) : Family → Option (SinkOps Dec Cfg)
  | .Aptx => none
  | .AptxHd => none
  | .Ldac => some E.LdacSink
  | .Opus => some E.OpusSink
  | .LhdcV2 => none
  | .LhdcV3 => some E.LhdcV3Sink
  | .LhdcV5 => some E.LhdcV5Sink

/-- A dispatcher of the specification: decode the key, resolve it, then apply
the operation `op` of the resolved family, or give `fallback` when the key
resolves to no family. -/
def viaRegistry {β : Type} (E : Env Hdr Enc Dec Cfg)
    (op : FamilyOps Hdr Enc Cfg → Option β) (fallback : Nat → Nat → β)
    (p_codec_info : CodecInfo) : Option β := do
  let vendor_id ← A2DP_VendorCodecGetVendorId E.toVendorConsts p_codec_info
  let codec_id ← A2DP_VendorCodecGetCodecId E.toVendorConsts p_codec_info
  match E.resolve vendor_id codec_id with
  | some F => op (E.ops F)
  | none => pure (fallback vendor_id codec_id)

/-! ## Concrete environments

The values of the constants are those of the upstream headers.  Two sets of
family functions: `tagOps n`, whose answers carry the number `n` of the family,
and `noReturnOps`, whose functions never return a value.
-/

/-- The constants with the values of the upstream headers. -/
def upstreamConsts : VendorConsts where
  A2DP_VENDOR_CODEC_VENDOR_ID_START_IDX := 3
  A2DP_VENDOR_CODEC_CODEC_ID_START_IDX := 7
  A2DP_APTX_VENDOR_ID := 0x0000004F
  A2DP_APTX_CODEC_ID_BLUETOOTH := 0x0001
  A2DP_APTX_HD_VENDOR_ID := 0x000000D7
  A2DP_APTX_HD_CODEC_ID_BLUETOOTH := 0x0024
  A2DP_LDAC_VENDOR_ID := 0x0000012D
  A2DP_LDAC_CODEC_ID := 0x00AA
  A2DP_OPUS_VENDOR_ID := 0x000000E0
  A2DP_OPUS_CODEC_ID := 0x0001
  A2DP_LHDC_VENDOR_ID := 0x0000053A
  A2DP_LHDCV2_CODEC_ID := 0x4C32
  A2DP_LHDCV3_CODEC_ID := 0x4C33
  A2DP_LHDCV5_CODEC_ID := 0x4C35
  A2DP_MEDIA_CT_NON_A2DP := 0xFF

/-- Family functions that answer with the number `n`; the predicates answer
whether the buffer is longer than `n` bytes. -/
def tagOps (n : Nat) : FamilyOps Unit Nat Unit where
  A2DP_IsVendorSourceCodecValid := fun p => some (decide (n < p.length))
  A2DP_IsVendorPeerSinkCodecValid := fun p => some (decide (n < p.length))
  A2DP_VendorUsesRtpHeader := fun cp p => some (cp && decide (n < p.length))
  A2DP_VendorCodecName := fun _ => some (String.mk (List.replicate n 'x'))
  A2DP_VendorCodecTypeEquals := fun a b => some (decide (a.length = b.length))
  A2DP_VendorCodecEquals := fun a b => some (decide (a = b))
  A2DP_VendorGetBitRate := fun _ => some (n : Int)
  A2DP_VendorGetTrackSampleRate := fun _ => some (n : Int)
  A2DP_VendorGetTrackBitsPerSample := fun _ => some (n : Int)
  A2DP_VendorGetTrackChannelCount := fun _ => some (n : Int)
  A2DP_VendorGetPacketTimestamp := fun _ _ _ => some (true, n)
  A2DP_VendorBuildCodecHeader := fun _ b _ => some (true, b)
  A2DP_VendorGetEncoderInterface := fun _ => some (some n)
  A2DP_VendorAdjustCodec := fun p => some (false, p)
  A2DP_VendorSourceCodecIndex := fun _ => some .BTAV_A2DP_CODEC_INDEX_MAX
  A2DP_VendorCodecIndexStr := String.mk (List.replicate n 'x')
  A2DP_VendorInitCodecConfig := fun c => some (true, c)
  A2DP_VendorCodecInfoString := fun _ => some (String.mk (List.replicate n 'x'))

/-- Sink side functions that answer with the number `n`. -/
def tagSinkOps (n : Nat) : SinkOps Nat Unit where
  A2DP_IsVendorSinkCodecValid := fun p => some (decide (n < p.length))
  A2DP_IsVendorPeerSourceCodecValid := fun p => some (decide (n < p.length))
  A2DP_IsVendorSinkCodecSupported := fun p => some (decide (n < p.length))
  A2DP_IsPeerSourceCodecSupported := fun p => some (decide (n < p.length))
  A2DP_VendorGetSinkTrackChannelType := fun _ => some (n : Int)
  A2DP_VendorGetDecoderInterface := fun _ => some (some n)
  A2DP_VendorSinkCodecIndex := fun _ => some .BTAV_A2DP_CODEC_INDEX_MAX
  A2DP_VendorCodecIndexStr := String.mk (List.replicate n 's')
  A2DP_VendorInitCodecConfig := fun c => some (true, c)

/-- Family functions none of which returns a value. -/
def noReturnOps : FamilyOps Unit Nat Unit where
  A2DP_IsVendorSourceCodecValid := fun _ => none
  A2DP_IsVendorPeerSinkCodecValid := fun _ => none
  A2DP_VendorUsesRtpHeader := fun _ _ => none
  A2DP_VendorCodecName := fun _ => none
  A2DP_VendorCodecTypeEquals := fun _ _ => none
  A2DP_VendorCodecEquals := fun _ _ => none
  A2DP_VendorGetBitRate := fun _ => none
  A2DP_VendorGetTrackSampleRate := fun _ => none
  A2DP_VendorGetTrackBitsPerSample := fun _ => none
  A2DP_VendorGetTrackChannelCount := fun _ => none
  A2DP_VendorGetPacketTimestamp := fun _ _ _ => none
  A2DP_VendorBuildCodecHeader := fun _ _ _ => none
  A2DP_VendorGetEncoderInterface := fun _ => none
  A2DP_VendorAdjustCodec := fun _ => none
  A2DP_VendorSourceCodecIndex := fun _ => none
  A2DP_VendorCodecIndexStr := ""
  A2DP_VendorInitCodecConfig := fun _ => none
  A2DP_VendorCodecInfoString := fun _ => none

/-- Sink side functions none of which returns a value. -/
def noReturnSinkOps : SinkOps Nat Unit where
  A2DP_IsVendorSinkCodecValid := fun _ => none
  A2DP_IsVendorPeerSourceCodecValid := fun _ => none
  A2DP_IsVendorSinkCodecSupported := fun _ => none
  A2DP_IsPeerSourceCodecSupported := fun _ => none
  A2DP_VendorGetSinkTrackChannelType := fun _ => none
  A2DP_VendorGetDecoderInterface := fun _ => none
  A2DP_VendorSinkCodecIndex := fun _ => none
  A2DP_VendorCodecIndexStr := ""
  A2DP_VendorInitCodecConfig := fun _ => none

/-- The codec type of a buffer is its byte at index 2 (`AVDT_CODEC_TYPE_INDEX`
of the upstream headers). -/
def upstreamGetCodecType (p_codec_info : CodecInfo) : Option Nat :=
  readByte p_codec_info 2

/-- The upstream constants with the numbered family functions. -/
def tagEnv : Env Unit Nat Nat Unit where
  toVendorConsts := upstreamConsts
  Aptx := tagOps 1
  AptxHd := tagOps 2
  Ldac := tagOps 3
  Opus := tagOps 4
  LhdcV2 := tagOps 5
  LhdcV3 := tagOps 6
  LhdcV5 := tagOps 7
  LdacSink := tagSinkOps 3
  OpusSink := tagSinkOps 4
  LhdcV3Sink := tagSinkOps 6
  LhdcV5Sink := tagSinkOps 7
  A2DP_GetCodecType := upstreamGetCodecType
  loghex_uint32 := fun n => String.mk (Nat.toDigits 16 n)
  loghex_uint16 := fun n => String.mk (Nat.toDigits 16 n)

/-- The upstream constants with family functions that never return. -/
def noReturnEnv : Env Unit Nat Nat Unit where
  toVendorConsts := upstreamConsts
  Aptx := noReturnOps
  AptxHd := noReturnOps
  Ldac := noReturnOps
  Opus := noReturnOps
  LhdcV2 := noReturnOps
  LhdcV3 := noReturnOps
  LhdcV5 := noReturnOps
  LdacSink := noReturnSinkOps
  OpusSink := noReturnSinkOps
  LhdcV3Sink := noReturnSinkOps
  LhdcV5Sink := noReturnSinkOps
  A2DP_GetCodecType := upstreamGetCodecType
  loghex_uint32 := fun n => String.mk (Nat.toDigits 16 n)
  loghex_uint16 := fun n => String.mk (Nat.toDigits 16 n)

/-- A vendor buffer with vendor id `0xFFFFFFFF` and codec id `0xFFFF`. -/
def unknownBuf : CodecInfo :=
  [8, 0, 0xFF, 0xFF, 0xFF, 0xFF, 0xFF, 0xFF, 0xFF, 0]

/-- A vendor buffer with the aptX key `(0x4F, 0x0001)`. -/
def aptxBuf : CodecInfo :=
  [9, 0, 0xFF, 0x4F, 0, 0, 0, 0x01, 0, 0x22]

/-- A vendor buffer with the LDAC key `(0x12D, 0x00AA)`. -/
def ldacBuf : CodecInfo :=
  [10, 0, 0xFF, 0x2D, 0x01, 0, 0, 0xAA, 0, 0x3C, 0x07]

/-- A vendor buffer with the LHDC V3 key `(0x53A, 0x4C33)`. -/
def lhdcV3Buf : CodecInfo :=
  [11, 0, 0xFF, 0x3A, 0x05, 0, 0, 0x33, 0x4C, 0, 0, 0]

/-- An SBC buffer cut after the codec type byte. -/
def shortSbcBuf : CodecInfo :=
  [6, 0, 0]

/-- A vendor buffer cut after the codec type byte. -/
def shortVendorBuf : CodecInfo :=
  [8, 0, 0xFF]

/-! ## The equality checks through the registry -/

/-- The shape the two equality checks have in the specification: both codec
types must be the vendor type, the two keys must be equal, and then the
predicate `fam` of the resolved family decides, or `fallback` when the key
resolves to no family. -/
def viaRegistryEquals (E : Env Hdr Enc Dec Cfg) (fam : Family → Option Bool)
    (fallback : Bool) (p_codec_info_a p_codec_info_b : CodecInfo) : Option Bool := do
  let codec_type_a ← E.A2DP_GetCodecType p_codec_info_a
  let codec_type_b ← E.A2DP_GetCodecType p_codec_info_b
  if codec_type_a ≠ codec_type_b ∨ codec_type_a ≠ E.A2DP_MEDIA_CT_NON_A2DP then
    pure false
  else do
    let vendor_id_a ← A2DP_VendorCodecGetVendorId E.toVendorConsts p_codec_info_a
    let codec_id_a ← A2DP_VendorCodecGetCodecId E.toVendorConsts p_codec_info_a
    let vendor_id_b ← A2DP_VendorCodecGetVendorId E.toVendorConsts p_codec_info_b
    let codec_id_b ← A2DP_VendorCodecGetCodecId E.toVendorConsts p_codec_info_b
    if vendor_id_a ≠ vendor_id_b ∨ codec_id_a ≠ codec_id_b then
      pure false
    else
      match E.resolve vendor_id_a codec_id_a with
      | some F => fam F
      | none => pure fallback

/-! ## The family equality predicates in the specification

The functions `A2DP_VendorCodecTypeEquals...` and `A2DP_VendorCodecEquals...`
of the families are defined in the family files.  What the claims on the
equality checks need from them is taken from the specification, as properties
of the family predicates at the buffers in question.
-/

/-- Modelled from the spec: the family predicates `A2DP_VendorCodecEquals...`
and `A2DP_VendorCodecTypeEquals...`, whose code is missing.  The specification
has `codec_equals` "same as type-equals but further requires byte-level
configuration equality": where the family finds two buffers equal, it finds
them type equal. -/
def FamilyOps.EqualsStricterAt (O : FamilyOps Hdr Enc Cfg) (a b : CodecInfo) : Prop :=
  O.A2DP_VendorCodecEquals a b = some true → O.A2DP_VendorCodecTypeEquals a b = some true

/-- Modelled from the spec: the family predicates `A2DP_VendorCodecTypeEquals...`
and `A2DP_VendorCodecEquals...`, whose code is missing.  The specification has
them as a structural equality and a byte-level configuration equality, for which
the "order of arguments does not affect the result". -/
def FamilyOps.EqualsSymmAt (O : FamilyOps Hdr Enc Cfg) (a b : CodecInfo) : Prop :=
  O.A2DP_VendorCodecTypeEquals a b = O.A2DP_VendorCodecTypeEquals b a ∧
    O.A2DP_VendorCodecEquals a b = O.A2DP_VendorCodecEquals b a

/-- Modelled from the spec: the family predicates `A2DP_VendorCodecTypeEquals...`
and `A2DP_VendorCodecEquals...`, whose code is missing.  The specification has
them as a structural equality and a byte-level configuration equality, for which
"a buffer equals itself". -/
def FamilyOps.EqualsReflAt (O : FamilyOps Hdr Enc Cfg) (a : CodecInfo) : Prop :=
  O.A2DP_VendorCodecTypeEquals a a = some true ∧ O.A2DP_VendorCodecEquals a a = some true

/-- Modelled from the spec: the family predicates `A2DP_VendorCodecTypeEquals...`
and `A2DP_VendorCodecEquals...`, whose code is missing.  In the specification
two buffers of one family are type equal, and `codec_equals` "further requires
byte-level configuration equality"; `config` gives the configuration bytes that
the family compares. -/
def FamilyOps.EqualsByConfigAt (O : FamilyOps Hdr Enc Cfg)
    (config : CodecInfo → CodecInfo) (a b : CodecInfo) : Prop :=
  O.A2DP_VendorCodecTypeEquals a b = some true ∧
    O.A2DP_VendorCodecEquals a b = some (decide (config a = config b))

/-! ## Two more example buffers -/

/-- A vendor buffer with vendor id `0x0000004F` and codec id `0x0001`. -/
def scenarioBuf : CodecInfo :=
  [10, 0, 0xFF, 0x4F, 0, 0, 0, 0x01, 0, 0x3C, 0x07]

/-- The LDAC buffer `ldacBuf` with another last byte. -/
def ldacBuf2 : CodecInfo :=
  [10, 0, 0xFF, 0x2D, 0x01, 0, 0, 0xAA, 0, 0x3C, 0x01]

/-! ## The codec indices and the family functions of the two switches -/

/-- The twelve indices other than the SBC and AAC indices and
`BTAV_A2DP_CODEC_INDEX_MAX`. -/
def vendorIndices : List btav_a2dp_codec_index_t :=
  [.BTAV_A2DP_CODEC_INDEX_SOURCE_APTX, .BTAV_A2DP_CODEC_INDEX_SOURCE_APTX_HD,
    .BTAV_A2DP_CODEC_INDEX_SOURCE_LDAC, .BTAV_A2DP_CODEC_INDEX_SINK_LDAC,
    .BTAV_A2DP_CODEC_INDEX_SOURCE_LC3, .BTAV_A2DP_CODEC_INDEX_SOURCE_OPUS,
    .BTAV_A2DP_CODEC_INDEX_SINK_OPUS, .BTAV_A2DP_CODEC_INDEX_SOURCE_LHDCV2,
    .BTAV_A2DP_CODEC_INDEX_SOURCE_LHDCV3, .BTAV_A2DP_CODEC_INDEX_SOURCE_LHDCV5,
    .BTAV_A2DP_CODEC_INDEX_SINK_LHDCV3, .BTAV_A2DP_CODEC_INDEX_SINK_LHDCV5]

/-- The strings of the eleven family functions `A2DP_VendorCodecIndexStr...`. -/
def Env.familyIndexStrs (E : Env Hdr Enc Dec Cfg) : List String :=
  [E.Aptx.A2DP_VendorCodecIndexStr, E.AptxHd.A2DP_VendorCodecIndexStr,
    E.Ldac.A2DP_VendorCodecIndexStr, E.LdacSink.A2DP_VendorCodecIndexStr,
    E.Opus.A2DP_VendorCodecIndexStr, E.OpusSink.A2DP_VendorCodecIndexStr,
    E.LhdcV2.A2DP_VendorCodecIndexStr, E.LhdcV3.A2DP_VendorCodecIndexStr,
    E.LhdcV5.A2DP_VendorCodecIndexStr, E.LhdcV3Sink.A2DP_VendorCodecIndexStr,
    E.LhdcV5Sink.A2DP_VendorCodecIndexStr]

/-! ## Statements with an early return

`A2DP_IsVendorSinkCodecSupported` mixes `if (c) { return r; }` with
`else if`.  To compare the two forms, the statements of a body are given their
outcome: `some r` when the statement executes `return r`, `none` when control
passes to the next statement.
-/

/-- The outcome of a statement: `some r` after `return r`, `none` when control
passes on. -/
abbrev Outcome (α : Type) := Option (Option α)

/-- The statement `return r;`. -/
def stmtReturn {α : Type} (r : Option α) : Outcome α :=
  some r

/-- The statement `if (c) { s }`. -/
def stmtIf {α : Type} (c : Prop) [Decidable c] (s : Outcome α) : Outcome α :=
  if c then s else none

/-- The statement `if (c) { s } else t`. -/
def stmtIfElse {α : Type} (c : Prop) [Decidable c] (s t : Outcome α) : Outcome α :=
  if c then s else t

/-- The sequence `s t` of two statements. -/
def stmtSeq {α : Type} (s t : Outcome α) : Outcome α :=
  match s with
  | some r => some r
  | none => t

/-- The result of a body: what its `return` gave; control leaving the body of a
function with a result is no result. -/
def bodyResult {α : Type} (s : Outcome α) : Option α :=
  match s with
  | some r => r
  | none => none

/-- Source: `A2DP_IsVendorSinkCodecSupported`, statement by statement: an `if`
for LDAC, then an `if` for Opus whose `else` holds the `if` for LHDC V3, whose
`else` holds the `if` for LHDC V5, then `return false`. -/
def A2DP_IsVendorSinkCodecSupported_statements (E : Env Hdr Enc Dec Cfg)
    (p_codec_info : CodecInfo) : Option Bool := do
  let vendor_id ← A2DP_VendorCodecGetVendorId E.toVendorConsts p_codec_info
  let codec_id ← A2DP_VendorCodecGetCodecId E.toVendorConsts p_codec_info
  bodyResult <|
    stmtSeq
      (stmtIf (vendor_id = E.A2DP_LDAC_VENDOR_ID ∧ codec_id = E.A2DP_LDAC_CODEC_ID)
        (stmtReturn (E.LdacSink.A2DP_IsVendorSinkCodecSupported p_codec_info))) <|
    stmtSeq
      (stmtIfElse (vendor_id = E.A2DP_OPUS_VENDOR_ID ∧ codec_id = E.A2DP_OPUS_CODEC_ID)
        (stmtReturn (E.OpusSink.A2DP_IsVendorSinkCodecSupported p_codec_info))
        (stmtIfElse (vendor_id = E.A2DP_LHDC_VENDOR_ID ∧ codec_id = E.A2DP_LHDCV3_CODEC_ID)
          (stmtReturn (E.LhdcV3Sink.A2DP_IsVendorSinkCodecSupported p_codec_info))
          (stmtIf (vendor_id = E.A2DP_LHDC_VENDOR_ID ∧ codec_id = E.A2DP_LHDCV5_CODEC_ID)
            (stmtReturn (E.LhdcV5Sink.A2DP_IsVendorSinkCodecSupported p_codec_info))))) <|
    stmtReturn (pure false)

/-- The body of `A2DP_IsVendorSinkCodecSupported` rewritten as a plain chain of
four statements `if (c) { return r; }` with no `else`, the form of
`A2DP_IsVendorPeerSourceCodecSupported`. -/
def A2DP_IsVendorSinkCodecSupported_plainIf (E : Env Hdr Enc Dec Cfg)
    (p_codec_info : CodecInfo) : Option Bool := do
  let vendor_id ← A2DP_VendorCodecGetVendorId E.toVendorConsts p_codec_info
  let codec_id ← A2DP_VendorCodecGetCodecId E.toVendorConsts p_codec_info
  bodyResult <|
    stmtSeq
      (stmtIf (vendor_id = E.A2DP_LDAC_VENDOR_ID ∧ codec_id = E.A2DP_LDAC_CODEC_ID)
        (stmtReturn (E.LdacSink.A2DP_IsVendorSinkCodecSupported p_codec_info))) <|
    stmtSeq
      (stmtIf (vendor_id = E.A2DP_OPUS_VENDOR_ID ∧ codec_id = E.A2DP_OPUS_CODEC_ID)
        (stmtReturn (E.OpusSink.A2DP_IsVendorSinkCodecSupported p_codec_info))) <|
    stmtSeq
      (stmtIf (vendor_id = E.A2DP_LHDC_VENDOR_ID ∧ codec_id = E.A2DP_LHDCV3_CODEC_ID)
        (stmtReturn (E.LhdcV3Sink.A2DP_IsVendorSinkCodecSupported p_codec_info))) <|
    stmtSeq
      (stmtIf (vendor_id = E.A2DP_LHDC_VENDOR_ID ∧ codec_id = E.A2DP_LHDCV5_CODEC_ID)
        (stmtReturn (E.LhdcV5Sink.A2DP_IsVendorSinkCodecSupported p_codec_info))) <|
    stmtReturn (pure false)

/-! ## The sink side of the registry

In the specification a family descriptor declares the roles it supports.  The
families with a sink side are LDAC, Opus, LHDC V3 and LHDC V5; the sink side
operations look the key up among these four.
-/

/-- The families with a sink side, in the order of the sink side if chains. -/
def Family.sinkAll : List Family :=
  [.Ldac, .Opus, .LhdcV3, .LhdcV5]

/-- The registry entries of the families with a sink side. -/
def VendorConsts.sinkRegistry (C : VendorConsts) : List ((Nat × Nat) × Family) :=
  Family.sinkAll.map fun F => (C.keyOf F, F)

/-- The lookup of a key among the families with a sink side. -/
def VendorConsts.resolveSink (C : VendorConsts) (vendor_id codec_id : Nat) : Option Family :=
  C.sinkRegistry.lookup (vendor_id, codec_id)

/-- A sink side dispatcher of the specification: decode the key, look it up
among the families with a sink side, then apply the operation `op` of the sink
side of the family found, or give `fallback`. -/
def viaSinkRegistry {β : Type} (E : Env Hdr Enc Dec Cfg)
    (op : SinkOps Dec Cfg → Option β) (fallback : β)
    (p_codec_info : CodecInfo) : Option β := do
  let vendor_id ← A2DP_VendorCodecGetVendorId E.toVendorConsts p_codec_info
  let codec_id ← A2DP_VendorCodecGetCodecId E.toVendorConsts p_codec_info
  match E.resolveSink vendor_id codec_id with
  | some F =>
    match E.sinkOps F with
    | some S => op S
    | none => pure fallback
  | none => pure fallback

/-! ## The LHDC vendor id -/

/-- The vendor id of the LHDC families is the vendor id of no other family. -/
def VendorConsts.LhdcVendorIdOwn (C : VendorConsts) : Prop :=
  C.A2DP_LHDC_VENDOR_ID ≠ C.A2DP_APTX_VENDOR_ID ∧
    C.A2DP_LHDC_VENDOR_ID ≠ C.A2DP_APTX_HD_VENDOR_ID ∧
    C.A2DP_LHDC_VENDOR_ID ≠ C.A2DP_LDAC_VENDOR_ID ∧
    C.A2DP_LHDC_VENDOR_ID ≠ C.A2DP_OPUS_VENDOR_ID

instance (C : VendorConsts) : Decidable C.LhdcVendorIdOwn :=
  inferInstanceAs (Decidable (_ ∧ _ ∧ _ ∧ _))

/-! ## Further example buffers and an environment -/

/-- A vendor buffer with the LHDC V2 key `(0x53A, 0x4C32)`. -/
def lhdcV2Buf : CodecInfo :=
  [11, 0, 0xFF, 0x3A, 0x05, 0, 0, 0x32, 0x4C, 0, 0, 0]

/-- A vendor buffer with the LHDC V5 key `(0x53A, 0x4C35)`. -/
def lhdcV5Buf : CodecInfo :=
  [11, 0, 0xFF, 0x3A, 0x05, 0, 0, 0x35, 0x4C, 0, 0, 0]

/-- A vendor buffer with the LHDC vendor id and the codec id `0x4C4C`, which is
none of the three LHDC codec ids. -/
def lhdcOtherBuf : CodecInfo :=
  [11, 0, 0xFF, 0x3A, 0x05, 0, 0, 0x4C, 0x4C, 0, 0, 0]

/-- A second vendor buffer with vendor id `0xFFFFFFFF` and codec id `0xFFFF`,
longer than `unknownBuf` and with other bytes around the key. -/
def unknownBuf2 : CodecInfo :=
  [12, 0x10, 0xFF, 0xFF, 0xFF, 0xFF, 0xFF, 0xFF, 0xFF, 0x55, 0xAA, 0x01, 0x02]

/-- The numbered family functions, except that the two LDAC "supported"
predicates answer `false` on every buffer. -/
def supportedFalseEnv : Env Unit Nat Nat Unit :=
  { tagEnv with
    LdacSink :=
      { tagSinkOps 3 with
        A2DP_IsVendorSinkCodecSupported := fun _ => some false
        A2DP_IsPeerSourceCodecSupported := fun _ => some false } }

/-! ## Arithmetic of the byte assembly -/

set_option maxRecDepth 100000 in
theorem byte_and_ff (b : Byte) : b.val &&& 0xff = b.val := by
  revert b; decide

set_option maxRecDepth 100000 in
theorem byte_shl8 (b : Byte) : shl32 b.val 8 &&& 0xff00 = 2 ^ 8 * b.val := by
  revert b; decide

set_option maxRecDepth 100000 in
theorem byte_shl16 (b : Byte) : shl32 b.val 16 &&& 0xff0000 = 2 ^ 16 * b.val := by
  revert b; decide

set_option maxRecDepth 100000 in
theorem byte_shl24 (b : Byte) : shl32 b.val 24 &&& 0xff000000 = 2 ^ 24 * b.val := by
  revert b; decide


theorem or_assemble32 (b0 b1 b2 b3 : Byte) :
    toU32 (b0.val ||| 2 ^ 8 * b1.val ||| 2 ^ 16 * b2.val ||| 2 ^ 24 * b3.val)
      = b0.val + 2 ^ 8 * b1.val + 2 ^ 16 * b2.val + 2 ^ 24 * b3.val := by
  have h0 := b0.isLt
  have h1 := b1.isLt
  have h2 := b2.isLt
  have h3 := b3.isLt
  have e1 : b0.val ||| 2 ^ 8 * b1.val = 2 ^ 8 * b1.val + b0.val := by
    rw [Nat.lor_comm]
    exact (Nat.mul_add_lt_is_or (by omega) _).symm
  have e2 : (2 ^ 8 * b1.val + b0.val) ||| 2 ^ 16 * b2.val
      = 2 ^ 16 * b2.val + (2 ^ 8 * b1.val + b0.val) := by
    rw [Nat.lor_comm]
    exact (Nat.mul_add_lt_is_or (by omega) _).symm
  have e3 : (2 ^ 16 * b2.val + (2 ^ 8 * b1.val + b0.val)) ||| 2 ^ 24 * b3.val
      = 2 ^ 24 * b3.val + (2 ^ 16 * b2.val + (2 ^ 8 * b1.val + b0.val)) := by
    rw [Nat.lor_comm]
    exact (Nat.mul_add_lt_is_or (by omega) _).symm
  rw [e1, e2, e3]
  unfold toU32
  omega

theorem or_assemble16 (c0 c1 : Byte) :
    toU16 (c0.val ||| 2 ^ 8 * c1.val) = c0.val + 2 ^ 8 * c1.val := by
  have h0 := c0.isLt
  have h1 := c1.isLt
  have e1 : c0.val ||| 2 ^ 8 * c1.val = 2 ^ 8 * c1.val + c0.val := by
    rw [Nat.lor_comm]
    exact (Nat.mul_add_lt_is_or (by omega) _).symm
  rw [e1]
  unfold toU16
  omega

theorem readByte_offsetPtr (p : CodecInfo) (s k : Nat) :
    readByte (offsetPtr p s) k = p[s + k]?.map Fin.val := by
  simp [readByte, offsetPtr, List.getElem?_drop]

/-- Reading behind `n` padding bytes. -/
theorem getElem?_padded (a : Byte) (n : Nat) (l : CodecInfo) (k : Nat) :
    (List.replicate n a ++ l)[n + k]? = l[k]? := by
  rw [List.getElem?_append_right (by simp)]
  simp

/-- The vendor id of a buffer that holds `b0 .. b3` in the vendor id field. -/
theorem getVendorId_of_bytes (C : VendorConsts) (p : CodecInfo) (b0 b1 b2 b3 : Byte)
    (h0 : p[C.A2DP_VENDOR_CODEC_VENDOR_ID_START_IDX]? = some b0)
    (h1 : p[C.A2DP_VENDOR_CODEC_VENDOR_ID_START_IDX + 1]? = some b1)
    (h2 : p[C.A2DP_VENDOR_CODEC_VENDOR_ID_START_IDX + 2]? = some b2)
    (h3 : p[C.A2DP_VENDOR_CODEC_VENDOR_ID_START_IDX + 3]? = some b3) :
    A2DP_VendorCodecGetVendorId C p
      = some (b0.val + 2 ^ 8 * b1.val + 2 ^ 16 * b2.val + 2 ^ 24 * b3.val) := by
  simp only [A2DP_VendorCodecGetVendorId, readByte_offsetPtr, Nat.add_zero, h0, h1, h2, h3,
    Option.map_some', Option.bind_eq_bind, Option.some_bind, Option.pure_def,
    byte_and_ff, byte_shl8, byte_shl16, byte_shl24, or_assemble32]

/-- The codec id of a buffer that holds `c0, c1` in the codec id field. -/
theorem getCodecId_of_bytes (C : VendorConsts) (p : CodecInfo) (c0 c1 : Byte)
    (h0 : p[C.A2DP_VENDOR_CODEC_CODEC_ID_START_IDX]? = some c0)
    (h1 : p[C.A2DP_VENDOR_CODEC_CODEC_ID_START_IDX + 1]? = some c1) :
    A2DP_VendorCodecGetCodecId C p = some (c0.val + 2 ^ 8 * c1.val) := by
  simp only [A2DP_VendorCodecGetCodecId, readByte_offsetPtr, Nat.add_zero, h0, h1,
    Option.map_some', Option.bind_eq_bind, Option.some_bind, Option.pure_def,
    byte_and_ff, byte_shl8, or_assemble16]


/-! ## Keys and the branch conditions -/

/-- A key no family owns fails each of the seven branch conditions. -/
theorem conds_of_unregistered (C : VendorConsts) (vendor_id codec_id : Nat)
    (hun : ∀ F, C.keyOf F ≠ (vendor_id, codec_id)) :
    ¬ (vendor_id = C.A2DP_APTX_VENDOR_ID ∧ codec_id = C.A2DP_APTX_CODEC_ID_BLUETOOTH) ∧
    ¬ (vendor_id = C.A2DP_APTX_HD_VENDOR_ID ∧ codec_id = C.A2DP_APTX_HD_CODEC_ID_BLUETOOTH) ∧
    ¬ (vendor_id = C.A2DP_LDAC_VENDOR_ID ∧ codec_id = C.A2DP_LDAC_CODEC_ID) ∧
    ¬ (vendor_id = C.A2DP_OPUS_VENDOR_ID ∧ codec_id = C.A2DP_OPUS_CODEC_ID) ∧
    ¬ (vendor_id = C.A2DP_LHDC_VENDOR_ID ∧ codec_id = C.A2DP_LHDCV2_CODEC_ID) ∧
    ¬ (vendor_id = C.A2DP_LHDC_VENDOR_ID ∧ codec_id = C.A2DP_LHDCV3_CODEC_ID) ∧
    ¬ (vendor_id = C.A2DP_LHDC_VENDOR_ID ∧ codec_id = C.A2DP_LHDCV5_CODEC_ID) := by
  refine ⟨?_, ?_, ?_, ?_, ?_, ?_, ?_⟩
  · rintro ⟨rfl, rfl⟩; exact hun .Aptx rfl
  · rintro ⟨rfl, rfl⟩; exact hun .AptxHd rfl
  · rintro ⟨rfl, rfl⟩; exact hun .Ldac rfl
  · rintro ⟨rfl, rfl⟩; exact hun .Opus rfl
  · rintro ⟨rfl, rfl⟩; exact hun .LhdcV2 rfl
  · rintro ⟨rfl, rfl⟩; exact hun .LhdcV3 rfl
  · rintro ⟨rfl, rfl⟩; exact hun .LhdcV5 rfl

/-- Distinct keys make `keyOf` injective. -/
theorem keyOf_injective (C : VendorConsts) (hd : C.KeysDistinct) (F G : Family)
    (h : C.keyOf F = C.keyOf G) : F = G := by
  have hinj := List.inj_on_of_nodup_map hd
  have hF : F ∈ Family.all := by cases F <;> simp [Family.all]
  have hG : G ∈ Family.all := by cases G <;> simp [Family.all]
  exact hinj hF hG h

/-- With distinct keys, on the key of family `F` a branch condition holds
exactly when the branch is the one of `F`. -/
theorem conds_of_registered (C : VendorConsts) (hd : C.KeysDistinct) (F : Family)
    (vendor_id codec_id : Nat) (hkey : C.keyOf F = (vendor_id, codec_id)) :
    ((vendor_id = C.A2DP_APTX_VENDOR_ID ∧ codec_id = C.A2DP_APTX_CODEC_ID_BLUETOOTH)
      ↔ F = .Aptx) ∧
    ((vendor_id = C.A2DP_APTX_HD_VENDOR_ID ∧ codec_id = C.A2DP_APTX_HD_CODEC_ID_BLUETOOTH)
      ↔ F = .AptxHd) ∧
    ((vendor_id = C.A2DP_LDAC_VENDOR_ID ∧ codec_id = C.A2DP_LDAC_CODEC_ID) ↔ F = .Ldac) ∧
    ((vendor_id = C.A2DP_OPUS_VENDOR_ID ∧ codec_id = C.A2DP_OPUS_CODEC_ID) ↔ F = .Opus) ∧
    ((vendor_id = C.A2DP_LHDC_VENDOR_ID ∧ codec_id = C.A2DP_LHDCV2_CODEC_ID) ↔ F = .LhdcV2) ∧
    ((vendor_id = C.A2DP_LHDC_VENDOR_ID ∧ codec_id = C.A2DP_LHDCV3_CODEC_ID) ↔ F = .LhdcV3) ∧
    ((vendor_id = C.A2DP_LHDC_VENDOR_ID ∧ codec_id = C.A2DP_LHDCV5_CODEC_ID) ↔ F = .LhdcV5) := by
  have key : ∀ G : Family, (vendor_id, codec_id) = C.keyOf G ↔ F = G := by
    intro G
    constructor
    · intro h
      exact keyOf_injective C hd F G (hkey.trans h)
    · rintro rfl
      exact hkey.symm
  refine ⟨?_, ?_, ?_, ?_, ?_, ?_, ?_⟩
  · rw [← key .Aptx]; simp [VendorConsts.keyOf]
  · rw [← key .AptxHd]; simp [VendorConsts.keyOf]
  · rw [← key .Ldac]; simp [VendorConsts.keyOf]
  · rw [← key .Opus]; simp [VendorConsts.keyOf]
  · rw [← key .LhdcV2]; simp [VendorConsts.keyOf]
  · rw [← key .LhdcV3]; simp [VendorConsts.keyOf]
  · rw [← key .LhdcV5]; simp [VendorConsts.keyOf]

/-- One step of `List.lookup`, as an `if`. -/
theorem lookup_cons_ite {α β : Type} [BEq α] [LawfulBEq α] [DecidableEq α]
    (a k : α) (b : β) (es : List (α × β)) :
    ((k, b) :: es).lookup a = if a = k then some b else es.lookup a := by
  by_cases h : a = k
  · subst h; simp [List.lookup]
  · have hb : (a == k) = false := by simpa using h
    simp [List.lookup, hb, h]

/-- The if chain over the seven keys is the lookup in the registry. -/
theorem chain_eq_resolve {β : Type} (C : VendorConsts) (vendor_id codec_id : Nat)
    (x : Family → β) (fb : β) :
    (if vendor_id = C.A2DP_APTX_VENDOR_ID ∧ codec_id = C.A2DP_APTX_CODEC_ID_BLUETOOTH then
        x .Aptx
      else if vendor_id = C.A2DP_APTX_HD_VENDOR_ID ∧
          codec_id = C.A2DP_APTX_HD_CODEC_ID_BLUETOOTH then
        x .AptxHd
      else if vendor_id = C.A2DP_LDAC_VENDOR_ID ∧ codec_id = C.A2DP_LDAC_CODEC_ID then
        x .Ldac
      else if vendor_id = C.A2DP_OPUS_VENDOR_ID ∧ codec_id = C.A2DP_OPUS_CODEC_ID then
        x .Opus
      else if vendor_id = C.A2DP_LHDC_VENDOR_ID ∧ codec_id = C.A2DP_LHDCV2_CODEC_ID then
        x .LhdcV2
      else if vendor_id = C.A2DP_LHDC_VENDOR_ID ∧ codec_id = C.A2DP_LHDCV3_CODEC_ID then
        x .LhdcV3
      else if vendor_id = C.A2DP_LHDC_VENDOR_ID ∧ codec_id = C.A2DP_LHDCV5_CODEC_ID then
        x .LhdcV5
      else fb)
    = (match C.resolve vendor_id codec_id with
        | some F => x F
        | none => fb) := by
  simp only [VendorConsts.resolve, VendorConsts.registry, Family.all, List.map,
    VendorConsts.keyOf, lookup_cons_ite, Prod.mk.injEq, List.lookup_nil]
  split_ifs <;> rfl


/-! ## The field accessors decode little endian -/

/-- C1: on every buffer that holds the bytes `b0, b1, b2, b3` at the indices
`A2DP_VENDOR_CODEC_VENDOR_ID_START_IDX .. + 3`, `A2DP_VendorCodecGetVendorId`
returns exactly `b0 + 2^8 * b1 + 2^16 * b2 + 2^24 * b3`, a value below `2^32`,
for all byte values (also for `b3 ≥ 0x80`, where `p[3] << 24` leaves the range
of a signed 32 bit `int`). -/
theorem A2DP_VendorCodecGetVendorId_little_endian (C : VendorConsts)
    (p_codec_info : CodecInfo) (b0 b1 b2 b3 : Byte)
    (h0 : p_codec_info[C.A2DP_VENDOR_CODEC_VENDOR_ID_START_IDX]? = some b0)
    (h1 : p_codec_info[C.A2DP_VENDOR_CODEC_VENDOR_ID_START_IDX + 1]? = some b1)
    (h2 : p_codec_info[C.A2DP_VENDOR_CODEC_VENDOR_ID_START_IDX + 2]? = some b2)
    (h3 : p_codec_info[C.A2DP_VENDOR_CODEC_VENDOR_ID_START_IDX + 3]? = some b3) :
    A2DP_VendorCodecGetVendorId C p_codec_info
        = some (b0.val + 2 ^ 8 * b1.val + 2 ^ 16 * b2.val + 2 ^ 24 * b3.val) ∧
      b0.val + 2 ^ 8 * b1.val + 2 ^ 16 * b2.val + 2 ^ 24 * b3.val < 2 ^ 32 := by
  refine ⟨getVendorId_of_bytes C p_codec_info b0 b1 b2 b3 h0 h1 h2 h3, ?_⟩
  have := b0.isLt
  have := b1.isLt
  have := b2.isLt
  have := b3.isLt
  omega

/-- C1 at a buffer whose top vendor id byte is `0x80`: the value is
`0x4F + 2^24 * 0x80 = 0x8000004F`. -/
theorem A2DP_VendorCodecGetVendorId_little_endian_witness :
    A2DP_VendorCodecGetVendorId upstreamConsts [9, 0, 0xFF, 0x4F, 0, 0, 0x80, 1, 0]
        = some (0x4F + 2 ^ 8 * 0 + 2 ^ 16 * 0 + 2 ^ 24 * 0x80) ∧
      0x4F + 2 ^ 8 * 0 + 2 ^ 16 * 0 + 2 ^ 24 * 0x80 < 2 ^ 32 :=
  A2DP_VendorCodecGetVendorId_little_endian upstreamConsts
    [9, 0, 0xFF, 0x4F, 0, 0, 0x80, 1, 0] 0x4F 0 0 0x80 (by decide) (by decide) (by decide)
    (by decide)

/-- C2: on every buffer that holds the bytes `c0, c1` at the indices
`A2DP_VENDOR_CODEC_CODEC_ID_START_IDX` and `+ 1`, `A2DP_VendorCodecGetCodecId`
returns exactly `c0 + 2^8 * c1`, a value in `[0, 65535]`; a buffer holding
another pair of bytes gets another value, and every value of `[0, 65535]` is
the codec id of some buffer. -/
theorem A2DP_VendorCodecGetCodecId_little_endian (C : VendorConsts)
    (p_codec_info : CodecInfo) (c0 c1 : Byte)
    (h0 : p_codec_info[C.A2DP_VENDOR_CODEC_CODEC_ID_START_IDX]? = some c0)
    (h1 : p_codec_info[C.A2DP_VENDOR_CODEC_CODEC_ID_START_IDX + 1]? = some c1) :
    A2DP_VendorCodecGetCodecId C p_codec_info = some (c0.val + 2 ^ 8 * c1.val) ∧
      c0.val + 2 ^ 8 * c1.val ≤ 65535 ∧
      (∀ (q : CodecInfo) (d0 d1 : Byte),
        q[C.A2DP_VENDOR_CODEC_CODEC_ID_START_IDX]? = some d0 →
        q[C.A2DP_VENDOR_CODEC_CODEC_ID_START_IDX + 1]? = some d1 →
        A2DP_VendorCodecGetCodecId C q = A2DP_VendorCodecGetCodecId C p_codec_info →
        d0 = c0 ∧ d1 = c1) ∧
      (∀ v : Nat, v ≤ 65535 → ∃ (q : CodecInfo) (d0 d1 : Byte),
        q[C.A2DP_VENDOR_CODEC_CODEC_ID_START_IDX]? = some d0 ∧
        q[C.A2DP_VENDOR_CODEC_CODEC_ID_START_IDX + 1]? = some d1 ∧
        A2DP_VendorCodecGetCodecId C q = some v) := by
  have hp := getCodecId_of_bytes C p_codec_info c0 c1 h0 h1
  have hc0 := c0.isLt
  have hc1 := c1.isLt
  refine ⟨hp, by omega, ?_, ?_⟩
  · intro q d0 d1 g0 g1 heq
    rw [hp, getCodecId_of_bytes C q d0 d1 g0 g1] at heq
    have hd0 := d0.isLt
    have hd1 := d1.isLt
    have hv : d0.val + 2 ^ 8 * d1.val = c0.val + 2 ^ 8 * c1.val := Option.some.inj heq
    constructor
    · apply Fin.ext; omega
    · apply Fin.ext; omega
  · intro v hv
    let d0 : Byte := ⟨v % 256, by omega⟩
    let d1 : Byte := ⟨v / 256, by omega⟩
    let q : CodecInfo :=
      List.replicate C.A2DP_VENDOR_CODEC_CODEC_ID_START_IDX 0 ++ [d0, d1]
    have g0 : q[C.A2DP_VENDOR_CODEC_CODEC_ID_START_IDX]? = some d0 :=
      getElem?_padded 0 _ [d0, d1] 0
    have g1 : q[C.A2DP_VENDOR_CODEC_CODEC_ID_START_IDX + 1]? = some d1 :=
      getElem?_padded 0 _ [d0, d1] 1
    refine ⟨q, d0, d1, g0, g1, ?_⟩
    rw [getCodecId_of_bytes C q d0 d1 g0 g1]
    congr 1
    show v % 256 + 2 ^ 8 * (v / 256) = v
    omega

/-- C2 at the LDAC buffer of the examples, whose codec id bytes are `0xAA, 0x00`. -/
theorem A2DP_VendorCodecGetCodecId_little_endian_witness :
    A2DP_VendorCodecGetCodecId upstreamConsts ldacBuf = some (0xAA + 2 ^ 8 * 0) :=
  (A2DP_VendorCodecGetCodecId_little_endian upstreamConsts ldacBuf 0xAA 0
    (by decide) (by decide)).1

/-! ## Unregistered keys and the validity checks -/

/-- C3: when the decoded key `(vendor_id, codec_id)` of a buffer is the key of
none of the seven families, the four role validity checks return `false`; this
holds for every choice of the family functions, also for family functions that
never return, so no family predicate is called. -/
theorem valid_checks_false_of_unregistered (E : Env Hdr Enc Dec Cfg)
    (p_codec_info : CodecInfo) (vendor_id codec_id : Nat)
    (hv : A2DP_VendorCodecGetVendorId E.toVendorConsts p_codec_info = some vendor_id)
    (hc : A2DP_VendorCodecGetCodecId E.toVendorConsts p_codec_info = some codec_id)
    (hun : ∀ F, E.keyOf F ≠ (vendor_id, codec_id)) :
    A2DP_IsVendorSourceCodecValid E p_codec_info = some false ∧
      A2DP_IsVendorSinkCodecValid E p_codec_info = some false ∧
      A2DP_IsVendorPeerSourceCodecValid E p_codec_info = some false ∧
      A2DP_IsVendorPeerSinkCodecValid E p_codec_info = some false := by
  obtain ⟨n1, n2, n3, n4, n5, n6, n7⟩ :=
    conds_of_unregistered E.toVendorConsts vendor_id codec_id hun
  refine ⟨?_, ?_, ?_, ?_⟩
  · simp only [A2DP_IsVendorSourceCodecValid, hv, hc, Option.bind_eq_bind, Option.some_bind,
      if_neg n1, if_neg n2, if_neg n3, if_neg n4, if_neg n5, if_neg n6, if_neg n7,
      Option.pure_def]
  · simp only [A2DP_IsVendorSinkCodecValid, hv, hc, Option.bind_eq_bind, Option.some_bind,
      if_neg n3, if_neg n4, if_neg n6, if_neg n7, Option.pure_def]
  · simp only [A2DP_IsVendorPeerSourceCodecValid, hv, hc, Option.bind_eq_bind,
      Option.some_bind, if_neg n3, if_neg n4, if_neg n6, if_neg n7, Option.pure_def]
  · simp only [A2DP_IsVendorPeerSinkCodecValid, hv, hc, Option.bind_eq_bind, Option.some_bind,
      if_neg n1, if_neg n2, if_neg n3, if_neg n4, if_neg n5, if_neg n6, if_neg n7,
      Option.pure_def]

/-- C3 at the buffer with key `(0xFFFFFFFF, 0xFFFF)`, with family functions
that never return. -/
theorem valid_checks_false_of_unregistered_witness :
    A2DP_IsVendorSourceCodecValid noReturnEnv unknownBuf = some false ∧
      A2DP_IsVendorSinkCodecValid noReturnEnv unknownBuf = some false ∧
      A2DP_IsVendorPeerSourceCodecValid noReturnEnv unknownBuf = some false ∧
      A2DP_IsVendorPeerSinkCodecValid noReturnEnv unknownBuf = some false :=
  valid_checks_false_of_unregistered noReturnEnv unknownBuf 0xFFFFFFFF 0xFFFF
    (by decide) (by decide) (fun F => by cases F <;> decide)


/-! ## Registered keys and the validity checks -/

/-- C4: with pairwise distinct registered keys, on a buffer whose key is the
key of aptX, aptX-HD or LHDC V2 (the families without a sink side) the local
sink check and the peer source check return `false`, for every choice of the
family functions. -/
theorem sink_checks_false_of_source_only_family (E : Env Hdr Enc Dec Cfg)
    (hd : E.KeysDistinct) (p_codec_info : CodecInfo) (vendor_id codec_id : Nat)
    (hv : A2DP_VendorCodecGetVendorId E.toVendorConsts p_codec_info = some vendor_id)
    (hc : A2DP_VendorCodecGetCodecId E.toVendorConsts p_codec_info = some codec_id)
    (F : Family) (hF : F = .Aptx ∨ F = .AptxHd ∨ F = .LhdcV2)
    (hkey : E.keyOf F = (vendor_id, codec_id)) :
    A2DP_IsVendorSinkCodecValid E p_codec_info = some false ∧
      A2DP_IsVendorPeerSourceCodecValid E p_codec_info = some false := by
  obtain ⟨-, -, e3, e4, -, e6, e7⟩ :=
    conds_of_registered E.toVendorConsts hd F vendor_id codec_id hkey
  constructor
  · simp only [A2DP_IsVendorSinkCodecValid, hv, hc, Option.bind_eq_bind, Option.some_bind,
      e3, e4, e6, e7]
    rcases hF with rfl | rfl | rfl <;> simp
  · simp only [A2DP_IsVendorPeerSourceCodecValid, hv, hc, Option.bind_eq_bind,
      Option.some_bind, e3, e4, e6, e7]
    rcases hF with rfl | rfl | rfl <;> simp

/-- C4 at the aptX buffer, with sink predicates that answer `true` on it. -/
theorem sink_checks_false_of_source_only_family_witness :
    A2DP_IsVendorSinkCodecValid tagEnv aptxBuf = some false ∧
      A2DP_IsVendorPeerSourceCodecValid tagEnv aptxBuf = some false :=
  sink_checks_false_of_source_only_family tagEnv (by decide) aptxBuf 0x4F 0x0001
    (by decide) (by decide) .Aptx (Or.inl rfl) (by decide)

/-- C5: with pairwise distinct registered keys, on a buffer whose key is the
key of family `F` the local source check and the peer sink check return the
verdict of the source, respectively peer sink, predicate of `F` on the same
buffer; and when `F` has a sink side (LDAC, Opus, LHDC V3, LHDC V5) the local
sink check and the peer source check return the verdict of the sink,
respectively peer source, predicate of `F` on the same buffer. -/
theorem valid_checks_delegate (E : Env Hdr Enc Dec Cfg)
    (hd : E.KeysDistinct) (p_codec_info : CodecInfo) (vendor_id codec_id : Nat)
    (hv : A2DP_VendorCodecGetVendorId E.toVendorConsts p_codec_info = some vendor_id)
    (hc : A2DP_VendorCodecGetCodecId E.toVendorConsts p_codec_info = some codec_id)
    (F : Family) (hkey : E.keyOf F = (vendor_id, codec_id)) :
    A2DP_IsVendorSourceCodecValid E p_codec_info
        = (E.ops F).A2DP_IsVendorSourceCodecValid p_codec_info ∧
      A2DP_IsVendorPeerSinkCodecValid E p_codec_info
        = (E.ops F).A2DP_IsVendorPeerSinkCodecValid p_codec_info ∧
      (F = .Ldac ∨ F = .Opus ∨ F = .LhdcV3 ∨ F = .LhdcV5 →
        ∃ S, E.sinkOps F = some S ∧
          A2DP_IsVendorSinkCodecValid E p_codec_info
            = S.A2DP_IsVendorSinkCodecValid p_codec_info ∧
          A2DP_IsVendorPeerSourceCodecValid E p_codec_info
            = S.A2DP_IsVendorPeerSourceCodecValid p_codec_info) := by
  obtain ⟨e1, e2, e3, e4, e5, e6, e7⟩ :=
    conds_of_registered E.toVendorConsts hd F vendor_id codec_id hkey
  refine ⟨?_, ?_, ?_⟩
  · simp only [A2DP_IsVendorSourceCodecValid, hv, hc, Option.bind_eq_bind, Option.some_bind,
      e1, e2, e3, e4, e5, e6, e7]
    cases F <;> simp [Env.ops]
  · simp only [A2DP_IsVendorPeerSinkCodecValid, hv, hc, Option.bind_eq_bind, Option.some_bind,
      e1, e2, e3, e4, e5, e6, e7]
    cases F <;> simp [Env.ops]
  · intro hF
    simp only [A2DP_IsVendorSinkCodecValid, A2DP_IsVendorPeerSourceCodecValid, hv, hc,
      Option.bind_eq_bind, Option.some_bind, e3, e4, e6, e7]
    rcases hF with rfl | rfl | rfl | rfl <;> simp [Env.sinkOps]

/-- C5 at the LDAC buffer: the checks give the answers of the LDAC predicates. -/
theorem valid_checks_delegate_witness :
    A2DP_IsVendorSourceCodecValid tagEnv ldacBuf
        = (tagEnv.ops .Ldac).A2DP_IsVendorSourceCodecValid ldacBuf ∧
      A2DP_IsVendorPeerSinkCodecValid tagEnv ldacBuf
        = (tagEnv.ops .Ldac).A2DP_IsVendorPeerSinkCodecValid ldacBuf ∧
      (Family.Ldac = .Ldac ∨ Family.Ldac = .Opus ∨ Family.Ldac = .LhdcV3 ∨
          Family.Ldac = .LhdcV5 →
        ∃ S, tagEnv.sinkOps .Ldac = some S ∧
          A2DP_IsVendorSinkCodecValid tagEnv ldacBuf
            = S.A2DP_IsVendorSinkCodecValid ldacBuf ∧
          A2DP_IsVendorPeerSourceCodecValid tagEnv ldacBuf
            = S.A2DP_IsVendorPeerSourceCodecValid ldacBuf) :=
  valid_checks_delegate tagEnv (by decide) ldacBuf 0x12D 0xAA (by decide) (by decide)
    .Ldac (by decide)

/-! ## The if chain is a registry lookup -/

/-- The lookup `resolve`, written as the if chain of the source. -/
theorem resolve_eq_chain (C : VendorConsts) (vendor_id codec_id : Nat) :
    C.resolve vendor_id codec_id =
      (if vendor_id = C.A2DP_APTX_VENDOR_ID ∧ codec_id = C.A2DP_APTX_CODEC_ID_BLUETOOTH then
        some .Aptx
      else if vendor_id = C.A2DP_APTX_HD_VENDOR_ID ∧
          codec_id = C.A2DP_APTX_HD_CODEC_ID_BLUETOOTH then
        some .AptxHd
      else if vendor_id = C.A2DP_LDAC_VENDOR_ID ∧ codec_id = C.A2DP_LDAC_CODEC_ID then
        some .Ldac
      else if vendor_id = C.A2DP_OPUS_VENDOR_ID ∧ codec_id = C.A2DP_OPUS_CODEC_ID then
        some .Opus
      else if vendor_id = C.A2DP_LHDC_VENDOR_ID ∧ codec_id = C.A2DP_LHDCV2_CODEC_ID then
        some .LhdcV2
      else if vendor_id = C.A2DP_LHDC_VENDOR_ID ∧ codec_id = C.A2DP_LHDCV3_CODEC_ID then
        some .LhdcV3
      else if vendor_id = C.A2DP_LHDC_VENDOR_ID ∧ codec_id = C.A2DP_LHDCV5_CODEC_ID then
        some .LhdcV5
      else none) := by
  rw [chain_eq_resolve C vendor_id codec_id some none]
  cases C.resolve vendor_id codec_id <;> rfl

/-- With distinct keys, the key of a family resolves to that family. -/
theorem resolve_keyOf (C : VendorConsts) (hd : C.KeysDistinct) (F : Family) :
    C.resolve (C.keyOf F).1 (C.keyOf F).2 = some F := by
  obtain ⟨e1, e2, e3, e4, e5, e6, e7⟩ :=
    conds_of_registered C hd F (C.keyOf F).1 (C.keyOf F).2 rfl
  rw [resolve_eq_chain]
  simp only [e1, e2, e3, e4, e5, e6, e7]
  cases F <;> simp

/-- A key no family owns resolves to no family. -/
theorem resolve_unregistered (C : VendorConsts) (vendor_id codec_id : Nat)
    (hun : ∀ F, C.keyOf F ≠ (vendor_id, codec_id)) :
    C.resolve vendor_id codec_id = none := by
  obtain ⟨n1, n2, n3, n4, n5, n6, n7⟩ := conds_of_unregistered C vendor_id codec_id hun
  rw [resolve_eq_chain]
  simp only [if_neg n1, if_neg n2, if_neg n3, if_neg n4, if_neg n5, if_neg n6, if_neg n7]

/-- A dispatcher that decodes the key and runs the seven way if chain is the
registry dispatcher. -/
theorem chain_dispatch_eq_viaRegistry {β : Type} (E : Env Hdr Enc Dec Cfg)
    (op : FamilyOps Hdr Enc Cfg → Option β) (fallback : Nat → Nat → β)
    (p_codec_info : CodecInfo) :
    (do
      let vendor_id ← A2DP_VendorCodecGetVendorId E.toVendorConsts p_codec_info
      let codec_id ← A2DP_VendorCodecGetCodecId E.toVendorConsts p_codec_info
      if vendor_id = E.A2DP_APTX_VENDOR_ID ∧ codec_id = E.A2DP_APTX_CODEC_ID_BLUETOOTH then
        op E.Aptx
      else if vendor_id = E.A2DP_APTX_HD_VENDOR_ID ∧
          codec_id = E.A2DP_APTX_HD_CODEC_ID_BLUETOOTH then
        op E.AptxHd
      else if vendor_id = E.A2DP_LDAC_VENDOR_ID ∧ codec_id = E.A2DP_LDAC_CODEC_ID then
        op E.Ldac
      else if vendor_id = E.A2DP_OPUS_VENDOR_ID ∧ codec_id = E.A2DP_OPUS_CODEC_ID then
        op E.Opus
      else if vendor_id = E.A2DP_LHDC_VENDOR_ID ∧ codec_id = E.A2DP_LHDCV2_CODEC_ID then
        op E.LhdcV2
      else if vendor_id = E.A2DP_LHDC_VENDOR_ID ∧ codec_id = E.A2DP_LHDCV3_CODEC_ID then
        op E.LhdcV3
      else if vendor_id = E.A2DP_LHDC_VENDOR_ID ∧ codec_id = E.A2DP_LHDCV5_CODEC_ID then
        op E.LhdcV5
      else
        pure (fallback vendor_id codec_id))
    = viaRegistry E op fallback p_codec_info := by
  unfold viaRegistry
  cases A2DP_VendorCodecGetVendorId E.toVendorConsts p_codec_info with
  | none => rfl
  | some vendor_id =>
    cases A2DP_VendorCodecGetCodecId E.toVendorConsts p_codec_info with
    | none => rfl
    | some codec_id =>
      exact chain_eq_resolve E.toVendorConsts vendor_id codec_id (fun F => op (E.ops F))
        (pure (fallback vendor_id codec_id))


/-- C6: the if chain dispatch is a registry lookup.  With pairwise distinct
registered keys, `resolve` returns family `F` on the key of `F`; it returns no
family on a key no family owns; and each of the fourteen dispatchers that cover
all seven families (source validity, peer sink validity, uses RTP header, name,
bit rate, sample rate, bits per sample, channel count, packet timestamp, header
build, encoder interface, adjust, source codec index, info string) decodes the
key, resolves it, and applies the operation of the resolved family, or gives
its fixed fallback when the key resolves to no family. -/
theorem dispatch_is_registry_lookup (E : Env Hdr Enc Dec Cfg) (hd : E.KeysDistinct) :
    (∀ F, E.resolve (E.keyOf F).1 (E.keyOf F).2 = some F) ∧
    (∀ vendor_id codec_id, (∀ F, E.keyOf F ≠ (vendor_id, codec_id)) →
      E.resolve vendor_id codec_id = none) ∧
    (∀ p, A2DP_IsVendorSourceCodecValid E p
      = viaRegistry E (fun O => O.A2DP_IsVendorSourceCodecValid p) (fun _ _ => false) p) ∧
    (∀ p, A2DP_IsVendorPeerSinkCodecValid E p
      = viaRegistry E (fun O => O.A2DP_IsVendorPeerSinkCodecValid p) (fun _ _ => false) p) ∧
    (∀ cp p, A2DP_VendorUsesRtpHeader E cp p
      = viaRegistry E (fun O => O.A2DP_VendorUsesRtpHeader cp p) (fun _ _ => true) p) ∧
    (∀ p, A2DP_VendorCodecName E p
      = viaRegistry E (fun O => O.A2DP_VendorCodecName p)
          (fun _ _ => "UNKNOWN VENDOR CODEC") p) ∧
    (∀ p, A2DP_VendorGetBitRate E p
      = viaRegistry E (fun O => O.A2DP_VendorGetBitRate p) (fun _ _ => -1) p) ∧
    (∀ p, A2DP_VendorGetTrackSampleRate E p
      = viaRegistry E (fun O => O.A2DP_VendorGetTrackSampleRate p) (fun _ _ => -1) p) ∧
    (∀ p, A2DP_VendorGetTrackBitsPerSample E p
      = viaRegistry E (fun O => O.A2DP_VendorGetTrackBitsPerSample p) (fun _ _ => -1) p) ∧
    (∀ p, A2DP_VendorGetTrackChannelCount E p
      = viaRegistry E (fun O => O.A2DP_VendorGetTrackChannelCount p) (fun _ _ => -1) p) ∧
    (∀ p p_data p_timestamp, A2DP_VendorGetPacketTimestamp E p p_data p_timestamp
      = viaRegistry E (fun O => O.A2DP_VendorGetPacketTimestamp p p_data p_timestamp)
          (fun _ _ => (false, p_timestamp)) p) ∧
    (∀ p p_buf frames_per_packet, A2DP_VendorBuildCodecHeader E p p_buf frames_per_packet
      = viaRegistry E (fun O => O.A2DP_VendorBuildCodecHeader p p_buf frames_per_packet)
          (fun _ _ => (false, p_buf)) p) ∧
    (∀ p, A2DP_VendorGetEncoderInterface E p
      = viaRegistry E (fun O => O.A2DP_VendorGetEncoderInterface p) (fun _ _ => none) p) ∧
    (∀ p, A2DP_VendorAdjustCodec E p
      = viaRegistry E (fun O => O.A2DP_VendorAdjustCodec p) (fun _ _ => (false, p)) p) ∧
    (∀ p, A2DP_VendorSourceCodecIndex E p
      = viaRegistry E (fun O => O.A2DP_VendorSourceCodecIndex p)
          (fun _ _ => .BTAV_A2DP_CODEC_INDEX_MAX) p) ∧
    (∀ p, A2DP_VendorCodecInfoString E p
      = viaRegistry E (fun O => O.A2DP_VendorCodecInfoString p)
          (fun vendor_id codec_id =>
            "Unsupported codec vendor_id: " ++ E.loghex_uint32 vendor_id ++
              " codec_id: " ++ E.loghex_uint16 codec_id) p) := by
  refine ⟨resolve_keyOf E.toVendorConsts hd, resolve_unregistered E.toVendorConsts,
    ?_, ?_, ?_, ?_, ?_, ?_, ?_, ?_, ?_, ?_, ?_, ?_, ?_, ?_⟩
  · intro p
    exact chain_dispatch_eq_viaRegistry E (fun O => O.A2DP_IsVendorSourceCodecValid p)
      (fun _ _ => false) p
  · intro p
    exact chain_dispatch_eq_viaRegistry E (fun O => O.A2DP_IsVendorPeerSinkCodecValid p)
      (fun _ _ => false) p
  · intro cp p
    exact chain_dispatch_eq_viaRegistry E (fun O => O.A2DP_VendorUsesRtpHeader cp p)
      (fun _ _ => true) p
  · intro p
    exact chain_dispatch_eq_viaRegistry E (fun O => O.A2DP_VendorCodecName p)
      (fun _ _ => "UNKNOWN VENDOR CODEC") p
  · intro p
    exact chain_dispatch_eq_viaRegistry E (fun O => O.A2DP_VendorGetBitRate p)
      (fun _ _ => -1) p
  · intro p
    exact chain_dispatch_eq_viaRegistry E (fun O => O.A2DP_VendorGetTrackSampleRate p)
      (fun _ _ => -1) p
  · intro p
    exact chain_dispatch_eq_viaRegistry E (fun O => O.A2DP_VendorGetTrackBitsPerSample p)
      (fun _ _ => -1) p
  · intro p
    exact chain_dispatch_eq_viaRegistry E (fun O => O.A2DP_VendorGetTrackChannelCount p)
      (fun _ _ => -1) p
  · intro p d t
    exact chain_dispatch_eq_viaRegistry E (fun O => O.A2DP_VendorGetPacketTimestamp p d t)
      (fun _ _ => (false, t)) p
  · intro p b n
    exact chain_dispatch_eq_viaRegistry E (fun O => O.A2DP_VendorBuildCodecHeader p b n)
      (fun _ _ => (false, b)) p
  · intro p
    exact chain_dispatch_eq_viaRegistry E (fun O => O.A2DP_VendorGetEncoderInterface p)
      (fun _ _ => none) p
  · intro p
    exact chain_dispatch_eq_viaRegistry E (fun O => O.A2DP_VendorAdjustCodec p)
      (fun _ _ => (false, p)) p
  · intro p
    exact chain_dispatch_eq_viaRegistry E (fun O => O.A2DP_VendorSourceCodecIndex p)
      (fun _ _ => .BTAV_A2DP_CODEC_INDEX_MAX) p
  · intro p
    exact chain_dispatch_eq_viaRegistry E (fun O => O.A2DP_VendorCodecInfoString p)
      (fun vendor_id codec_id =>
        "Unsupported codec vendor_id: " ++ E.loghex_uint32 vendor_id ++
          " codec_id: " ++ E.loghex_uint16 codec_id) p

/-- C6 at the upstream constants: the LHDC V3 key resolves to LHDC V3 (behind
LHDC V2, which has the same vendor id), and the bit rate dispatcher is the
registry dispatcher on the LHDC V3 buffer. -/
theorem dispatch_is_registry_lookup_witness :
    tagEnv.resolve (tagEnv.keyOf .LhdcV3).1 (tagEnv.keyOf .LhdcV3).2 = some .LhdcV3 ∧
      A2DP_VendorGetBitRate tagEnv lhdcV3Buf
        = viaRegistry tagEnv (fun O => O.A2DP_VendorGetBitRate lhdcV3Buf) (fun _ _ => -1)
            lhdcV3Buf :=
  ⟨(dispatch_is_registry_lookup tagEnv (by decide)).1 .LhdcV3,
    (dispatch_is_registry_lookup tagEnv (by decide)).2.2.2.2.2.2.1 lhdcV3Buf⟩

/-! ## Unregistered keys: framing policy and numeric getters -/

/-- C7: on a buffer whose key is the key of no family `A2DP_VendorUsesRtpHeader`
returns `true` for both values of `content_protection_enabled`. -/
theorem usesRtpHeader_true_of_unregistered (E : Env Hdr Enc Dec Cfg)
    (p_codec_info : CodecInfo) (vendor_id codec_id : Nat)
    (hv : A2DP_VendorCodecGetVendorId E.toVendorConsts p_codec_info = some vendor_id)
    (hc : A2DP_VendorCodecGetCodecId E.toVendorConsts p_codec_info = some codec_id)
    (hun : ∀ F, E.keyOf F ≠ (vendor_id, codec_id)) :
    A2DP_VendorUsesRtpHeader E true p_codec_info = some true ∧
      A2DP_VendorUsesRtpHeader E false p_codec_info = some true := by
  obtain ⟨n1, n2, n3, n4, n5, n6, n7⟩ :=
    conds_of_unregistered E.toVendorConsts vendor_id codec_id hun
  constructor <;>
  simp only [A2DP_VendorUsesRtpHeader, hv, hc, Option.bind_eq_bind, Option.some_bind,
    if_neg n1, if_neg n2, if_neg n3, if_neg n4, if_neg n5, if_neg n6, if_neg n7,
    Option.pure_def]

/-- C7 at the buffer with key `(0xFFFFFFFF, 0xFFFF)`. -/
theorem usesRtpHeader_true_of_unregistered_witness :
    A2DP_VendorUsesRtpHeader noReturnEnv true unknownBuf = some true ∧
      A2DP_VendorUsesRtpHeader noReturnEnv false unknownBuf = some true :=
  usesRtpHeader_true_of_unregistered noReturnEnv unknownBuf 0xFFFFFFFF 0xFFFF
    (by decide) (by decide) (fun F => by cases F <;> decide)

/-- C8: on a buffer whose key is the key of no family the five numeric getters
return exactly `-1`. -/
theorem getters_minus_one_of_unregistered (E : Env Hdr Enc Dec Cfg)
    (p_codec_info : CodecInfo) (vendor_id codec_id : Nat)
    (hv : A2DP_VendorCodecGetVendorId E.toVendorConsts p_codec_info = some vendor_id)
    (hc : A2DP_VendorCodecGetCodecId E.toVendorConsts p_codec_info = some codec_id)
    (hun : ∀ F, E.keyOf F ≠ (vendor_id, codec_id)) :
    A2DP_VendorGetBitRate E p_codec_info = some (-1) ∧
      A2DP_VendorGetTrackSampleRate E p_codec_info = some (-1) ∧
      A2DP_VendorGetTrackBitsPerSample E p_codec_info = some (-1) ∧
      A2DP_VendorGetTrackChannelCount E p_codec_info = some (-1) ∧
      A2DP_VendorGetSinkTrackChannelType E p_codec_info = some (-1) := by
  obtain ⟨n1, n2, n3, n4, n5, n6, n7⟩ :=
    conds_of_unregistered E.toVendorConsts vendor_id codec_id hun
  refine ⟨?_, ?_, ?_, ?_, ?_⟩ <;>
  simp only [A2DP_VendorGetBitRate, A2DP_VendorGetTrackSampleRate,
    A2DP_VendorGetTrackBitsPerSample, A2DP_VendorGetTrackChannelCount,
    A2DP_VendorGetSinkTrackChannelType, hv, hc, Option.bind_eq_bind, Option.some_bind,
    if_neg n1, if_neg n2, if_neg n3, if_neg n4, if_neg n5, if_neg n6, if_neg n7,
    Option.pure_def]

/-- C8 at the buffer with key `(0xFFFFFFFF, 0xFFFF)`. -/
theorem getters_minus_one_of_unregistered_witness :
    A2DP_VendorGetBitRate noReturnEnv unknownBuf = some (-1) ∧
      A2DP_VendorGetTrackSampleRate noReturnEnv unknownBuf = some (-1) ∧
      A2DP_VendorGetTrackBitsPerSample noReturnEnv unknownBuf = some (-1) ∧
      A2DP_VendorGetTrackChannelCount noReturnEnv unknownBuf = some (-1) ∧
      A2DP_VendorGetSinkTrackChannelType noReturnEnv unknownBuf = some (-1) :=
  getters_minus_one_of_unregistered noReturnEnv unknownBuf 0xFFFFFFFF 0xFFFF
    (by decide) (by decide) (fun F => by cases F <;> decide)

/-! ## The two equality checks -/

/-- C9: when the codec type of at least one of the two buffers is not
`A2DP_MEDIA_CT_NON_A2DP`, `A2DP_VendorCodecTypeEquals` and
`A2DP_VendorCodecEquals` return `false`.  Nothing is assumed on the vendor id
and codec id fields: the result is `false` also when the buffers are too short
to hold them, so these fields are not read. -/
theorem equals_false_of_non_vendor_type (E : Env Hdr Enc Dec Cfg)
    (p_codec_info_a p_codec_info_b : CodecInfo) (codec_type_a codec_type_b : Nat)
    (hta : E.A2DP_GetCodecType p_codec_info_a = some codec_type_a)
    (htb : E.A2DP_GetCodecType p_codec_info_b = some codec_type_b)
    (hty : codec_type_a ≠ E.A2DP_MEDIA_CT_NON_A2DP ∨
      codec_type_b ≠ E.A2DP_MEDIA_CT_NON_A2DP) :
    A2DP_VendorCodecTypeEquals E p_codec_info_a p_codec_info_b = some false ∧
      A2DP_VendorCodecEquals E p_codec_info_a p_codec_info_b = some false := by
  have hcond : codec_type_a ≠ codec_type_b ∨ codec_type_a ≠ E.A2DP_MEDIA_CT_NON_A2DP := by
    by_cases h : codec_type_a = E.A2DP_MEDIA_CT_NON_A2DP
    · left
      rcases hty with h' | h'
      · exact absurd h h'
      · intro hab; exact h' (hab ▸ h)
    · exact Or.inr h
  constructor
  · simp only [A2DP_VendorCodecTypeEquals, hta, htb, Option.bind_eq_bind, Option.some_bind,
      if_pos hcond, Option.pure_def]
  · simp only [A2DP_VendorCodecEquals, hta, htb, Option.bind_eq_bind, Option.some_bind,
      if_pos hcond, Option.pure_def]

/-- C9 at two buffers of three bytes, an SBC one and a vendor one: neither
holds a vendor id, and both checks return `false`. -/
theorem equals_false_of_non_vendor_type_witness :
    A2DP_VendorCodecGetVendorId noReturnEnv.toVendorConsts shortSbcBuf = none ∧
      A2DP_VendorCodecGetVendorId noReturnEnv.toVendorConsts shortVendorBuf = none ∧
      A2DP_VendorCodecTypeEquals noReturnEnv shortSbcBuf shortVendorBuf = some false ∧
      A2DP_VendorCodecEquals noReturnEnv shortSbcBuf shortVendorBuf = some false :=
  ⟨by decide, by decide,
    equals_false_of_non_vendor_type noReturnEnv shortSbcBuf shortVendorBuf 0 0xFF
      (by decide) (by decide) (Or.inl (by decide))⟩

/-- C10: when the decoded keys of two buffers differ (in the vendor id or in the
codec id), `A2DP_VendorCodecTypeEquals` and `A2DP_VendorCodecEquals` return
`false`, whatever the codec types of the buffers are and for every choice of
the family functions, also for family functions that never return. -/
theorem equals_false_of_keys_differ (E : Env Hdr Enc Dec Cfg)
    (p_codec_info_a p_codec_info_b : CodecInfo) (codec_type_a codec_type_b : Nat)
    (vendor_id_a codec_id_a vendor_id_b codec_id_b : Nat)
    (hta : E.A2DP_GetCodecType p_codec_info_a = some codec_type_a)
    (htb : E.A2DP_GetCodecType p_codec_info_b = some codec_type_b)
    (hva : A2DP_VendorCodecGetVendorId E.toVendorConsts p_codec_info_a = some vendor_id_a)
    (hca : A2DP_VendorCodecGetCodecId E.toVendorConsts p_codec_info_a = some codec_id_a)
    (hvb : A2DP_VendorCodecGetVendorId E.toVendorConsts p_codec_info_b = some vendor_id_b)
    (hcb : A2DP_VendorCodecGetCodecId E.toVendorConsts p_codec_info_b = some codec_id_b)
    (hne : vendor_id_a ≠ vendor_id_b ∨ codec_id_a ≠ codec_id_b) :
    A2DP_VendorCodecTypeEquals E p_codec_info_a p_codec_info_b = some false ∧
      A2DP_VendorCodecEquals E p_codec_info_a p_codec_info_b = some false := by
  constructor
  · simp only [A2DP_VendorCodecTypeEquals, hta, htb, hva, hca, hvb, hcb, Option.bind_eq_bind,
      Option.some_bind, if_pos hne, Option.pure_def]
    split_ifs <;> rfl
  · simp only [A2DP_VendorCodecEquals, hta, htb, hva, hca, hvb, hcb, Option.bind_eq_bind,
      Option.some_bind, if_pos hne, Option.pure_def]
    split_ifs <;> rfl

/-- C10 at the aptX buffer and the LDAC buffer, both of the vendor codec type,
with family functions that never return. -/
theorem equals_false_of_keys_differ_witness :
    A2DP_VendorCodecTypeEquals noReturnEnv aptxBuf ldacBuf = some false ∧
      A2DP_VendorCodecEquals noReturnEnv aptxBuf ldacBuf = some false :=
  equals_false_of_keys_differ noReturnEnv aptxBuf ldacBuf 0xFF 0xFF 0x4F 0x0001 0x12D 0xAA
    (by decide) (by decide) (by decide) (by decide) (by decide) (by decide)
    (Or.inl (by decide))


/-! ## Evaluations on the example buffers -/

theorem eval_vendorId_unknownBuf :
    A2DP_VendorCodecGetVendorId upstreamConsts unknownBuf = some 0xFFFFFFFF := by decide

theorem eval_codecId_ldacBuf :
    A2DP_VendorCodecGetCodecId upstreamConsts ldacBuf = some 0xAA := by decide

theorem eval_sourceValid_ldacBuf :
    A2DP_IsVendorSourceCodecValid tagEnv ldacBuf = some true := by decide

theorem eval_bitRate_lhdcV3Buf :
    A2DP_VendorGetBitRate tagEnv lhdcV3Buf = some 6 := by decide

theorem eval_name_unknownBuf :
    A2DP_VendorCodecName tagEnv unknownBuf = some "UNKNOWN VENDOR CODEC" := by decide

theorem eval_keysDistinct_upstream : upstreamConsts.KeysDistinct := by decide


/-! ## The equality checks: helper lemmas -/

/-- A family that `resolve` returns owns the key. -/
theorem resolve_some_key (C : VendorConsts) (vendor_id codec_id : Nat) (G : Family)
    (h : C.resolve vendor_id codec_id = some G) : C.keyOf G = (vendor_id, codec_id) := by
  rw [resolve_eq_chain] at h
  split_ifs at h with h1 h2 h3 h4 h5 h6 h7 <;> cases h
  · simp [VendorConsts.keyOf, h1]
  · simp [VendorConsts.keyOf, h2]
  · simp [VendorConsts.keyOf, h3]
  · simp [VendorConsts.keyOf, h4]
  · simp [VendorConsts.keyOf, h5]
  · simp [VendorConsts.keyOf, h6]
  · simp [VendorConsts.keyOf, h7]

/-- A key that some family owns resolves to a family that owns it. -/
theorem resolve_of_key (C : VendorConsts) (vendor_id codec_id : Nat) (F : Family)
    (hkey : C.keyOf F = (vendor_id, codec_id)) :
    ∃ G, C.resolve vendor_id codec_id = some G ∧ C.keyOf G = (vendor_id, codec_id) := by
  cases hr : C.resolve vendor_id codec_id with
  | some G => exact ⟨G, rfl, resolve_some_key C vendor_id codec_id G hr⟩
  | none =>
    exfalso
    rw [resolve_eq_chain] at hr
    split_ifs at hr with h1 h2 h3 h4 h5 h6 h7
    cases F <;> simp [VendorConsts.keyOf] at hkey <;> simp_all

/-- An equality check of the source, with the codec type test, the key test and
the seven way if chain, is the registry form of the check. -/
theorem equals_chain_eq_viaRegistryEquals (E : Env Hdr Enc Dec Cfg)
    (x : Family → Option Bool) (fb : Bool) (a b : CodecInfo) :
    (do
      let codec_type_a ← E.A2DP_GetCodecType a
      let codec_type_b ← E.A2DP_GetCodecType b
      if codec_type_a ≠ codec_type_b ∨ codec_type_a ≠ E.A2DP_MEDIA_CT_NON_A2DP then
        pure false
      else do
        let vendor_id_a ← A2DP_VendorCodecGetVendorId E.toVendorConsts a
        let codec_id_a ← A2DP_VendorCodecGetCodecId E.toVendorConsts a
        let vendor_id_b ← A2DP_VendorCodecGetVendorId E.toVendorConsts b
        let codec_id_b ← A2DP_VendorCodecGetCodecId E.toVendorConsts b
        if vendor_id_a ≠ vendor_id_b ∨ codec_id_a ≠ codec_id_b then
          pure false
        else if vendor_id_a = E.A2DP_APTX_VENDOR_ID ∧
            codec_id_a = E.A2DP_APTX_CODEC_ID_BLUETOOTH then
          x .Aptx
        else if vendor_id_a = E.A2DP_APTX_HD_VENDOR_ID ∧
            codec_id_a = E.A2DP_APTX_HD_CODEC_ID_BLUETOOTH then
          x .AptxHd
        else if vendor_id_a = E.A2DP_LDAC_VENDOR_ID ∧ codec_id_a = E.A2DP_LDAC_CODEC_ID then
          x .Ldac
        else if vendor_id_a = E.A2DP_OPUS_VENDOR_ID ∧ codec_id_a = E.A2DP_OPUS_CODEC_ID then
          x .Opus
        else if vendor_id_a = E.A2DP_LHDC_VENDOR_ID ∧ codec_id_a = E.A2DP_LHDCV2_CODEC_ID then
          x .LhdcV2
        else if vendor_id_a = E.A2DP_LHDC_VENDOR_ID ∧ codec_id_a = E.A2DP_LHDCV3_CODEC_ID then
          x .LhdcV3
        else if vendor_id_a = E.A2DP_LHDC_VENDOR_ID ∧ codec_id_a = E.A2DP_LHDCV5_CODEC_ID then
          x .LhdcV5
        else
          pure fb)
    = viaRegistryEquals E x fb a b := by
  unfold viaRegistryEquals
  cases E.A2DP_GetCodecType a with
  | none => rfl
  | some ta =>
  cases E.A2DP_GetCodecType b with
  | none => rfl
  | some tb =>
  simp only [Option.bind_eq_bind, Option.some_bind]
  by_cases h1 : ta ≠ tb ∨ ta ≠ E.A2DP_MEDIA_CT_NON_A2DP
  · simp only [if_pos h1]
  · simp only [if_neg h1]
    cases A2DP_VendorCodecGetVendorId E.toVendorConsts a with
    | none => rfl
    | some va =>
    cases A2DP_VendorCodecGetCodecId E.toVendorConsts a with
    | none => rfl
    | some ca =>
    cases A2DP_VendorCodecGetVendorId E.toVendorConsts b with
    | none => rfl
    | some vb =>
    cases A2DP_VendorCodecGetCodecId E.toVendorConsts b with
    | none => rfl
    | some cb =>
    simp only [Option.some_bind]
    by_cases h2 : va ≠ vb ∨ ca ≠ cb
    · simp only [if_pos h2]
    · simp only [if_neg h2]
      exact chain_eq_resolve E.toVendorConsts va ca x (pure fb)

/-- The source's `A2DP_VendorCodecTypeEquals` in registry form. -/
theorem typeEquals_eq_viaRegistryEquals (E : Env Hdr Enc Dec Cfg) (a b : CodecInfo) :
    A2DP_VendorCodecTypeEquals E a b
      = viaRegistryEquals E (fun F => (E.ops F).A2DP_VendorCodecTypeEquals a b) true a b :=
  equals_chain_eq_viaRegistryEquals E
    (fun F => (E.ops F).A2DP_VendorCodecTypeEquals a b) true a b

/-- The source's `A2DP_VendorCodecEquals` in registry form. -/
theorem equals_eq_viaRegistryEquals (E : Env Hdr Enc Dec Cfg) (a b : CodecInfo) :
    A2DP_VendorCodecEquals E a b
      = viaRegistryEquals E (fun F => (E.ops F).A2DP_VendorCodecEquals a b) false a b :=
  equals_chain_eq_viaRegistryEquals E
    (fun F => (E.ops F).A2DP_VendorCodecEquals a b) false a b

/-- On two vendor buffers with the same key the registry form is the verdict
of the resolved family, or the fallback. -/
theorem viaRegistryEquals_same_key (E : Env Hdr Enc Dec Cfg) (fam : Family → Option Bool)
    (fb : Bool) (a b : CodecInfo) (vendor_id codec_id : Nat)
    (hta : E.A2DP_GetCodecType a = some E.A2DP_MEDIA_CT_NON_A2DP)
    (htb : E.A2DP_GetCodecType b = some E.A2DP_MEDIA_CT_NON_A2DP)
    (hva : A2DP_VendorCodecGetVendorId E.toVendorConsts a = some vendor_id)
    (hca : A2DP_VendorCodecGetCodecId E.toVendorConsts a = some codec_id)
    (hvb : A2DP_VendorCodecGetVendorId E.toVendorConsts b = some vendor_id)
    (hcb : A2DP_VendorCodecGetCodecId E.toVendorConsts b = some codec_id) :
    viaRegistryEquals E fam fb a b =
      (match E.resolve vendor_id codec_id with
        | some F => fam F
        | none => some fb) := by
  simp only [viaRegistryEquals, hta, htb, hva, hca, hvb, hcb, Option.bind_eq_bind,
    Option.some_bind, ne_eq, not_true_eq_false, or_self, if_false, Option.pure_def]

/-- The registry form answers `true` only on two vendor buffers with one key
that resolves to a family whose predicate answers `true`, or (when the
fallback is `true`) to no family. -/
theorem viaRegistryEquals_true_inv (E : Env Hdr Enc Dec Cfg) (fam : Family → Option Bool)
    (fb : Bool) (a b : CodecInfo) (h : viaRegistryEquals E fam fb a b = some true) :
    ∃ vendor_id codec_id,
      E.A2DP_GetCodecType a = some E.A2DP_MEDIA_CT_NON_A2DP ∧
      E.A2DP_GetCodecType b = some E.A2DP_MEDIA_CT_NON_A2DP ∧
      A2DP_VendorCodecGetVendorId E.toVendorConsts a = some vendor_id ∧
      A2DP_VendorCodecGetCodecId E.toVendorConsts a = some codec_id ∧
      A2DP_VendorCodecGetVendorId E.toVendorConsts b = some vendor_id ∧
      A2DP_VendorCodecGetCodecId E.toVendorConsts b = some codec_id := by
  unfold viaRegistryEquals at h
  cases hta : E.A2DP_GetCodecType a with
  | none => simp [hta] at h
  | some ta =>
  cases htb : E.A2DP_GetCodecType b with
  | none => simp [hta, htb] at h
  | some tb =>
  simp only [hta, htb, Option.bind_eq_bind, Option.some_bind] at h
  by_cases h1 : ta ≠ tb ∨ ta ≠ E.A2DP_MEDIA_CT_NON_A2DP
  · simp [if_pos h1] at h
  · rw [if_neg h1] at h
    cases hva : A2DP_VendorCodecGetVendorId E.toVendorConsts a with
    | none => simp [hva] at h
    | some va =>
    cases hca : A2DP_VendorCodecGetCodecId E.toVendorConsts a with
    | none => simp [hva, hca] at h
    | some ca =>
    cases hvb : A2DP_VendorCodecGetVendorId E.toVendorConsts b with
    | none => simp [hva, hca, hvb] at h
    | some vb =>
    cases hcb : A2DP_VendorCodecGetCodecId E.toVendorConsts b with
    | none => simp [hva, hca, hvb, hcb] at h
    | some cb =>
    simp only [hva, hca, hvb, hcb, Option.some_bind] at h
    by_cases h2 : va ≠ vb ∨ ca ≠ cb
    · simp [if_pos h2] at h
    · have e1 : ta = tb ∧ ta = E.A2DP_MEDIA_CT_NON_A2DP := by
        constructor
        · by_contra hne; exact h1 (Or.inl hne)
        · by_contra hne; exact h1 (Or.inr hne)
      have e2 : va = vb ∧ ca = cb := by
        constructor
        · by_contra hne; exact h2 (Or.inl hne)
        · by_contra hne; exact h2 (Or.inr hne)
      obtain ⟨e11, e12⟩ := e1
      obtain ⟨e21, e22⟩ := e2
      subst e11 e21 e22
      subst e12
      exact ⟨va, ca, rfl, rfl, rfl, rfl, rfl, rfl⟩

/-- Exchanging the two buffers does not change the registry form, when it does
not change the verdicts of the families. -/
theorem viaRegistryEquals_symm (E : Env Hdr Enc Dec Cfg) (fam fam' : Family → Option Bool)
    (fb : Bool) (a b : CodecInfo) (hfam : ∀ F, fam F = fam' F) :
    viaRegistryEquals E fam fb a b = viaRegistryEquals E fam' fb b a := by
  have hf : fam = fam' := funext hfam
  subst hf
  unfold viaRegistryEquals
  cases E.A2DP_GetCodecType a with
  | none => cases E.A2DP_GetCodecType b <;> rfl
  | some ta =>
  cases E.A2DP_GetCodecType b with
  | none => rfl
  | some tb =>
  simp only [Option.bind_eq_bind, Option.some_bind]
  by_cases h1 : ta ≠ tb ∨ ta ≠ E.A2DP_MEDIA_CT_NON_A2DP
  · have h1' : tb ≠ ta ∨ tb ≠ E.A2DP_MEDIA_CT_NON_A2DP := by
      by_cases hb : tb = E.A2DP_MEDIA_CT_NON_A2DP
      · left
        rcases h1 with h | h
        · exact fun e => h e.symm
        · intro e; exact h (e ▸ hb)
      · exact Or.inr hb
    simp only [if_pos h1, if_pos h1']
  · have e1 : ta = tb := by
      by_contra hne; exact h1 (Or.inl hne)
    have e2 : ta = E.A2DP_MEDIA_CT_NON_A2DP := by
      by_contra hne; exact h1 (Or.inr hne)
    subst e1
    simp only [if_neg h1]
    cases A2DP_VendorCodecGetVendorId E.toVendorConsts a with
    | none =>
      cases A2DP_VendorCodecGetVendorId E.toVendorConsts b <;>
        cases A2DP_VendorCodecGetCodecId E.toVendorConsts b <;> rfl
    | some va =>
    cases A2DP_VendorCodecGetCodecId E.toVendorConsts a with
    | none =>
      cases A2DP_VendorCodecGetVendorId E.toVendorConsts b <;>
        cases A2DP_VendorCodecGetCodecId E.toVendorConsts b <;> rfl
    | some ca =>
    cases A2DP_VendorCodecGetVendorId E.toVendorConsts b with
    | none => rfl
    | some vb =>
    cases A2DP_VendorCodecGetCodecId E.toVendorConsts b with
    | none => rfl
    | some cb =>
    simp only [Option.some_bind]
    by_cases h2 : va ≠ vb ∨ ca ≠ cb
    · have h2' : vb ≠ va ∨ cb ≠ ca := by
        rcases h2 with h | h
        · exact Or.inl fun e => h e.symm
        · exact Or.inr fun e => h e.symm
      simp only [if_pos h2, if_pos h2']
    · have e3 : va = vb := by
        by_contra hne; exact h2 (Or.inl hne)
      have e4 : ca = cb := by
        by_contra hne; exact h2 (Or.inr hne)
      subst e3 e4
      rfl


/-! ## The equality checks: order, symmetry, reflexivity -/

/-- C11: for every pair of buffers, when `A2DP_VendorCodecEquals` returns `true`
then `A2DP_VendorCodecTypeEquals` returns `true`, given that each family finds
the two buffers type equal where it finds them equal. -/
theorem codecEquals_imp_codecTypeEquals (E : Env Hdr Enc Dec Cfg) (a b : CodecInfo)
    (hfam : ∀ F, (E.ops F).EqualsStricterAt a b)
    (h : A2DP_VendorCodecEquals E a b = some true) :
    A2DP_VendorCodecTypeEquals E a b = some true := by
  rw [equals_eq_viaRegistryEquals] at h
  obtain ⟨v, c, hta, htb, hva, hca, hvb, hcb⟩ := viaRegistryEquals_true_inv E _ _ a b h
  rw [viaRegistryEquals_same_key E _ _ a b v c hta htb hva hca hvb hcb] at h
  rw [typeEquals_eq_viaRegistryEquals,
    viaRegistryEquals_same_key E _ _ a b v c hta htb hva hca hvb hcb]
  cases hr : E.resolve v c with
  | none => rfl
  | some F =>
    rw [hr] at h
    exact hfam F h

/-- C11 at the LDAC buffer compared with itself. -/
theorem codecEquals_imp_codecTypeEquals_witness :
    A2DP_VendorCodecTypeEquals tagEnv ldacBuf ldacBuf = some true :=
  codecEquals_imp_codecTypeEquals tagEnv ldacBuf ldacBuf
    (fun F => by cases F <;> intro _ <;> decide) (by decide)

/-- C12: `A2DP_VendorCodecTypeEquals` and `A2DP_VendorCodecEquals` give the same
result on `(a, b)` and on `(b, a)`, given that the predicates of each family
do.  This holds for all buffers, in particular for two vendor buffers of the
same family. -/
theorem equality_checks_symmetric (E : Env Hdr Enc Dec Cfg) (a b : CodecInfo)
    (hfam : ∀ F, (E.ops F).EqualsSymmAt a b) :
    A2DP_VendorCodecTypeEquals E a b = A2DP_VendorCodecTypeEquals E b a ∧
      A2DP_VendorCodecEquals E a b = A2DP_VendorCodecEquals E b a := by
  constructor
  · rw [typeEquals_eq_viaRegistryEquals E a b, typeEquals_eq_viaRegistryEquals E b a]
    exact viaRegistryEquals_symm E _ _ true a b (fun F => (hfam F).1)
  · rw [equals_eq_viaRegistryEquals E a b, equals_eq_viaRegistryEquals E b a]
    exact viaRegistryEquals_symm E _ _ false a b (fun F => (hfam F).2)

/-- C12 at two LDAC buffers that differ in their last byte. -/
theorem equality_checks_symmetric_witness :
    A2DP_VendorCodecTypeEquals tagEnv ldacBuf ldacBuf2
        = A2DP_VendorCodecTypeEquals tagEnv ldacBuf2 ldacBuf ∧
      A2DP_VendorCodecEquals tagEnv ldacBuf ldacBuf2
        = A2DP_VendorCodecEquals tagEnv ldacBuf2 ldacBuf :=
  equality_checks_symmetric tagEnv ldacBuf ldacBuf2
    (fun F => by cases F <;> exact ⟨by decide, by decide⟩)

/-- C13: on a vendor buffer `a` (codec type `A2DP_MEDIA_CT_NON_A2DP`) whose key
is the key of a family, `A2DP_VendorCodecTypeEquals E a a` and
`A2DP_VendorCodecEquals E a a` are `true`, given that the predicates of the
family that owns the key find `a` equal to itself. -/
theorem equality_checks_reflexive (E : Env Hdr Enc Dec Cfg) (a : CodecInfo)
    (vendor_id codec_id : Nat)
    (hta : E.A2DP_GetCodecType a = some E.A2DP_MEDIA_CT_NON_A2DP)
    (hv : A2DP_VendorCodecGetVendorId E.toVendorConsts a = some vendor_id)
    (hc : A2DP_VendorCodecGetCodecId E.toVendorConsts a = some codec_id)
    (F : Family) (hkey : E.keyOf F = (vendor_id, codec_id))
    (hfam : ∀ G, E.keyOf G = (vendor_id, codec_id) → (E.ops G).EqualsReflAt a) :
    A2DP_VendorCodecTypeEquals E a a = some true ∧
      A2DP_VendorCodecEquals E a a = some true := by
  obtain ⟨G, hr, hG⟩ := resolve_of_key E.toVendorConsts vendor_id codec_id F hkey
  rw [typeEquals_eq_viaRegistryEquals, equals_eq_viaRegistryEquals,
    viaRegistryEquals_same_key E _ true a a vendor_id codec_id hta hta hv hc hv hc,
    viaRegistryEquals_same_key E _ false a a vendor_id codec_id hta hta hv hc hv hc, hr]
  exact hfam G hG

/-- C13 at the LDAC buffer. -/
theorem equality_checks_reflexive_witness :
    A2DP_VendorCodecTypeEquals tagEnv ldacBuf ldacBuf = some true ∧
      A2DP_VendorCodecEquals tagEnv ldacBuf ldacBuf = some true :=
  equality_checks_reflexive tagEnv ldacBuf 0x12D 0xAA (by decide) (by decide) (by decide)
    .Ldac (by decide) (fun G _ => by cases G <;> exact ⟨by decide, by decide⟩)

/-- C14: on two vendor buffers with the same key and different configuration
bytes `A2DP_VendorCodecTypeEquals` returns `true` and `A2DP_VendorCodecEquals`
returns `false`: for a key that no family owns by the two final `return`s, and
for a key of a family given that the family finds the buffers type equal and
compares their configuration bytes. -/
theorem same_key_differing_config (E : Env Hdr Enc Dec Cfg)
    (config : CodecInfo → CodecInfo) (a b : CodecInfo) (vendor_id codec_id : Nat)
    (hta : E.A2DP_GetCodecType a = some E.A2DP_MEDIA_CT_NON_A2DP)
    (htb : E.A2DP_GetCodecType b = some E.A2DP_MEDIA_CT_NON_A2DP)
    (hva : A2DP_VendorCodecGetVendorId E.toVendorConsts a = some vendor_id)
    (hca : A2DP_VendorCodecGetCodecId E.toVendorConsts a = some codec_id)
    (hvb : A2DP_VendorCodecGetVendorId E.toVendorConsts b = some vendor_id)
    (hcb : A2DP_VendorCodecGetCodecId E.toVendorConsts b = some codec_id)
    (hfam : ∀ F, E.keyOf F = (vendor_id, codec_id) →
      (E.ops F).EqualsByConfigAt config a b)
    (hdiff : config a ≠ config b) :
    A2DP_VendorCodecTypeEquals E a b = some true ∧
      A2DP_VendorCodecEquals E a b = some false := by
  rw [typeEquals_eq_viaRegistryEquals, equals_eq_viaRegistryEquals,
    viaRegistryEquals_same_key E _ true a b vendor_id codec_id hta htb hva hca hvb hcb,
    viaRegistryEquals_same_key E _ false a b vendor_id codec_id hta htb hva hca hvb hcb]
  cases hr : E.resolve vendor_id codec_id with
  | none => exact ⟨rfl, rfl⟩
  | some G =>
    obtain ⟨h1, h2⟩ := hfam G (resolve_some_key E.toVendorConsts vendor_id codec_id G hr)
    refine ⟨h1, ?_⟩
    show (E.ops G).A2DP_VendorCodecEquals a b = some false
    rw [h2, decide_eq_false hdiff]

/-- C14 at two LDAC buffers that differ in their last byte; the configuration
bytes are the whole buffer. -/
theorem same_key_differing_config_witness :
    A2DP_VendorCodecTypeEquals tagEnv ldacBuf ldacBuf2 = some true ∧
      A2DP_VendorCodecEquals tagEnv ldacBuf ldacBuf2 = some false :=
  same_key_differing_config tagEnv id ldacBuf ldacBuf2 0x12D 0xAA
    (by decide) (by decide) (by decide) (by decide) (by decide) (by decide)
    (fun F _ => by cases F <;> exact ⟨by decide, by decide⟩) (by decide)

/-! ## The LDAC key -/

/-- C15 as stated fails with the constants of the upstream headers.  The buffer
`scenarioBuf` decodes to vendor id `0x0000004F` and codec id `0x0001`; this is
the aptX key there, the aptX branch is the first of the chain, and
`A2DP_VendorGetBitRate` returns the bit rate of the aptX function, which is not
that of the LDAC function. -/
theorem spec_scenario_key_goes_to_aptx :
    A2DP_VendorCodecGetVendorId tagEnv.toVendorConsts scenarioBuf = some 0x0000004F ∧
      A2DP_VendorCodecGetCodecId tagEnv.toVendorConsts scenarioBuf = some 0x0001 ∧
      A2DP_VendorGetBitRate tagEnv scenarioBuf
        = tagEnv.Aptx.A2DP_VendorGetBitRate scenarioBuf ∧
      A2DP_VendorGetBitRate tagEnv scenarioBuf
        ≠ tagEnv.Ldac.A2DP_VendorGetBitRate scenarioBuf := by
  decide

/-- C15, amended: with pairwise distinct registered keys, on a buffer whose
vendor id decodes to `A2DP_LDAC_VENDOR_ID` and whose codec id decodes to
`A2DP_LDAC_CODEC_ID` `A2DP_IsVendorSourceCodecValid` returns the verdict of the
LDAC source validity predicate (so `true` when that predicate accepts the
buffer), `A2DP_VendorGetBitRate` returns the LDAC bit rate of the buffer and
`A2DP_VendorUsesRtpHeader` returns the LDAC policy. -/
theorem ldac_key_dispatch (E : Env Hdr Enc Dec Cfg) (hd : E.KeysDistinct)
    (p_codec_info : CodecInfo)
    (hv : A2DP_VendorCodecGetVendorId E.toVendorConsts p_codec_info
      = some E.A2DP_LDAC_VENDOR_ID)
    (hc : A2DP_VendorCodecGetCodecId E.toVendorConsts p_codec_info
      = some E.A2DP_LDAC_CODEC_ID) :
    A2DP_IsVendorSourceCodecValid E p_codec_info
        = E.Ldac.A2DP_IsVendorSourceCodecValid p_codec_info ∧
      (E.Ldac.A2DP_IsVendorSourceCodecValid p_codec_info = some true →
        A2DP_IsVendorSourceCodecValid E p_codec_info = some true) ∧
      A2DP_VendorGetBitRate E p_codec_info = E.Ldac.A2DP_VendorGetBitRate p_codec_info ∧
      (∀ content_protection_enabled,
        A2DP_VendorUsesRtpHeader E content_protection_enabled p_codec_info
          = E.Ldac.A2DP_VendorUsesRtpHeader content_protection_enabled p_codec_info) := by
  have general : ∀ vendor_id codec_id,
      A2DP_VendorCodecGetVendorId E.toVendorConsts p_codec_info = some vendor_id →
      A2DP_VendorCodecGetCodecId E.toVendorConsts p_codec_info = some codec_id →
      E.keyOf .Ldac = (vendor_id, codec_id) →
      A2DP_IsVendorSourceCodecValid E p_codec_info
          = E.Ldac.A2DP_IsVendorSourceCodecValid p_codec_info ∧
        A2DP_VendorGetBitRate E p_codec_info
          = E.Ldac.A2DP_VendorGetBitRate p_codec_info ∧
        (∀ content_protection_enabled,
          A2DP_VendorUsesRtpHeader E content_protection_enabled p_codec_info
            = E.Ldac.A2DP_VendorUsesRtpHeader content_protection_enabled p_codec_info) := by
    intro vendor_id codec_id hv' hc' hkey
    obtain ⟨e1, e2, e3, e4, e5, e6, e7⟩ :=
      conds_of_registered E.toVendorConsts hd .Ldac vendor_id codec_id hkey
    refine ⟨?_, ?_, ?_⟩
    · simp only [A2DP_IsVendorSourceCodecValid, hv', hc', Option.bind_eq_bind,
        Option.some_bind, e1, e2, e3, e4, e5, e6, e7]
      simp
    · simp only [A2DP_VendorGetBitRate, hv', hc', Option.bind_eq_bind, Option.some_bind,
        e1, e2, e3, e4, e5, e6, e7]
      simp
    · intro cp
      simp only [A2DP_VendorUsesRtpHeader, hv', hc', Option.bind_eq_bind, Option.some_bind,
        e1, e2, e3, e4, e5, e6, e7]
      simp
  obtain ⟨hsrc, hrate, hrtp⟩ := general _ _ hv hc rfl
  exact ⟨hsrc, fun h => hsrc.trans h, hrate, hrtp⟩

/-- C15, amended, at the LDAC buffer with the upstream constants, whose LDAC key
is `(0x0000012D, 0x00AA)`. -/
theorem ldac_key_dispatch_witness :
    A2DP_IsVendorSourceCodecValid tagEnv ldacBuf
        = tagEnv.Ldac.A2DP_IsVendorSourceCodecValid ldacBuf ∧
      (tagEnv.Ldac.A2DP_IsVendorSourceCodecValid ldacBuf = some true →
        A2DP_IsVendorSourceCodecValid tagEnv ldacBuf = some true) ∧
      A2DP_VendorGetBitRate tagEnv ldacBuf = tagEnv.Ldac.A2DP_VendorGetBitRate ldacBuf ∧
      (∀ content_protection_enabled,
        A2DP_VendorUsesRtpHeader tagEnv content_protection_enabled ldacBuf
          = tagEnv.Ldac.A2DP_VendorUsesRtpHeader content_protection_enabled ldacBuf) :=
  ldac_key_dispatch tagEnv (by decide) ldacBuf (by decide) (by decide)

/-! ## The name of an unregistered key -/

/-- C16: on a buffer whose key is the key of no family `A2DP_VendorCodecName`
returns the string `"UNKNOWN VENDOR CODEC"`, whatever the bytes of the buffer
are. -/
theorem codecName_unknown_of_unregistered (E : Env Hdr Enc Dec Cfg)
    (p_codec_info : CodecInfo) (vendor_id codec_id : Nat)
    (hv : A2DP_VendorCodecGetVendorId E.toVendorConsts p_codec_info = some vendor_id)
    (hc : A2DP_VendorCodecGetCodecId E.toVendorConsts p_codec_info = some codec_id)
    (hun : ∀ F, E.keyOf F ≠ (vendor_id, codec_id)) :
    A2DP_VendorCodecName E p_codec_info = some "UNKNOWN VENDOR CODEC" := by
  obtain ⟨n1, n2, n3, n4, n5, n6, n7⟩ :=
    conds_of_unregistered E.toVendorConsts vendor_id codec_id hun
  simp only [A2DP_VendorCodecName, hv, hc, Option.bind_eq_bind, Option.some_bind,
    if_neg n1, if_neg n2, if_neg n3, if_neg n4, if_neg n5, if_neg n6, if_neg n7,
    Option.pure_def]

/-- C16 at the buffer with key `(0xFFFFFFFF, 0xFFFF)`, with family functions
that never return. -/
theorem codecName_unknown_of_unregistered_witness :
    A2DP_VendorCodecName noReturnEnv unknownBuf = some "UNKNOWN VENDOR CODEC" :=
  codecName_unknown_of_unregistered noReturnEnv unknownBuf 0xFFFFFFFF 0xFFFF
    (by decide) (by decide) (fun F => by cases F <;> decide)

/-! ## The two switches over the codec index -/

/-- C17 as stated fails at `BTAV_A2DP_CODEC_INDEX_SOURCE_LC3`.  The claim has
each of the twelve indices other than the SBC and AAC indices and
`BTAV_A2DP_CODEC_INDEX_MAX` return the string of its family function.  This
index is one of the twelve, the switch returns `"LC3 not implemented"` for it,
and with the numbered family functions that is the string of none of the eleven
family functions. -/
theorem indexStr_lc3_not_family_string :
    btav_a2dp_codec_index_t.BTAV_A2DP_CODEC_INDEX_SOURCE_LC3 ∈ vendorIndices ∧
      A2DP_VendorCodecIndexStr tagEnv .BTAV_A2DP_CODEC_INDEX_SOURCE_LC3
        = "LC3 not implemented" ∧
      A2DP_VendorCodecIndexStr tagEnv .BTAV_A2DP_CODEC_INDEX_SOURCE_LC3
        ∉ tagEnv.familyIndexStrs ∧
      ¬ ∀ i ∈ vendorIndices, A2DP_VendorCodecIndexStr tagEnv i ∈ tagEnv.familyIndexStrs :=
  ⟨by decide, by decide, by decide,
    fun h => absurd (h .BTAV_A2DP_CODEC_INDEX_SOURCE_LC3 (by decide)) (by decide)⟩

/-- C17, amended: `A2DP_VendorCodecIndexStr` returns `"UNKNOWN CODEC INDEX"` for
the SBC and AAC indices, for `BTAV_A2DP_CODEC_INDEX_MAX` and for every integer
that is the value of no enumerator; for each of the eleven indices that have a
family function it returns the string of that function, the source and the
sink index of a family going to different functions; and for
`BTAV_A2DP_CODEC_INDEX_SOURCE_LC3` it returns the fixed string
`"LC3 not implemented"`. -/
theorem indexStr_cases (E : Env Hdr Enc Dec Cfg) :
    A2DP_VendorCodecIndexStr E .BTAV_A2DP_CODEC_INDEX_SOURCE_SBC = "UNKNOWN CODEC INDEX" ∧
    A2DP_VendorCodecIndexStr E .BTAV_A2DP_CODEC_INDEX_SINK_SBC = "UNKNOWN CODEC INDEX" ∧
    A2DP_VendorCodecIndexStr E .BTAV_A2DP_CODEC_INDEX_SOURCE_AAC = "UNKNOWN CODEC INDEX" ∧
    A2DP_VendorCodecIndexStr E .BTAV_A2DP_CODEC_INDEX_SINK_AAC = "UNKNOWN CODEC INDEX" ∧
    A2DP_VendorCodecIndexStr E .BTAV_A2DP_CODEC_INDEX_MAX = "UNKNOWN CODEC INDEX" ∧
    (∀ raw : Int, A2DP_VendorCodecIndexStr E (.other raw) = "UNKNOWN CODEC INDEX") ∧
    A2DP_VendorCodecIndexStr E .BTAV_A2DP_CODEC_INDEX_SOURCE_APTX
      = E.Aptx.A2DP_VendorCodecIndexStr ∧
    A2DP_VendorCodecIndexStr E .BTAV_A2DP_CODEC_INDEX_SOURCE_APTX_HD
      = E.AptxHd.A2DP_VendorCodecIndexStr ∧
    A2DP_VendorCodecIndexStr E .BTAV_A2DP_CODEC_INDEX_SOURCE_LDAC
      = E.Ldac.A2DP_VendorCodecIndexStr ∧
    A2DP_VendorCodecIndexStr E .BTAV_A2DP_CODEC_INDEX_SINK_LDAC
      = E.LdacSink.A2DP_VendorCodecIndexStr ∧
    A2DP_VendorCodecIndexStr E .BTAV_A2DP_CODEC_INDEX_SOURCE_OPUS
      = E.Opus.A2DP_VendorCodecIndexStr ∧
    A2DP_VendorCodecIndexStr E .BTAV_A2DP_CODEC_INDEX_SINK_OPUS
      = E.OpusSink.A2DP_VendorCodecIndexStr ∧
    A2DP_VendorCodecIndexStr E .BTAV_A2DP_CODEC_INDEX_SOURCE_LHDCV2
      = E.LhdcV2.A2DP_VendorCodecIndexStr ∧
    A2DP_VendorCodecIndexStr E .BTAV_A2DP_CODEC_INDEX_SOURCE_LHDCV3
      = E.LhdcV3.A2DP_VendorCodecIndexStr ∧
    A2DP_VendorCodecIndexStr E .BTAV_A2DP_CODEC_INDEX_SOURCE_LHDCV5
      = E.LhdcV5.A2DP_VendorCodecIndexStr ∧
    A2DP_VendorCodecIndexStr E .BTAV_A2DP_CODEC_INDEX_SINK_LHDCV3
      = E.LhdcV3Sink.A2DP_VendorCodecIndexStr ∧
    A2DP_VendorCodecIndexStr E .BTAV_A2DP_CODEC_INDEX_SINK_LHDCV5
      = E.LhdcV5Sink.A2DP_VendorCodecIndexStr ∧
    A2DP_VendorCodecIndexStr E .BTAV_A2DP_CODEC_INDEX_SOURCE_LC3 = "LC3 not implemented" :=
  ⟨rfl, rfl, rfl, rfl, rfl, fun _ => rfl, rfl, rfl, rfl, rfl, rfl, rfl, rfl, rfl, rfl, rfl,
    rfl, rfl⟩

/-- C18: `A2DP_VendorInitCodecConfig` returns `false` and leaves `*p_cfg` as it
was for the SBC and AAC indices, for `BTAV_A2DP_CODEC_INDEX_SOURCE_LC3` and for
`BTAV_A2DP_CODEC_INDEX_MAX`; for each of the other eleven indices its result
and the written `*p_cfg` are those of the family initializer of the index. -/
theorem initCodecConfig_cases (E : Env Hdr Enc Dec Cfg) (p_cfg : Cfg) :
    A2DP_VendorInitCodecConfig E .BTAV_A2DP_CODEC_INDEX_SOURCE_SBC p_cfg
      = some (false, p_cfg) ∧
    A2DP_VendorInitCodecConfig E .BTAV_A2DP_CODEC_INDEX_SINK_SBC p_cfg
      = some (false, p_cfg) ∧
    A2DP_VendorInitCodecConfig E .BTAV_A2DP_CODEC_INDEX_SOURCE_AAC p_cfg
      = some (false, p_cfg) ∧
    A2DP_VendorInitCodecConfig E .BTAV_A2DP_CODEC_INDEX_SINK_AAC p_cfg
      = some (false, p_cfg) ∧
    A2DP_VendorInitCodecConfig E .BTAV_A2DP_CODEC_INDEX_SOURCE_LC3 p_cfg
      = some (false, p_cfg) ∧
    A2DP_VendorInitCodecConfig E .BTAV_A2DP_CODEC_INDEX_MAX p_cfg
      = some (false, p_cfg) ∧
    A2DP_VendorInitCodecConfig E .BTAV_A2DP_CODEC_INDEX_SOURCE_APTX p_cfg
      = E.Aptx.A2DP_VendorInitCodecConfig p_cfg ∧
    A2DP_VendorInitCodecConfig E .BTAV_A2DP_CODEC_INDEX_SOURCE_APTX_HD p_cfg
      = E.AptxHd.A2DP_VendorInitCodecConfig p_cfg ∧
    A2DP_VendorInitCodecConfig E .BTAV_A2DP_CODEC_INDEX_SOURCE_LDAC p_cfg
      = E.Ldac.A2DP_VendorInitCodecConfig p_cfg ∧
    A2DP_VendorInitCodecConfig E .BTAV_A2DP_CODEC_INDEX_SINK_LDAC p_cfg
      = E.LdacSink.A2DP_VendorInitCodecConfig p_cfg ∧
    A2DP_VendorInitCodecConfig E .BTAV_A2DP_CODEC_INDEX_SOURCE_OPUS p_cfg
      = E.Opus.A2DP_VendorInitCodecConfig p_cfg ∧
    A2DP_VendorInitCodecConfig E .BTAV_A2DP_CODEC_INDEX_SINK_OPUS p_cfg
      = E.OpusSink.A2DP_VendorInitCodecConfig p_cfg ∧
    A2DP_VendorInitCodecConfig E .BTAV_A2DP_CODEC_INDEX_SOURCE_LHDCV2 p_cfg
      = E.LhdcV2.A2DP_VendorInitCodecConfig p_cfg ∧
    A2DP_VendorInitCodecConfig E .BTAV_A2DP_CODEC_INDEX_SOURCE_LHDCV3 p_cfg
      = E.LhdcV3.A2DP_VendorInitCodecConfig p_cfg ∧
    A2DP_VendorInitCodecConfig E .BTAV_A2DP_CODEC_INDEX_SOURCE_LHDCV5 p_cfg
      = E.LhdcV5.A2DP_VendorInitCodecConfig p_cfg ∧
    A2DP_VendorInitCodecConfig E .BTAV_A2DP_CODEC_INDEX_SINK_LHDCV3 p_cfg
      = E.LhdcV3Sink.A2DP_VendorInitCodecConfig p_cfg ∧
    A2DP_VendorInitCodecConfig E .BTAV_A2DP_CODEC_INDEX_SINK_LHDCV5 p_cfg
      = E.LhdcV5Sink.A2DP_VendorInitCodecConfig p_cfg :=
  ⟨rfl, rfl, rfl, rfl, rfl, rfl, rfl, rfl, rfl, rfl, rfl, rfl, rfl, rfl, rfl, rfl, rfl⟩

/-! ## Unregistered keys: nothing is written -/

/-- C20: on a buffer whose key is the key of no family
`A2DP_VendorBuildCodecHeader` returns `false` with the packet buffer as it was,
`A2DP_VendorGetPacketTimestamp` returns `false` with `*p_timestamp` as it was
and `A2DP_VendorAdjustCodec` returns `false` with the capability buffer as it
was. -/
theorem writers_false_and_unchanged_of_unregistered (E : Env Hdr Enc Dec Cfg)
    (p_codec_info : CodecInfo) (vendor_id codec_id : Nat)
    (hv : A2DP_VendorCodecGetVendorId E.toVendorConsts p_codec_info = some vendor_id)
    (hc : A2DP_VendorCodecGetCodecId E.toVendorConsts p_codec_info = some codec_id)
    (hun : ∀ F, E.keyOf F ≠ (vendor_id, codec_id)) :
    (∀ (p_buf : Hdr) (frames_per_packet : Nat),
      A2DP_VendorBuildCodecHeader E p_codec_info p_buf frames_per_packet
        = some (false, p_buf)) ∧
    (∀ (p_data : CodecInfo) (p_timestamp : Nat),
      A2DP_VendorGetPacketTimestamp E p_codec_info p_data p_timestamp
        = some (false, p_timestamp)) ∧
    A2DP_VendorAdjustCodec E p_codec_info = some (false, p_codec_info) := by
  obtain ⟨n1, n2, n3, n4, n5, n6, n7⟩ :=
    conds_of_unregistered E.toVendorConsts vendor_id codec_id hun
  refine ⟨?_, ?_, ?_⟩
  · intro p_buf frames_per_packet
    simp only [A2DP_VendorBuildCodecHeader, hv, hc, Option.bind_eq_bind, Option.some_bind,
      if_neg n1, if_neg n2, if_neg n3, if_neg n4, if_neg n5, if_neg n6, if_neg n7,
      Option.pure_def]
  · intro p_data p_timestamp
    simp only [A2DP_VendorGetPacketTimestamp, hv, hc, Option.bind_eq_bind, Option.some_bind,
      if_neg n1, if_neg n2, if_neg n3, if_neg n4, if_neg n5, if_neg n6, if_neg n7,
      Option.pure_def]
  · simp only [A2DP_VendorAdjustCodec, hv, hc, Option.bind_eq_bind, Option.some_bind,
      if_neg n1, if_neg n2, if_neg n3, if_neg n4, if_neg n5, if_neg n6, if_neg n7,
      Option.pure_def]

/-- C20 at the buffer with key `(0xFFFFFFFF, 0xFFFF)`, with family functions
that never return. -/
theorem writers_false_and_unchanged_of_unregistered_witness :
    (∀ (p_buf : Unit) (frames_per_packet : Nat),
      A2DP_VendorBuildCodecHeader noReturnEnv unknownBuf p_buf frames_per_packet
        = some (false, p_buf)) ∧
    (∀ (p_data : CodecInfo) (p_timestamp : Nat),
      A2DP_VendorGetPacketTimestamp noReturnEnv unknownBuf p_data p_timestamp
        = some (false, p_timestamp)) ∧
    A2DP_VendorAdjustCodec noReturnEnv unknownBuf = some (false, unknownBuf) :=
  writers_false_and_unchanged_of_unregistered noReturnEnv unknownBuf 0xFFFFFFFF 0xFFFF
    (by decide) (by decide) (fun F => by cases F <;> decide)

/-! ## Further evaluations -/

/-- With the upstream constants the key `(0x4F, 0x0001)` is the aptX key: the
buffer `scenarioBuf` gets the answer of the aptX functions (number 1). -/
theorem eval_bitRate_scenarioBuf_upstream :
    A2DP_VendorGetBitRate tagEnv scenarioBuf = some 1 := by decide

theorem eval_equals_unknownBuf :
    A2DP_VendorCodecTypeEquals tagEnv unknownBuf unknownBuf = some true ∧
      A2DP_VendorCodecEquals tagEnv unknownBuf unknownBuf = some false := by decide


/-! ## Encoder and decoder interfaces, sink track channel type -/

/-- C21: on a buffer whose key is the key of no family
`A2DP_VendorGetEncoderInterface` and `A2DP_VendorGetDecoderInterface` return
`NULL`; and, with pairwise distinct registered keys,
`A2DP_VendorGetDecoderInterface` returns `NULL` on a buffer whose key is the key
of aptX, aptX-HD or LHDC V2. -/
theorem interfaces_null (E : Env Hdr Enc Dec Cfg) (hd : E.KeysDistinct)
    (p_codec_info : CodecInfo) (vendor_id codec_id : Nat)
    (hv : A2DP_VendorCodecGetVendorId E.toVendorConsts p_codec_info = some vendor_id)
    (hc : A2DP_VendorCodecGetCodecId E.toVendorConsts p_codec_info = some codec_id) :
    ((∀ F, E.keyOf F ≠ (vendor_id, codec_id)) →
      A2DP_VendorGetEncoderInterface E p_codec_info = some none ∧
        A2DP_VendorGetDecoderInterface E p_codec_info = some none) ∧
    (∀ F, F = .Aptx ∨ F = .AptxHd ∨ F = .LhdcV2 → E.keyOf F = (vendor_id, codec_id) →
      A2DP_VendorGetDecoderInterface E p_codec_info = some none) := by
  constructor
  · intro hun
    obtain ⟨n1, n2, n3, n4, n5, n6, n7⟩ :=
      conds_of_unregistered E.toVendorConsts vendor_id codec_id hun
    constructor
    · simp only [A2DP_VendorGetEncoderInterface, hv, hc, Option.bind_eq_bind,
        Option.some_bind, if_neg n1, if_neg n2, if_neg n3, if_neg n4, if_neg n5, if_neg n6,
        if_neg n7, Option.pure_def]
    · simp only [A2DP_VendorGetDecoderInterface, hv, hc, Option.bind_eq_bind,
        Option.some_bind, if_neg n3, if_neg n4, if_neg n6, if_neg n7, Option.pure_def]
  · intro F hF hkey
    obtain ⟨-, -, e3, e4, -, e6, e7⟩ :=
      conds_of_registered E.toVendorConsts hd F vendor_id codec_id hkey
    simp only [A2DP_VendorGetDecoderInterface, hv, hc, Option.bind_eq_bind, Option.some_bind,
      e3, e4, e6, e7]
    rcases hF with rfl | rfl | rfl <;> simp

/-- C21 at the buffer with key `(0xFFFFFFFF, 0xFFFF)` and at the aptX buffer. -/
theorem interfaces_null_witness :
    (A2DP_VendorGetEncoderInterface tagEnv unknownBuf = some none ∧
        A2DP_VendorGetDecoderInterface tagEnv unknownBuf = some none) ∧
      A2DP_VendorGetDecoderInterface tagEnv aptxBuf = some none :=
  ⟨(interfaces_null tagEnv (by decide) unknownBuf 0xFFFFFFFF 0xFFFF (by decide)
      (by decide)).1 (fun F => by cases F <;> decide),
    (interfaces_null tagEnv (by decide) aptxBuf 0x4F 0x0001 (by decide) (by decide)).2
      .Aptx (Or.inl rfl) (by decide)⟩

/-- C22: with pairwise distinct registered keys,
`A2DP_VendorGetSinkTrackChannelType` returns `-1` on a buffer whose key is the
key of aptX, aptX-HD or LHDC V2, whatever the buffer holds besides, and on a
buffer whose key is the key of LDAC, Opus, LHDC V3 or LHDC V5 it returns the
value of the sink track channel type function of that family. -/
theorem sinkTrackChannelType_cases (E : Env Hdr Enc Dec Cfg) (hd : E.KeysDistinct)
    (p_codec_info : CodecInfo) (vendor_id codec_id : Nat)
    (hv : A2DP_VendorCodecGetVendorId E.toVendorConsts p_codec_info = some vendor_id)
    (hc : A2DP_VendorCodecGetCodecId E.toVendorConsts p_codec_info = some codec_id)
    (F : Family) (hkey : E.keyOf F = (vendor_id, codec_id)) :
    (F = .Aptx ∨ F = .AptxHd ∨ F = .LhdcV2 →
      A2DP_VendorGetSinkTrackChannelType E p_codec_info = some (-1)) ∧
    (F = .Ldac ∨ F = .Opus ∨ F = .LhdcV3 ∨ F = .LhdcV5 →
      ∃ S, E.sinkOps F = some S ∧
        A2DP_VendorGetSinkTrackChannelType E p_codec_info
          = S.A2DP_VendorGetSinkTrackChannelType p_codec_info) := by
  obtain ⟨-, -, e3, e4, -, e6, e7⟩ :=
    conds_of_registered E.toVendorConsts hd F vendor_id codec_id hkey
  constructor
  · intro hF
    simp only [A2DP_VendorGetSinkTrackChannelType, hv, hc, Option.bind_eq_bind,
      Option.some_bind, e3, e4, e6, e7]
    rcases hF with rfl | rfl | rfl <;> simp
  · intro hF
    simp only [A2DP_VendorGetSinkTrackChannelType, hv, hc, Option.bind_eq_bind,
      Option.some_bind, e3, e4, e6, e7]
    rcases hF with rfl | rfl | rfl | rfl <;> simp [Env.sinkOps]

/-- C22 at the LHDC V2 buffer (`-1`) and at the LHDC V3 buffer (the value of
the LHDC V3 function). -/
theorem sinkTrackChannelType_cases_witness :
    A2DP_VendorGetSinkTrackChannelType tagEnv lhdcV2Buf = some (-1) ∧
      ∃ S, tagEnv.sinkOps .LhdcV3 = some S ∧
        A2DP_VendorGetSinkTrackChannelType tagEnv lhdcV3Buf
          = S.A2DP_VendorGetSinkTrackChannelType lhdcV3Buf :=
  ⟨(sinkTrackChannelType_cases tagEnv (by decide) lhdcV2Buf 0x53A 0x4C32 (by decide)
      (by decide) .LhdcV2 (by decide)).1 (Or.inr (Or.inr rfl)),
    (sinkTrackChannelType_cases tagEnv (by decide) lhdcV3Buf 0x53A 0x4C33 (by decide)
      (by decide) .LhdcV3 (by decide)).2 (Or.inr (Or.inr (Or.inl rfl)))⟩

/-! ## The accessors stay inside their fields -/

/-- On a buffer that holds the vendor id field the vendor id is read. -/
theorem getVendorId_of_length (C : VendorConsts) (p : CodecInfo)
    (h : C.A2DP_VENDOR_CODEC_VENDOR_ID_START_IDX + 4 ≤ p.length) :
    ∃ vendor_id, A2DP_VendorCodecGetVendorId C p = some vendor_id := by
  have h0 : C.A2DP_VENDOR_CODEC_VENDOR_ID_START_IDX < p.length := by omega
  have h1 : C.A2DP_VENDOR_CODEC_VENDOR_ID_START_IDX + 1 < p.length := by omega
  have h2 : C.A2DP_VENDOR_CODEC_VENDOR_ID_START_IDX + 2 < p.length := by omega
  have h3 : C.A2DP_VENDOR_CODEC_VENDOR_ID_START_IDX + 3 < p.length := by omega
  exact ⟨_, getVendorId_of_bytes C p _ _ _ _ (List.getElem?_eq_getElem h0)
    (List.getElem?_eq_getElem h1) (List.getElem?_eq_getElem h2)
    (List.getElem?_eq_getElem h3)⟩

/-- On a buffer that holds the codec id field the codec id is read. -/
theorem getCodecId_of_length (C : VendorConsts) (p : CodecInfo)
    (h : C.A2DP_VENDOR_CODEC_CODEC_ID_START_IDX + 2 ≤ p.length) :
    ∃ codec_id, A2DP_VendorCodecGetCodecId C p = some codec_id := by
  have h0 : C.A2DP_VENDOR_CODEC_CODEC_ID_START_IDX < p.length := by omega
  have h1 : C.A2DP_VENDOR_CODEC_CODEC_ID_START_IDX + 1 < p.length := by omega
  exact ⟨_, getCodecId_of_bytes C p _ _ (List.getElem?_eq_getElem h0)
    (List.getElem?_eq_getElem h1)⟩

/-- The vendor id depends on the four positions of its field only. -/
theorem getVendorId_congr (C : VendorConsts) (p q : CodecInfo)
    (h : ∀ k, k < 4 → q[C.A2DP_VENDOR_CODEC_VENDOR_ID_START_IDX + k]?
      = p[C.A2DP_VENDOR_CODEC_VENDOR_ID_START_IDX + k]?) :
    A2DP_VendorCodecGetVendorId C q = A2DP_VendorCodecGetVendorId C p := by
  have h0 := h 0 (by omega)
  have h1 := h 1 (by omega)
  have h2 := h 2 (by omega)
  have h3 := h 3 (by omega)
  simp only [A2DP_VendorCodecGetVendorId, readByte_offsetPtr, h0, h1, h2, h3]

/-- The codec id depends on the two positions of its field only. -/
theorem getCodecId_congr (C : VendorConsts) (p q : CodecInfo)
    (h : ∀ k, k < 2 → q[C.A2DP_VENDOR_CODEC_CODEC_ID_START_IDX + k]?
      = p[C.A2DP_VENDOR_CODEC_CODEC_ID_START_IDX + k]?) :
    A2DP_VendorCodecGetCodecId C q = A2DP_VendorCodecGetCodecId C p := by
  have h0 := h 0 (by omega)
  have h1 := h 1 (by omega)
  simp only [A2DP_VendorCodecGetCodecId, readByte_offsetPtr, h0, h1]

/-- C23: the two accessors read inside their fields.  The vendor id is the same
on two buffers that agree at the positions `START .. START + 3` of the vendor
id field, and the codec id is the same on two buffers that agree at the
positions `START, START + 1` of the codec id field; on a buffer long enough to
hold both fields both accessors return a value (no read is out of the buffer),
which is the key extraction of every dispatcher. -/
theorem accessors_read_inside_fields (C : VendorConsts) (p_codec_info : CodecInfo)
    (hV : C.A2DP_VENDOR_CODEC_VENDOR_ID_START_IDX + 4 ≤ p_codec_info.length)
    (hC : C.A2DP_VENDOR_CODEC_CODEC_ID_START_IDX + 2 ≤ p_codec_info.length) :
    (∃ vendor_id codec_id,
      A2DP_VendorCodecGetVendorId C p_codec_info = some vendor_id ∧
        A2DP_VendorCodecGetCodecId C p_codec_info = some codec_id) ∧
    (∀ q : CodecInfo,
      (∀ k, k < 4 → q[C.A2DP_VENDOR_CODEC_VENDOR_ID_START_IDX + k]?
        = p_codec_info[C.A2DP_VENDOR_CODEC_VENDOR_ID_START_IDX + k]?) →
      A2DP_VendorCodecGetVendorId C q = A2DP_VendorCodecGetVendorId C p_codec_info) ∧
    (∀ q : CodecInfo,
      (∀ k, k < 2 → q[C.A2DP_VENDOR_CODEC_CODEC_ID_START_IDX + k]?
        = p_codec_info[C.A2DP_VENDOR_CODEC_CODEC_ID_START_IDX + k]?) →
      A2DP_VendorCodecGetCodecId C q = A2DP_VendorCodecGetCodecId C p_codec_info) := by
  obtain ⟨v, hv⟩ := getVendorId_of_length C p_codec_info hV
  obtain ⟨c, hc⟩ := getCodecId_of_length C p_codec_info hC
  exact ⟨⟨v, c, hv, hc⟩, fun q h => getVendorId_congr C p_codec_info q h,
    fun q h => getCodecId_congr C p_codec_info q h⟩

/-- C23 at a buffer of nine bytes, the shortest that holds both fields with the
upstream start indices. -/
theorem accessors_read_inside_fields_witness :
    ∃ vendor_id codec_id,
      A2DP_VendorCodecGetVendorId upstreamConsts [9, 0, 0xFF, 0x4F, 0, 0, 0x80, 1, 0]
          = some vendor_id ∧
        A2DP_VendorCodecGetCodecId upstreamConsts [9, 0, 0xFF, 0x4F, 0, 0, 0x80, 1, 0]
          = some codec_id :=
  (accessors_read_inside_fields upstreamConsts [9, 0, 0xFF, 0x4F, 0, 0, 0x80, 1, 0]
    (by decide) (by decide)).1


/-! ## The "supported" checks -/

/-- The statement by statement body of `A2DP_IsVendorSinkCodecSupported` is the
if chain. -/
theorem sinkSupported_statements_eq (E : Env Hdr Enc Dec Cfg) (p : CodecInfo) :
    A2DP_IsVendorSinkCodecSupported_statements E p = A2DP_IsVendorSinkCodecSupported E p := by
  unfold A2DP_IsVendorSinkCodecSupported_statements A2DP_IsVendorSinkCodecSupported
  cases A2DP_VendorCodecGetVendorId E.toVendorConsts p with
  | none => rfl
  | some vendor_id =>
    cases A2DP_VendorCodecGetCodecId E.toVendorConsts p with
    | none => rfl
    | some codec_id =>
      simp only [Option.bind_eq_bind, Option.some_bind, bodyResult, stmtSeq, stmtIf,
        stmtIfElse, stmtReturn]
      split_ifs <;> rfl

/-- The plain chain of `if` statements is the if chain as well. -/
theorem sinkSupported_plainIf_eq (E : Env Hdr Enc Dec Cfg) (p : CodecInfo) :
    A2DP_IsVendorSinkCodecSupported_plainIf E p = A2DP_IsVendorSinkCodecSupported E p := by
  unfold A2DP_IsVendorSinkCodecSupported_plainIf A2DP_IsVendorSinkCodecSupported
  cases A2DP_VendorCodecGetVendorId E.toVendorConsts p with
  | none => rfl
  | some vendor_id =>
    cases A2DP_VendorCodecGetCodecId E.toVendorConsts p with
    | none => rfl
    | some codec_id =>
      simp only [Option.bind_eq_bind, Option.some_bind, bodyResult, stmtSeq, stmtIf,
        stmtReturn]
      split_ifs <;> rfl

/-- C24: the two "supported" checks.  With pairwise distinct registered keys,
`A2DP_IsVendorSinkCodecSupported` and `A2DP_IsVendorPeerSourceCodecSupported`
return `false` on a key that no family owns and on the keys of aptX, aptX-HD
and LHDC V2, and on the key of LDAC, Opus, LHDC V3 or LHDC V5 they return the
"supported" predicates of that family (the fields
`A2DP_IsVendorSinkCodecSupported` and `A2DP_IsPeerSourceCodecSupported`, not
the "valid" ones) on the same buffer.  On every buffer the body of the sink
variant, with its `if` and `else if` statements, gives the same result as the
plain chain of `if` statements. -/
theorem supported_checks (E : Env Hdr Enc Dec Cfg) (hd : E.KeysDistinct)
    (p_codec_info : CodecInfo) (vendor_id codec_id : Nat)
    (hv : A2DP_VendorCodecGetVendorId E.toVendorConsts p_codec_info = some vendor_id)
    (hc : A2DP_VendorCodecGetCodecId E.toVendorConsts p_codec_info = some codec_id) :
    ((∀ F, E.keyOf F ≠ (vendor_id, codec_id)) →
      A2DP_IsVendorSinkCodecSupported E p_codec_info = some false ∧
        A2DP_IsVendorPeerSourceCodecSupported E p_codec_info = some false) ∧
    (∀ F, F = .Aptx ∨ F = .AptxHd ∨ F = .LhdcV2 → E.keyOf F = (vendor_id, codec_id) →
      A2DP_IsVendorSinkCodecSupported E p_codec_info = some false ∧
        A2DP_IsVendorPeerSourceCodecSupported E p_codec_info = some false) ∧
    (∀ F, F = .Ldac ∨ F = .Opus ∨ F = .LhdcV3 ∨ F = .LhdcV5 →
      E.keyOf F = (vendor_id, codec_id) →
      ∃ S, E.sinkOps F = some S ∧
        A2DP_IsVendorSinkCodecSupported E p_codec_info
          = S.A2DP_IsVendorSinkCodecSupported p_codec_info ∧
        A2DP_IsVendorPeerSourceCodecSupported E p_codec_info
          = S.A2DP_IsPeerSourceCodecSupported p_codec_info) ∧
    (∀ q : CodecInfo,
      A2DP_IsVendorSinkCodecSupported_statements E q = A2DP_IsVendorSinkCodecSupported E q ∧
        A2DP_IsVendorSinkCodecSupported_plainIf E q
          = A2DP_IsVendorSinkCodecSupported_statements E q) := by
  refine ⟨?_, ?_, ?_, ?_⟩
  · intro hun
    obtain ⟨-, -, n3, n4, -, n6, n7⟩ :=
      conds_of_unregistered E.toVendorConsts vendor_id codec_id hun
    constructor
    · simp only [A2DP_IsVendorSinkCodecSupported, hv, hc, Option.bind_eq_bind,
        Option.some_bind, if_neg n3, if_neg n4, if_neg n6, if_neg n7, Option.pure_def]
    · simp only [A2DP_IsVendorPeerSourceCodecSupported, hv, hc, Option.bind_eq_bind,
        Option.some_bind, if_neg n3, if_neg n4, if_neg n6, if_neg n7, Option.pure_def]
  · intro F hF hkey
    obtain ⟨-, -, e3, e4, -, e6, e7⟩ :=
      conds_of_registered E.toVendorConsts hd F vendor_id codec_id hkey
    simp only [A2DP_IsVendorSinkCodecSupported, A2DP_IsVendorPeerSourceCodecSupported, hv, hc,
      Option.bind_eq_bind, Option.some_bind, e3, e4, e6, e7]
    rcases hF with rfl | rfl | rfl <;> simp
  · intro F hF hkey
    obtain ⟨-, -, e3, e4, -, e6, e7⟩ :=
      conds_of_registered E.toVendorConsts hd F vendor_id codec_id hkey
    simp only [A2DP_IsVendorSinkCodecSupported, A2DP_IsVendorPeerSourceCodecSupported, hv, hc,
      Option.bind_eq_bind, Option.some_bind, e3, e4, e6, e7]
    rcases hF with rfl | rfl | rfl | rfl <;> simp [Env.sinkOps]
  · intro q
    exact ⟨sinkSupported_statements_eq E q,
      (sinkSupported_plainIf_eq E q).trans (sinkSupported_statements_eq E q).symm⟩

/-- C24 at the LDAC buffer, in an environment whose LDAC "valid" predicate
accepts the buffer and whose LDAC "supported" predicates reject it: the
"supported" checks return `false`. -/
theorem supported_checks_witness :
    A2DP_IsVendorSinkCodecValid supportedFalseEnv ldacBuf = some true ∧
      ∃ S, supportedFalseEnv.sinkOps .Ldac = some S ∧
        A2DP_IsVendorSinkCodecSupported supportedFalseEnv ldacBuf
          = S.A2DP_IsVendorSinkCodecSupported ldacBuf ∧
        A2DP_IsVendorPeerSourceCodecSupported supportedFalseEnv ldacBuf
          = S.A2DP_IsPeerSourceCodecSupported ldacBuf :=
  ⟨by decide,
    (supported_checks supportedFalseEnv (by decide) ldacBuf 0x12D 0xAA (by decide)
      (by decide)).2.2.1 .Ldac (Or.inl rfl) (by decide)⟩

/-! ## The LHDC vendor id with its codec ids -/

/-- C25: the vendor id alone selects no family.  With pairwise distinct
registered keys and the LHDC vendor id being the vendor id of no other family,
a buffer with the LHDC vendor id is dispatched to LHDC V2, LHDC V3 or LHDC V5
according to its codec id, and with any other codec id it is treated as
unresolved: the four validity checks return `false`, the five numeric getters
`-1` and the name is `"UNKNOWN VENDOR CODEC"`. -/
theorem lhdc_vendor_id_dispatch (E : Env Hdr Enc Dec Cfg) (hd : E.KeysDistinct)
    (hown : E.LhdcVendorIdOwn) (p_codec_info : CodecInfo) (codec_id : Nat)
    (hv : A2DP_VendorCodecGetVendorId E.toVendorConsts p_codec_info
      = some E.A2DP_LHDC_VENDOR_ID)
    (hc : A2DP_VendorCodecGetCodecId E.toVendorConsts p_codec_info = some codec_id) :
    (codec_id = E.A2DP_LHDCV2_CODEC_ID →
      A2DP_IsVendorSourceCodecValid E p_codec_info
          = E.LhdcV2.A2DP_IsVendorSourceCodecValid p_codec_info ∧
        A2DP_VendorGetBitRate E p_codec_info
          = E.LhdcV2.A2DP_VendorGetBitRate p_codec_info) ∧
    (codec_id = E.A2DP_LHDCV3_CODEC_ID →
      A2DP_IsVendorSourceCodecValid E p_codec_info
          = E.LhdcV3.A2DP_IsVendorSourceCodecValid p_codec_info ∧
        A2DP_VendorGetBitRate E p_codec_info
          = E.LhdcV3.A2DP_VendorGetBitRate p_codec_info) ∧
    (codec_id = E.A2DP_LHDCV5_CODEC_ID →
      A2DP_IsVendorSourceCodecValid E p_codec_info
          = E.LhdcV5.A2DP_IsVendorSourceCodecValid p_codec_info ∧
        A2DP_VendorGetBitRate E p_codec_info
          = E.LhdcV5.A2DP_VendorGetBitRate p_codec_info) ∧
    (codec_id ≠ E.A2DP_LHDCV2_CODEC_ID → codec_id ≠ E.A2DP_LHDCV3_CODEC_ID →
      codec_id ≠ E.A2DP_LHDCV5_CODEC_ID →
      (A2DP_IsVendorSourceCodecValid E p_codec_info = some false ∧
        A2DP_IsVendorSinkCodecValid E p_codec_info = some false ∧
        A2DP_IsVendorPeerSourceCodecValid E p_codec_info = some false ∧
        A2DP_IsVendorPeerSinkCodecValid E p_codec_info = some false) ∧
      (A2DP_VendorGetBitRate E p_codec_info = some (-1) ∧
        A2DP_VendorGetTrackSampleRate E p_codec_info = some (-1) ∧
        A2DP_VendorGetTrackBitsPerSample E p_codec_info = some (-1) ∧
        A2DP_VendorGetTrackChannelCount E p_codec_info = some (-1) ∧
        A2DP_VendorGetSinkTrackChannelType E p_codec_info = some (-1)) ∧
      A2DP_VendorCodecName E p_codec_info = some "UNKNOWN VENDOR CODEC") := by
  have registered : ∀ vendor_id,
      A2DP_VendorCodecGetVendorId E.toVendorConsts p_codec_info = some vendor_id →
      ∀ F, E.keyOf F = (vendor_id, codec_id) →
      A2DP_IsVendorSourceCodecValid E p_codec_info
          = (E.ops F).A2DP_IsVendorSourceCodecValid p_codec_info ∧
        A2DP_VendorGetBitRate E p_codec_info
          = (E.ops F).A2DP_VendorGetBitRate p_codec_info := by
    intro vendor_id hv' F hkey
    obtain ⟨e1, e2, e3, e4, e5, e6, e7⟩ :=
      conds_of_registered E.toVendorConsts hd F vendor_id codec_id hkey
    simp only [A2DP_IsVendorSourceCodecValid, A2DP_VendorGetBitRate, hv', hc,
      Option.bind_eq_bind, Option.some_bind, e1, e2, e3, e4, e5, e6, e7]
    cases F <;> simp [Env.ops]
  have unregistered : ∀ vendor_id,
      A2DP_VendorCodecGetVendorId E.toVendorConsts p_codec_info = some vendor_id →
      (∀ F, E.keyOf F ≠ (vendor_id, codec_id)) →
      (A2DP_IsVendorSourceCodecValid E p_codec_info = some false ∧
        A2DP_IsVendorSinkCodecValid E p_codec_info = some false ∧
        A2DP_IsVendorPeerSourceCodecValid E p_codec_info = some false ∧
        A2DP_IsVendorPeerSinkCodecValid E p_codec_info = some false) ∧
      (A2DP_VendorGetBitRate E p_codec_info = some (-1) ∧
        A2DP_VendorGetTrackSampleRate E p_codec_info = some (-1) ∧
        A2DP_VendorGetTrackBitsPerSample E p_codec_info = some (-1) ∧
        A2DP_VendorGetTrackChannelCount E p_codec_info = some (-1) ∧
        A2DP_VendorGetSinkTrackChannelType E p_codec_info = some (-1)) ∧
      A2DP_VendorCodecName E p_codec_info = some "UNKNOWN VENDOR CODEC" := by
    intro vendor_id hv' hun
    obtain ⟨n1, n2, n3, n4, n5, n6, n7⟩ :=
      conds_of_unregistered E.toVendorConsts vendor_id codec_id hun
    refine ⟨⟨?_, ?_, ?_, ?_⟩, ⟨?_, ?_, ?_, ?_, ?_⟩, ?_⟩ <;>
    simp only [A2DP_IsVendorSourceCodecValid, A2DP_IsVendorSinkCodecValid,
      A2DP_IsVendorPeerSourceCodecValid, A2DP_IsVendorPeerSinkCodecValid,
      A2DP_VendorGetBitRate, A2DP_VendorGetTrackSampleRate,
      A2DP_VendorGetTrackBitsPerSample, A2DP_VendorGetTrackChannelCount,
      A2DP_VendorGetSinkTrackChannelType, A2DP_VendorCodecName, hv', hc,
      Option.bind_eq_bind, Option.some_bind,
      if_neg n1, if_neg n2, if_neg n3, if_neg n4, if_neg n5, if_neg n6, if_neg n7,
      Option.pure_def]
  refine ⟨?_, ?_, ?_, ?_⟩
  · intro h
    exact registered _ hv .LhdcV2 (by simp only [VendorConsts.keyOf, h])
  · intro h
    exact registered _ hv .LhdcV3 (by simp only [VendorConsts.keyOf, h])
  · intro h
    exact registered _ hv .LhdcV5 (by simp only [VendorConsts.keyOf, h])
  · intro h2 h3 h5
    obtain ⟨o1, o2, o3, o4⟩ := hown
    have hun : ∀ F, E.keyOf F ≠ (E.A2DP_LHDC_VENDOR_ID, codec_id) := by
      intro F hF
      cases F <;> simp only [VendorConsts.keyOf, Prod.mk.injEq] at hF
      · exact o1 hF.1.symm
      · exact o2 hF.1.symm
      · exact o3 hF.1.symm
      · exact o4 hF.1.symm
      · exact h2 hF.2.symm
      · exact h3 hF.2.symm
      · exact h5 hF.2.symm
    exact unregistered _ hv hun

/-- C25 at three buffers with the LHDC vendor id and the codec ids of LHDC V2,
LHDC V3 and LHDC V5 (bit rates 5, 6 and 7 of three different families) and at a
fourth with the codec id `0x4C4C` (bit rate `-1`). -/
theorem lhdc_vendor_id_dispatch_witness :
    (A2DP_VendorGetBitRate tagEnv lhdcV2Buf = tagEnv.LhdcV2.A2DP_VendorGetBitRate lhdcV2Buf ∧
      A2DP_VendorGetBitRate tagEnv lhdcV3Buf = tagEnv.LhdcV3.A2DP_VendorGetBitRate lhdcV3Buf ∧
      A2DP_VendorGetBitRate tagEnv lhdcV5Buf
        = tagEnv.LhdcV5.A2DP_VendorGetBitRate lhdcV5Buf) ∧
      A2DP_VendorGetBitRate tagEnv lhdcOtherBuf = some (-1) :=
  ⟨⟨((lhdc_vendor_id_dispatch tagEnv (by decide) (by decide) lhdcV2Buf 0x4C32 (by decide)
        (by decide)).1 (by decide)).2,
      ((lhdc_vendor_id_dispatch tagEnv (by decide) (by decide) lhdcV3Buf 0x4C33 (by decide)
        (by decide)).2.1 (by decide)).2,
      ((lhdc_vendor_id_dispatch tagEnv (by decide) (by decide) lhdcV5Buf 0x4C35 (by decide)
        (by decide)).2.2.1 (by decide)).2⟩,
    ((lhdc_vendor_id_dispatch tagEnv (by decide) (by decide) lhdcOtherBuf 0x4C4C (by decide)
      (by decide)).2.2.2 (by decide) (by decide) (by decide)).2.1.1⟩


/-! ## The info string of an unregistered key -/

/-- C26: on a buffer whose key `(vendor_id, codec_id)` is the key of no family
`A2DP_VendorCodecInfoString` returns `"Unsupported codec vendor_id: "` followed
by `loghex(vendor_id)`, `" codec_id: "` and `loghex(codec_id)`; so a second
buffer with the same key gets the same string, whatever its other bytes are. -/
theorem infoString_of_unregistered (E : Env Hdr Enc Dec Cfg)
    (p_codec_info : CodecInfo) (vendor_id codec_id : Nat)
    (hv : A2DP_VendorCodecGetVendorId E.toVendorConsts p_codec_info = some vendor_id)
    (hc : A2DP_VendorCodecGetCodecId E.toVendorConsts p_codec_info = some codec_id)
    (hun : ∀ F, E.keyOf F ≠ (vendor_id, codec_id)) :
    A2DP_VendorCodecInfoString E p_codec_info
        = some ("Unsupported codec vendor_id: " ++ E.loghex_uint32 vendor_id ++
            " codec_id: " ++ E.loghex_uint16 codec_id) ∧
      (∀ q : CodecInfo,
        A2DP_VendorCodecGetVendorId E.toVendorConsts q = some vendor_id →
        A2DP_VendorCodecGetCodecId E.toVendorConsts q = some codec_id →
        A2DP_VendorCodecInfoString E q = A2DP_VendorCodecInfoString E p_codec_info) := by
  obtain ⟨n1, n2, n3, n4, n5, n6, n7⟩ :=
    conds_of_unregistered E.toVendorConsts vendor_id codec_id hun
  have key : ∀ q : CodecInfo,
      A2DP_VendorCodecGetVendorId E.toVendorConsts q = some vendor_id →
      A2DP_VendorCodecGetCodecId E.toVendorConsts q = some codec_id →
      A2DP_VendorCodecInfoString E q
        = some ("Unsupported codec vendor_id: " ++ E.loghex_uint32 vendor_id ++
            " codec_id: " ++ E.loghex_uint16 codec_id) := by
    intro q hqv hqc
    simp only [A2DP_VendorCodecInfoString, hqv, hqc, Option.bind_eq_bind, Option.some_bind,
      if_neg n1, if_neg n2, if_neg n3, if_neg n4, if_neg n5, if_neg n6, if_neg n7,
      Option.pure_def]
  exact ⟨key p_codec_info hv hc,
    fun q hqv hqc => (key q hqv hqc).trans (key p_codec_info hv hc).symm⟩

/-- C26 at two buffers with the key `(0xFFFFFFFF, 0xFFFF)` that differ in
length and in their other bytes. -/
theorem infoString_of_unregistered_witness :
    A2DP_VendorCodecInfoString noReturnEnv unknownBuf
        = some ("Unsupported codec vendor_id: " ++ noReturnEnv.loghex_uint32 0xFFFFFFFF ++
            " codec_id: " ++ noReturnEnv.loghex_uint16 0xFFFF) ∧
      A2DP_VendorCodecInfoString noReturnEnv unknownBuf2
        = A2DP_VendorCodecInfoString noReturnEnv unknownBuf :=
  ⟨(infoString_of_unregistered noReturnEnv unknownBuf 0xFFFFFFFF 0xFFFF (by decide)
      (by decide) (fun F => by cases F <;> decide)).1,
    (infoString_of_unregistered noReturnEnv unknownBuf 0xFFFFFFFF 0xFFFF (by decide)
      (by decide) (fun F => by cases F <;> decide)).2 unknownBuf2 (by decide) (by decide)⟩

/-! ## The equality checks on an unregistered key -/

/-- C27: on two buffers of codec type `A2DP_MEDIA_CT_NON_A2DP` with the same
key, a key that no family owns, `A2DP_VendorCodecTypeEquals` returns `true` and
`A2DP_VendorCodecEquals` returns `false`; in particular
`A2DP_VendorCodecEquals E a a` is `false`. -/
theorem equality_checks_of_unregistered (E : Env Hdr Enc Dec Cfg)
    (a b : CodecInfo) (vendor_id codec_id : Nat)
    (hta : E.A2DP_GetCodecType a = some E.A2DP_MEDIA_CT_NON_A2DP)
    (htb : E.A2DP_GetCodecType b = some E.A2DP_MEDIA_CT_NON_A2DP)
    (hva : A2DP_VendorCodecGetVendorId E.toVendorConsts a = some vendor_id)
    (hca : A2DP_VendorCodecGetCodecId E.toVendorConsts a = some codec_id)
    (hvb : A2DP_VendorCodecGetVendorId E.toVendorConsts b = some vendor_id)
    (hcb : A2DP_VendorCodecGetCodecId E.toVendorConsts b = some codec_id)
    (hun : ∀ F, E.keyOf F ≠ (vendor_id, codec_id)) :
    A2DP_VendorCodecTypeEquals E a b = some true ∧
      A2DP_VendorCodecEquals E a b = some false ∧
      A2DP_VendorCodecEquals E a a = some false := by
  have hr := resolve_unregistered E.toVendorConsts vendor_id codec_id hun
  rw [typeEquals_eq_viaRegistryEquals, equals_eq_viaRegistryEquals,
    equals_eq_viaRegistryEquals,
    viaRegistryEquals_same_key E _ true a b vendor_id codec_id hta htb hva hca hvb hcb,
    viaRegistryEquals_same_key E _ false a b vendor_id codec_id hta htb hva hca hvb hcb,
    viaRegistryEquals_same_key E _ false a a vendor_id codec_id hta hta hva hca hva hca, hr]
  exact ⟨rfl, rfl, rfl⟩

/-- C27 at two buffers with the key `(0xFFFFFFFF, 0xFFFF)`, with family
functions that never return. -/
theorem equality_checks_of_unregistered_witness :
    A2DP_VendorCodecTypeEquals noReturnEnv unknownBuf unknownBuf2 = some true ∧
      A2DP_VendorCodecEquals noReturnEnv unknownBuf unknownBuf2 = some false ∧
      A2DP_VendorCodecEquals noReturnEnv unknownBuf unknownBuf = some false :=
  equality_checks_of_unregistered noReturnEnv unknownBuf unknownBuf2 0xFFFFFFFF 0xFFFF
    (by decide) (by decide) (by decide) (by decide) (by decide) (by decide)
    (fun F => by cases F <;> decide)

/-! ## The buffer to index mappers -/

/-- C28: `A2DP_VendorSourceCodecIndex` and `A2DP_VendorSinkCodecIndex` return
`BTAV_A2DP_CODEC_INDEX_MAX` on a key that no family owns; with pairwise distinct
registered keys `A2DP_VendorSinkCodecIndex` returns it on the keys of aptX,
aptX-HD and LHDC V2 as well, and otherwise each returns the source,
respectively sink, index mapper of the family that owns the key, applied to the
same buffer. -/
theorem codecIndex_cases (E : Env Hdr Enc Dec Cfg) (hd : E.KeysDistinct)
    (p_codec_info : CodecInfo) (vendor_id codec_id : Nat)
    (hv : A2DP_VendorCodecGetVendorId E.toVendorConsts p_codec_info = some vendor_id)
    (hc : A2DP_VendorCodecGetCodecId E.toVendorConsts p_codec_info = some codec_id) :
    ((∀ F, E.keyOf F ≠ (vendor_id, codec_id)) →
      A2DP_VendorSourceCodecIndex E p_codec_info = some .BTAV_A2DP_CODEC_INDEX_MAX ∧
        A2DP_VendorSinkCodecIndex E p_codec_info = some .BTAV_A2DP_CODEC_INDEX_MAX) ∧
    (∀ F, F = .Aptx ∨ F = .AptxHd ∨ F = .LhdcV2 → E.keyOf F = (vendor_id, codec_id) →
      A2DP_VendorSinkCodecIndex E p_codec_info = some .BTAV_A2DP_CODEC_INDEX_MAX) ∧
    (∀ F, E.keyOf F = (vendor_id, codec_id) →
      A2DP_VendorSourceCodecIndex E p_codec_info
        = (E.ops F).A2DP_VendorSourceCodecIndex p_codec_info) ∧
    (∀ F, F = .Ldac ∨ F = .Opus ∨ F = .LhdcV3 ∨ F = .LhdcV5 →
      E.keyOf F = (vendor_id, codec_id) →
      ∃ S, E.sinkOps F = some S ∧
        A2DP_VendorSinkCodecIndex E p_codec_info
          = S.A2DP_VendorSinkCodecIndex p_codec_info) := by
  refine ⟨?_, ?_, ?_, ?_⟩
  · intro hun
    obtain ⟨n1, n2, n3, n4, n5, n6, n7⟩ :=
      conds_of_unregistered E.toVendorConsts vendor_id codec_id hun
    constructor
    · simp only [A2DP_VendorSourceCodecIndex, hv, hc, Option.bind_eq_bind, Option.some_bind,
        if_neg n1, if_neg n2, if_neg n3, if_neg n4, if_neg n5, if_neg n6, if_neg n7,
        Option.pure_def]
    · simp only [A2DP_VendorSinkCodecIndex, hv, hc, Option.bind_eq_bind, Option.some_bind,
        if_neg n3, if_neg n4, if_neg n6, if_neg n7, Option.pure_def]
  · intro F hF hkey
    obtain ⟨-, -, e3, e4, -, e6, e7⟩ :=
      conds_of_registered E.toVendorConsts hd F vendor_id codec_id hkey
    simp only [A2DP_VendorSinkCodecIndex, hv, hc, Option.bind_eq_bind, Option.some_bind,
      e3, e4, e6, e7]
    rcases hF with rfl | rfl | rfl <;> simp
  · intro F hkey
    obtain ⟨e1, e2, e3, e4, e5, e6, e7⟩ :=
      conds_of_registered E.toVendorConsts hd F vendor_id codec_id hkey
    simp only [A2DP_VendorSourceCodecIndex, hv, hc, Option.bind_eq_bind, Option.some_bind,
      e1, e2, e3, e4, e5, e6, e7]
    cases F <;> simp [Env.ops]
  · intro F hF hkey
    obtain ⟨-, -, e3, e4, -, e6, e7⟩ :=
      conds_of_registered E.toVendorConsts hd F vendor_id codec_id hkey
    simp only [A2DP_VendorSinkCodecIndex, hv, hc, Option.bind_eq_bind, Option.some_bind,
      e3, e4, e6, e7]
    rcases hF with rfl | rfl | rfl | rfl <;> simp [Env.sinkOps]

/-- C28 at the buffer with key `(0xFFFFFFFF, 0xFFFF)` and at the aptX buffer,
with family functions that never return. -/
theorem codecIndex_cases_witness :
    (A2DP_VendorSourceCodecIndex noReturnEnv unknownBuf = some .BTAV_A2DP_CODEC_INDEX_MAX ∧
        A2DP_VendorSinkCodecIndex noReturnEnv unknownBuf = some .BTAV_A2DP_CODEC_INDEX_MAX) ∧
      A2DP_VendorSinkCodecIndex noReturnEnv aptxBuf = some .BTAV_A2DP_CODEC_INDEX_MAX :=
  ⟨(codecIndex_cases noReturnEnv (by decide) unknownBuf 0xFFFFFFFF 0xFFFF (by decide)
      (by decide)).1 (fun F => by cases F <;> decide),
    (codecIndex_cases noReturnEnv (by decide) aptxBuf 0x4F 0x0001 (by decide)
      (by decide)).2.1 .Aptx (Or.inl rfl) (by decide)⟩


/-! ## The sink side operations and the registry -/

/-- The if chain over the four keys of the sink side is the lookup among the
families with a sink side. -/
theorem sink_chain_eq_resolveSink {β : Type} (C : VendorConsts) (vendor_id codec_id : Nat)
    (x : Family → β) (fb : β) :
    (if vendor_id = C.A2DP_LDAC_VENDOR_ID ∧ codec_id = C.A2DP_LDAC_CODEC_ID then
        x .Ldac
      else if vendor_id = C.A2DP_OPUS_VENDOR_ID ∧ codec_id = C.A2DP_OPUS_CODEC_ID then
        x .Opus
      else if vendor_id = C.A2DP_LHDC_VENDOR_ID ∧ codec_id = C.A2DP_LHDCV3_CODEC_ID then
        x .LhdcV3
      else if vendor_id = C.A2DP_LHDC_VENDOR_ID ∧ codec_id = C.A2DP_LHDCV5_CODEC_ID then
        x .LhdcV5
      else fb)
    = (match C.resolveSink vendor_id codec_id with
        | some F => x F
        | none => fb) := by
  simp only [VendorConsts.resolveSink, VendorConsts.sinkRegistry, Family.sinkAll, List.map,
    VendorConsts.keyOf, lookup_cons_ite, Prod.mk.injEq, List.lookup_nil]
  split_ifs <;> rfl

/-- The lookup among the families with a sink side, as the if chain. -/
theorem resolveSink_eq_chain (C : VendorConsts) (vendor_id codec_id : Nat) :
    C.resolveSink vendor_id codec_id =
      (if vendor_id = C.A2DP_LDAC_VENDOR_ID ∧ codec_id = C.A2DP_LDAC_CODEC_ID then
        some .Ldac
      else if vendor_id = C.A2DP_OPUS_VENDOR_ID ∧ codec_id = C.A2DP_OPUS_CODEC_ID then
        some .Opus
      else if vendor_id = C.A2DP_LHDC_VENDOR_ID ∧ codec_id = C.A2DP_LHDCV3_CODEC_ID then
        some .LhdcV3
      else if vendor_id = C.A2DP_LHDC_VENDOR_ID ∧ codec_id = C.A2DP_LHDCV5_CODEC_ID then
        some .LhdcV5
      else none) := by
  rw [sink_chain_eq_resolveSink C vendor_id codec_id some none]
  cases C.resolveSink vendor_id codec_id <;> rfl

/-- A family found on the sink side has a sink side and owns the key. -/
theorem resolveSink_some (C : VendorConsts) (vendor_id codec_id : Nat) (F : Family)
    (h : C.resolveSink vendor_id codec_id = some F) :
    (F = .Ldac ∨ F = .Opus ∨ F = .LhdcV3 ∨ F = .LhdcV5) ∧
      C.keyOf F = (vendor_id, codec_id) := by
  rw [resolveSink_eq_chain] at h
  split_ifs at h with h1 h2 h3 h4 <;> cases h
  · exact ⟨Or.inl rfl, by simp [VendorConsts.keyOf, h1]⟩
  · exact ⟨Or.inr (Or.inl rfl), by simp [VendorConsts.keyOf, h2]⟩
  · exact ⟨Or.inr (Or.inr (Or.inl rfl)), by simp [VendorConsts.keyOf, h3]⟩
  · exact ⟨Or.inr (Or.inr (Or.inr rfl)), by simp [VendorConsts.keyOf, h4]⟩

/-- With distinct keys, the key of a family with a sink side is found on the
sink side. -/
theorem resolveSink_keyOf (C : VendorConsts) (hd : C.KeysDistinct) (F : Family)
    (hF : F = .Ldac ∨ F = .Opus ∨ F = .LhdcV3 ∨ F = .LhdcV5) :
    C.resolveSink (C.keyOf F).1 (C.keyOf F).2 = some F := by
  obtain ⟨-, -, e3, e4, -, e6, e7⟩ :=
    conds_of_registered C hd F (C.keyOf F).1 (C.keyOf F).2 rfl
  rw [resolveSink_eq_chain]
  simp only [e3, e4, e6, e7]
  rcases hF with rfl | rfl | rfl | rfl <;> simp

/-- A dispatcher that decodes the key and runs the four way if chain of the
sink side is the sink side registry dispatcher. -/
theorem sink_dispatch_eq_viaSinkRegistry {β : Type} (E : Env Hdr Enc Dec Cfg)
    (op : SinkOps Dec Cfg → Option β) (fallback : β) (p_codec_info : CodecInfo) :
    (do
      let vendor_id ← A2DP_VendorCodecGetVendorId E.toVendorConsts p_codec_info
      let codec_id ← A2DP_VendorCodecGetCodecId E.toVendorConsts p_codec_info
      if vendor_id = E.A2DP_LDAC_VENDOR_ID ∧ codec_id = E.A2DP_LDAC_CODEC_ID then
        op E.LdacSink
      else if vendor_id = E.A2DP_OPUS_VENDOR_ID ∧ codec_id = E.A2DP_OPUS_CODEC_ID then
        op E.OpusSink
      else if vendor_id = E.A2DP_LHDC_VENDOR_ID ∧ codec_id = E.A2DP_LHDCV3_CODEC_ID then
        op E.LhdcV3Sink
      else if vendor_id = E.A2DP_LHDC_VENDOR_ID ∧ codec_id = E.A2DP_LHDCV5_CODEC_ID then
        op E.LhdcV5Sink
      else
        pure fallback)
    = viaSinkRegistry E op fallback p_codec_info := by
  unfold viaSinkRegistry
  cases A2DP_VendorCodecGetVendorId E.toVendorConsts p_codec_info with
  | none => rfl
  | some vendor_id =>
    cases A2DP_VendorCodecGetCodecId E.toVendorConsts p_codec_info with
    | none => rfl
    | some codec_id =>
      refine (sink_chain_eq_resolveSink E.toVendorConsts vendor_id codec_id
        (fun F => match E.sinkOps F with
          | some S => op S
          | none => pure fallback) (pure fallback)).trans ?_
      simp only [Option.bind_eq_bind, Option.some_bind]

/-- C29: role support is the same for all sink side operations.  Each of the
seven sink side dispatchers (sink validity, peer source validity, sink
supported, peer source supported, sink track channel type, decoder interface,
sink codec index) decodes the key, looks it up among the families with a sink
side and applies the sink side operation of the family found, or gives its
fallback.  A family found there is LDAC, Opus, LHDC V3 or LHDC V5 and owns the
key, and with pairwise distinct registered keys it is the family that
`resolve`, the lookup of the source side and role neutral dispatchers, returns
on the key; each of the four keys is found; and a key that `resolve` does not
resolve is not found on the sink side. -/
theorem sink_role_support_consistent (E : Env Hdr Enc Dec Cfg) (hd : E.KeysDistinct) :
    (∀ p, A2DP_IsVendorSinkCodecValid E p
      = viaSinkRegistry E (fun S => S.A2DP_IsVendorSinkCodecValid p) false p) ∧
    (∀ p, A2DP_IsVendorPeerSourceCodecValid E p
      = viaSinkRegistry E (fun S => S.A2DP_IsVendorPeerSourceCodecValid p) false p) ∧
    (∀ p, A2DP_IsVendorSinkCodecSupported E p
      = viaSinkRegistry E (fun S => S.A2DP_IsVendorSinkCodecSupported p) false p) ∧
    (∀ p, A2DP_IsVendorPeerSourceCodecSupported E p
      = viaSinkRegistry E (fun S => S.A2DP_IsPeerSourceCodecSupported p) false p) ∧
    (∀ p, A2DP_VendorGetSinkTrackChannelType E p
      = viaSinkRegistry E (fun S => S.A2DP_VendorGetSinkTrackChannelType p) (-1) p) ∧
    (∀ p, A2DP_VendorGetDecoderInterface E p
      = viaSinkRegistry E (fun S => S.A2DP_VendorGetDecoderInterface p) none p) ∧
    (∀ p, A2DP_VendorSinkCodecIndex E p
      = viaSinkRegistry E (fun S => S.A2DP_VendorSinkCodecIndex p) .BTAV_A2DP_CODEC_INDEX_MAX p) ∧
    (∀ vendor_id codec_id F, E.resolveSink vendor_id codec_id = some F →
      (F = .Ldac ∨ F = .Opus ∨ F = .LhdcV3 ∨ F = .LhdcV5) ∧
        E.keyOf F = (vendor_id, codec_id) ∧
        E.resolve vendor_id codec_id = some F) ∧
    (∀ F, F = .Ldac ∨ F = .Opus ∨ F = .LhdcV3 ∨ F = .LhdcV5 →
      E.resolveSink (E.keyOf F).1 (E.keyOf F).2 = some F) ∧
    (∀ vendor_id codec_id, E.resolve vendor_id codec_id = none →
      E.resolveSink vendor_id codec_id = none) := by
  have sub : ∀ vendor_id codec_id F, E.resolveSink vendor_id codec_id = some F →
      (F = .Ldac ∨ F = .Opus ∨ F = .LhdcV3 ∨ F = .LhdcV5) ∧
        E.keyOf F = (vendor_id, codec_id) ∧
        E.resolve vendor_id codec_id = some F := by
    intro vendor_id codec_id F h
    obtain ⟨hF, hk⟩ := resolveSink_some E.toVendorConsts vendor_id codec_id F h
    have hr := resolve_keyOf E.toVendorConsts hd F
    rw [hk] at hr
    exact ⟨hF, hk, hr⟩
  refine ⟨?_, ?_, ?_, ?_, ?_, ?_, ?_, sub, resolveSink_keyOf E.toVendorConsts hd, ?_⟩
  · intro p
    exact sink_dispatch_eq_viaSinkRegistry E (fun S => S.A2DP_IsVendorSinkCodecValid p) false p
  · intro p
    exact sink_dispatch_eq_viaSinkRegistry E (fun S => S.A2DP_IsVendorPeerSourceCodecValid p) false p
  · intro p
    exact sink_dispatch_eq_viaSinkRegistry E (fun S => S.A2DP_IsVendorSinkCodecSupported p) false p
  · intro p
    exact sink_dispatch_eq_viaSinkRegistry E (fun S => S.A2DP_IsPeerSourceCodecSupported p) false p
  · intro p
    exact sink_dispatch_eq_viaSinkRegistry E (fun S => S.A2DP_VendorGetSinkTrackChannelType p) (-1) p
  · intro p
    exact sink_dispatch_eq_viaSinkRegistry E (fun S => S.A2DP_VendorGetDecoderInterface p) none p
  · intro p
    exact sink_dispatch_eq_viaSinkRegistry E (fun S => S.A2DP_VendorSinkCodecIndex p) .BTAV_A2DP_CODEC_INDEX_MAX p
  · intro vendor_id codec_id hnone
    cases hs : E.resolveSink vendor_id codec_id with
    | none => rfl
    | some F =>
      have hr := (sub vendor_id codec_id F hs).2.2
      rw [hnone] at hr
      exact absurd hr (by simp)

/-- C29 at the upstream constants: the LHDC V3 key is found on the sink side
and resolves to the same family, and the sink codec index dispatcher is the
sink side registry dispatcher on the LHDC V3 buffer. -/
theorem sink_role_support_consistent_witness :
    tagEnv.resolveSink (tagEnv.keyOf .LhdcV3).1 (tagEnv.keyOf .LhdcV3).2 = some .LhdcV3 ∧
      A2DP_VendorSinkCodecIndex tagEnv lhdcV3Buf
        = viaSinkRegistry tagEnv (fun S => S.A2DP_VendorSinkCodecIndex lhdcV3Buf)
            .BTAV_A2DP_CODEC_INDEX_MAX lhdcV3Buf :=
  ⟨(sink_role_support_consistent tagEnv (by decide)).2.2.2.2.2.2.2.2.1 .LhdcV3
      (Or.inr (Or.inr (Or.inl rfl))),
    (sink_role_support_consistent tagEnv (by decide)).2.2.2.2.2.2.1 lhdcV3Buf⟩


/-! ## Evaluations for the sink side and the LHDC keys -/

theorem eval_lhdcVendorIdOwn_upstream : upstreamConsts.LhdcVendorIdOwn := by decide

theorem eval_resolveSink_lhdcV3 :
    upstreamConsts.resolveSink 0x53A 0x4C33 = some .LhdcV3 := by decide

theorem eval_sinkSupported_forms :
    A2DP_IsVendorSinkCodecSupported_statements tagEnv lhdcV5Buf = some true ∧
      A2DP_IsVendorSinkCodecSupported_plainIf tagEnv lhdcV5Buf = some true ∧
      A2DP_IsVendorSinkCodecSupported tagEnv lhdcV5Buf = some true := by decide

theorem eval_supported_not_valid :
    A2DP_IsVendorSinkCodecSupported supportedFalseEnv ldacBuf = some false ∧
      A2DP_IsVendorSinkCodecValid supportedFalseEnv ldacBuf = some true := by decide

theorem eval_bitRate_lhdc :
    A2DP_VendorGetBitRate tagEnv lhdcV2Buf = some 5 ∧
      A2DP_VendorGetBitRate tagEnv lhdcV3Buf = some 6 ∧
      A2DP_VendorGetBitRate tagEnv lhdcV5Buf = some 7 ∧
      A2DP_VendorGetBitRate tagEnv lhdcOtherBuf = some (-1) := by decide

theorem eval_infoString_unknownBuf :
    A2DP_VendorCodecInfoString tagEnv unknownBuf
      = some "Unsupported codec vendor_id: ffffffff codec_id: ffff" := by decide

end A2dpVendor
